import Mathlib

/-!
Verification of the esbuild CLI option interpreter (`pkg/cli/cli_impl.go`).

Go strings are modelled as lists of characters (`GoStr`).  All byte-level
operations in the source (`strings.HasPrefix`, `strings.IndexByte`, slicing
after a matched ASCII prefix, `strings.Split`) split at character boundaries
exactly as the byte-level originals do on valid UTF-8 input, because every
separator and prefix involved is ASCII.  `fmt.Sprintf` with the `%q` verb is
modelled as plain double-quoting (none of the strings involved need escaping),
and `strings.ToLower` is modelled by ASCII character lowering (every table key
it is compared against is ASCII).
-/

set_option maxHeartbeats 1600000

set_option maxRecDepth 40000

abbrev GoStr := List Char

-- The double-quote and single-quote characters, used inside message texts.
def qChar : Char := Char.ofNat 34

def aChar : Char := Char.ofNat 39

def bChar : Char := Char.ofNat 92

-- strings.HasPrefix s p
def hasPfx (s p : GoStr) : Bool := p.isPrefixOf s

-- Split at the first occurrence of byte `c`: models the
-- `equals := strings.IndexByte(value, c)` / `value[:equals]` / `value[equals+1:]`
-- idiom; `none` models `equals == -1`.
def splitOnFirst (c : Char) : GoStr → Option (GoStr × GoStr)
  | [] => none
  | x :: xs =>
    if x == c then some ([], xs)
    else
      match splitOnFirst c xs with
      | none => none
      | some (a, b) => some (x :: a, b)

-- strings.Split s (single-character separator)
def splitOnCh (c : Char) : GoStr → List GoStr
  | [] => [[]]
  | x :: xs =>
    match splitOnCh c xs with
    | [] => [[]]
    | y :: ys => if x == c then [] :: y :: ys else (x :: y) :: ys

-- cli_impl.go: splitWithEmptyCheck (special-cases "" to return [] instead of [""])
def splitWithEmptyCheck (s : GoStr) (c : Char) : List GoStr :=
  if s == [] then [] else splitOnCh c s

-- strings.ContainsRune s c
def containsCh (c : Char) (s : GoStr) : Bool := s.any (· == c)

-- Index of the last occurrence of `c` (used by net.SplitHostPort).
def lastIdxOf (c : Char) (s : GoStr) : Option Nat :=
  s.foldl (fun (st : Nat × Option Nat) ch =>
    (st.1 + 1, if ch == c then some st.1 else st.2)) (0, none) |>.2

-- substring containment (used only to state claims about notes/messages)
def containsSub (sub : GoStr) : GoStr → Bool
  | [] => sub.isEmpty
  | c :: cs => sub.isPrefixOf (c :: cs) || containsSub sub cs

-- Go map assignment m[k] = v: replaces the entry when the key is present,
-- otherwise adds a new entry.  Association lists model Go's unordered maps;
-- key uniqueness is an invariant proved below.
def mapSet {α : Type} (m : List (GoStr × α)) (k : GoStr) (v : α) : List (GoStr × α) :=
  if m.any (fun p => p.1 == k) then m.map (fun p => if p.1 == k then (k, v) else p)
  else m ++ [(k, v)]

-- Go map lookup m[k]
def mapGet {α : Type} (m : List (GoStr × α)) (k : GoStr) : Option α :=
  (m.find? (fun p => p.1 == k)).map (fun p => p.2)

-- strings.ToLower, at the ASCII level (see the header comment).
def goToLower (s : GoStr) : GoStr := s.map Char.toLower

-- Go string comparison `<` (lexicographic byte order; ASCII here).
def goStrLt : GoStr → GoStr → Bool
  | [], [] => false
  | [], _ :: _ => true
  | _ :: _, [] => false
  | a :: as, b :: bs => if a.val < b.val then true else if b.val < a.val then false else goStrLt as bs

def sortInsert (x : GoStr) : List GoStr → List GoStr
  | [] => [x]
  | y :: ys => if goStrLt x y then x :: y :: ys else y :: sortInsert x ys

-- sort.Strings (ascending; the lists sorted here have no duplicates, so
-- stability is irrelevant)
def sortStrings : List GoStr → List GoStr
  | [] => []
  | x :: xs => sortInsert x (sortStrings xs)

-- strings.Join
def goJoin (sep : GoStr) : List GoStr → GoStr
  | [] => []
  | [x] => x
  | x :: y :: ys => x ++ sep ++ goJoin sep (y :: ys)

-- fmt %q (no escaping needed for the strings this is applied to)
def quoteGo (s : GoStr) : GoStr := qChar :: s ++ [qChar]

-- strconv.ParseInt(s, 10, bitSize): `some n` on success, `none` when Go
-- returns a non-nil error (empty string, bad digit, or out of range).
-- Helper: value of a non-empty all-digit string, most-significant digit first.
def goDigitsVal : GoStr → Option Nat
  | [] => none
  | l =>
    if l.all Char.isDigit then
      some (l.foldl (fun acc c => acc * 10 + (c.toNat - 48)) 0)
    else none

def goParseInt (s : GoStr) (bitSize : Nat) : Option Int :=
  let bound : Int := Int.ofNat (2 ^ (bitSize - 1))
  match s with
  | [] => none
  | c :: rest =>
    let (neg, digits) : Bool × GoStr :=
      if c == '-' then (true, rest) else if c == '+' then (false, rest) else (false, c :: rest)
    match goDigitsVal digits with
    | none => none
    | some n =>
      let v : Int := if neg then -(Int.ofNat n) else Int.ofNat n
      if v < -bound || bound - 1 < v then none else some v

structure ErrorWithNote where
  Text : GoStr
  Note : GoStr
  deriving DecidableEq

-- cli_helpers.MakeErrorWithNote
def MakeErrorWithNote (text note : GoStr) : ErrorWithNote := ⟨text, note⟩

instance {ε α : Type} [DecidableEq ε] [DecidableEq α] : DecidableEq (Except ε α) := fun x y =>
  match x, y with
  | .ok a, .ok b =>
    if h : a = b then .isTrue (by rw [h]) else .isFalse (by intro hc; cases hc; exact h rfl)
  | .error a, .error b =>
    if h : a = b then .isTrue (by rw [h]) else .isFalse (by intro hc; cases hc; exact h rfl)
  | .ok _, .error _ => .isFalse (by intro hc; cases hc)
  | .error _, .ok _ => .isFalse (by intro hc; cases hc)
-- constant text: --bundle
def c_bundle : GoStr := ['-', '-', 'b', 'u', 'n', 'd', 'l', 'e']

-- constant text: --preserve-symlinks
def c_preserve_symlinks : GoStr := ['-', '-', 'p', 'r', 'e', 's', 'e', 'r', 'v', 'e', '-', 's', 
  'y', 'm', 'l', 'i', 'n', 'k', 's']

-- constant text: --splitting
def c_splitting : GoStr := ['-', '-', 's', 'p', 'l', 'i', 't', 't', 'i', 'n', 'g']

-- constant text: --allow-overwrite
def c_allow_overwrite : GoStr := ['-', '-', 'a', 'l', 'l', 'o', 'w', '-', 'o', 'v', 'e', 'r', 
  'w', 'r', 'i', 't', 'e']

-- constant text: --watch
def c_watch : GoStr := ['-', '-', 'w', 'a', 't', 'c', 'h']

-- constant text: --minify
def c_minify : GoStr := ['-', '-', 'm', 'i', 'n', 'i', 'f', 'y']

-- constant text: --minify-syntax
def c_minify_syntax : GoStr := ['-', '-', 'm', 'i', 'n', 'i', 'f', 'y', '-', 's', 'y', 'n', 't', 
  'a', 'x']

-- constant text: --minify-whitespace
def c_minify_whitespace : GoStr := ['-', '-', 'm', 'i', 'n', 'i', 'f', 'y', '-', 'w', 'h', 'i', 
  't', 'e', 's', 'p', 'a', 'c', 'e']

-- constant text: --minify-identifiers
def c_minify_identifiers : GoStr := ['-', '-', 'm', 'i', 'n', 'i', 'f', 'y', '-', 'i', 'd', 'e', 
  'n', 't', 'i', 'f', 'i', 'e', 'r', 's']

-- constant text: --legal-comments=
def c_legal_comments_eq : GoStr := ['-', '-', 'l', 'e', 'g', 'a', 'l', '-', 'c', 'o', 'm', 'm', 
  'e', 'n', 't', 's', '=']

-- constant text: --charset=
def c_charset_eq : GoStr := ['-', '-', 'c', 'h', 'a', 'r', 's', 'e', 't', '=']

-- constant text: --tree-shaking=
def c_tree_shaking_eq : GoStr := ['-', '-', 't', 'r', 'e', 'e', '-', 's', 'h', 'a', 'k', 'i', 
  'n', 'g', '=']

-- constant text: --ignore-annotations
def c_ignore_annots : GoStr := ['-', '-', 'i', 'g', 'n', 'o', 'r', 'e', '-', 'a', 'n', 'n', 'o', 
  't', 'a', 't', 'i', 'o', 'n', 's']

-- constant text: --keep-names
def c_keep_names : GoStr := ['-', '-', 'k', 'e', 'e', 'p', '-', 'n', 'a', 'm', 'e', 's']

-- constant text: --sourcemap
def c_sourcemap : GoStr := ['-', '-', 's', 'o', 'u', 'r', 'c', 'e', 'm', 'a', 'p']

-- constant text: --sourcemap=
def c_sourcemap_eq : GoStr := ['-', '-', 's', 'o', 'u', 'r', 'c', 'e', 'm', 'a', 'p', '=']

-- constant text: --source-root=
def c_source_root_eq : GoStr := ['-', '-', 's', 'o', 'u', 'r', 'c', 'e', '-', 'r', 'o', 'o', 't', 
  '=']

-- constant text: --sources-content=
def c_sources_content_eq : GoStr := ['-', '-', 's', 'o', 'u', 'r', 'c', 'e', 's', '-', 'c', 'o', 
  'n', 't', 'e', 'n', 't', '=']

-- constant text: --sourcefile=
def c_sourcefile_eq : GoStr := ['-', '-', 's', 'o', 'u', 'r', 'c', 'e', 'f', 'i', 'l', 'e', '=']

-- constant text: --resolve-extensions=
def c_resolve_extensions_eq : GoStr := ['-', '-', 'r', 'e', 's', 'o', 'l', 'v', 'e', '-', 'e', 
  'x', 't', 'e', 'n', 's', 'i', 'o', 'n', 's', '=']

-- constant text: --main-fields=
def c_main_fields_eq : GoStr := ['-', '-', 'm', 'a', 'i', 'n', '-', 'f', 'i', 'e', 'l', 'd', 's', 
  '=']

-- constant text: --conditions=
def c_conditions_eq : GoStr := ['-', '-', 'c', 'o', 'n', 'd', 'i', 't', 'i', 'o', 'n', 's', '=']

-- constant text: --public-path=
def c_public_path_eq : GoStr := ['-', '-', 'p', 'u', 'b', 'l', 'i', 'c', '-', 'p', 'a', 't', 'h', 
  '=']

-- constant text: --global-name=
def c_global_name_eq : GoStr := ['-', '-', 'g', 'l', 'o', 'b', 'a', 'l', '-', 'n', 'a', 'm', 'e', 
  '=']

-- constant text: --metafile
def c_metafile : GoStr := ['-', '-', 'm', 'e', 't', 'a', 'f', 'i', 'l', 'e']

-- constant text: --metafile=
def c_metafile_eq : GoStr := ['-', '-', 'm', 'e', 't', 'a', 'f', 'i', 'l', 'e', '=']

-- constant text: --outfile=
def c_outfile_eq : GoStr := ['-', '-', 'o', 'u', 't', 'f', 'i', 'l', 'e', '=']

-- constant text: --outdir=
def c_outdir_eq : GoStr := ['-', '-', 'o', 'u', 't', 'd', 'i', 'r', '=']

-- constant text: --outbase=
def c_outbase_eq : GoStr := ['-', '-', 'o', 'u', 't', 'b', 'a', 's', 'e', '=']

-- constant text: --tsconfig=
def c_tsconfig_eq : GoStr := ['-', '-', 't', 's', 'c', 'o', 'n', 'f', 'i', 'g', '=']

-- constant text: --tsconfig-raw=
def c_tsconfig_raw_eq : GoStr := ['-', '-', 't', 's', 'c', 'o', 'n', 'f', 'i', 'g', '-', 'r', 
  'a', 'w', '=']

-- constant text: --entry-names=
def c_entry_names_eq : GoStr := ['-', '-', 'e', 'n', 't', 'r', 'y', '-', 'n', 'a', 'm', 'e', 's', 
  '=']

-- constant text: --chunk-names=
def c_chunk_names_eq : GoStr := ['-', '-', 'c', 'h', 'u', 'n', 'k', '-', 'n', 'a', 'm', 'e', 's', 
  '=']

-- constant text: --asset-names=
def c_asset_names_eq : GoStr := ['-', '-', 'a', 's', 's', 'e', 't', '-', 'n', 'a', 'm', 'e', 's', 
  '=']

-- constant text: --define:
def c_define_colon : GoStr := ['-', '-', 'd', 'e', 'f', 'i', 'n', 'e', ':']

-- constant text: --pure:
def c_pure_colon : GoStr := ['-', '-', 'p', 'u', 'r', 'e', ':']

-- constant text: --loader:
def c_loader_colon : GoStr := ['-', '-', 'l', 'o', 'a', 'd', 'e', 'r', ':']

-- constant text: --loader=
def c_loader_eq : GoStr := ['-', '-', 'l', 'o', 'a', 'd', 'e', 'r', '=']

-- constant text: --target=
def c_target_eq : GoStr := ['-', '-', 't', 'a', 'r', 'g', 'e', 't', '=']

-- constant text: --out-extension:
def c_out_extension_colon : GoStr := ['-', '-', 'o', 'u', 't', '-', 'e', 'x', 't', 'e', 'n', 's', 
  'i', 'o', 'n', ':']

-- constant text: --platform=
def c_platform_eq : GoStr := ['-', '-', 'p', 'l', 'a', 't', 'f', 'o', 'r', 'm', '=']

-- constant text: --format=
def c_format_eq : GoStr := ['-', '-', 'f', 'o', 'r', 'm', 'a', 't', '=']

-- constant text: --external:
def c_external_colon : GoStr := ['-', '-', 'e', 'x', 't', 'e', 'r', 'n', 'a', 'l', ':']

-- constant text: --inject:
def c_inject_colon : GoStr := ['-', '-', 'i', 'n', 'j', 'e', 'c', 't', ':']

-- constant text: --jsx=
def c_jsx_eq : GoStr := ['-', '-', 'j', 's', 'x', '=']

-- constant text: --jsx-factory=
def c_jsx_factory_eq : GoStr := ['-', '-', 'j', 's', 'x', '-', 'f', 'a', 'c', 't', 'o', 'r', 'y', 
  '=']

-- constant text: --jsx-fragment=
def c_jsx_fragment_eq : GoStr := ['-', '-', 'j', 's', 'x', '-', 'f', 'r', 'a', 'g', 'm', 'e', 
  'n', 't', '=']

-- constant text: --banner=
def c_banner_eq : GoStr := ['-', '-', 'b', 'a', 'n', 'n', 'e', 'r', '=']

-- constant text: --footer=
def c_footer_eq : GoStr := ['-', '-', 'f', 'o', 'o', 't', 'e', 'r', '=']

-- constant text: --banner:
def c_banner_colon : GoStr := ['-', '-', 'b', 'a', 'n', 'n', 'e', 'r', ':']

-- constant text: --footer:
def c_footer_colon : GoStr := ['-', '-', 'f', 'o', 'o', 't', 'e', 'r', ':']

-- constant text: --log-limit=
def c_log_limit_eq : GoStr := ['-', '-', 'l', 'o', 'g', '-', 'l', 'i', 'm', 'i', 't', '=']

-- constant text: --color=
def c_color_eq : GoStr := ['-', '-', 'c', 'o', 'l', 'o', 'r', '=']

-- constant text: --log-level=
def c_log_level_eq : GoStr := ['-', '-', 'l', 'o', 'g', '-', 'l', 'e', 'v', 'e', 'l', '=']

-- constant text: '--
def c_quote_2dash : GoStr := [aChar, '-', '-']

-- constant text: -
def c_dash : GoStr := ['-']

-- constant text: --
def c_2dash : GoStr := ['-', '-']

-- constant text: -o
def c_dash_o : GoStr := ['-', 'o']

-- constant text: -v
def c_dash_v : GoStr := ['-', 'v']

-- constant text: --serve
def c_serve : GoStr := ['-', '-', 's', 'e', 'r', 'v', 'e']

-- constant text: --serve=
def c_serve_eq : GoStr := ['-', '-', 's', 'e', 'r', 'v', 'e', '=']

-- constant text: --servedir=
def c_servedir_eq : GoStr := ['-', '-', 's', 'e', 'r', 'v', 'e', 'd', 'i', 'r', '=']

-- constant text: none
def v_none : GoStr := ['n', 'o', 'n', 'e']

-- constant text: inline
def v_inline : GoStr := ['i', 'n', 'l', 'i', 'n', 'e']

-- constant text: eof
def v_eof : GoStr := ['e', 'o', 'f']

-- constant text: linked
def v_linked : GoStr := ['l', 'i', 'n', 'k', 'e', 'd']

-- constant text: external
def v_external : GoStr := ['e', 'x', 't', 'e', 'r', 'n', 'a', 'l']

-- constant text: both
def v_both : GoStr := ['b', 'o', 't', 'h']

-- constant text: ascii
def v_ascii : GoStr := ['a', 's', 'c', 'i', 'i']

-- constant text: utf8
def v_utf8 : GoStr := ['u', 't', 'f', '8']

-- constant text: true
def v_true : GoStr := ['t', 'r', 'u', 'e']

-- constant text: false
def v_false : GoStr := ['f', 'a', 'l', 's', 'e']

-- constant text: browser
def v_browser : GoStr := ['b', 'r', 'o', 'w', 's', 'e', 'r']

-- constant text: node
def v_node : GoStr := ['n', 'o', 'd', 'e']

-- constant text: neutral
def v_neutral : GoStr := ['n', 'e', 'u', 't', 'r', 'a', 'l']

-- constant text: iife
def v_iife : GoStr := ['i', 'i', 'f', 'e']

-- constant text: cjs
def v_cjs : GoStr := ['c', 'j', 's']

-- constant text: esm
def v_esm : GoStr := ['e', 's', 'm']

-- constant text: transform
def v_transform : GoStr := ['t', 'r', 'a', 'n', 's', 'f', 'o', 'r', 'm']

-- constant text: preserve
def v_preserve : GoStr := ['p', 'r', 'e', 's', 'e', 'r', 'v', 'e']

-- constant text: verbose
def v_verbose : GoStr := ['v', 'e', 'r', 'b', 'o', 's', 'e']

-- constant text: debug
def v_debug : GoStr := ['d', 'e', 'b', 'u', 'g']

-- constant text: info
def v_info : GoStr := ['i', 'n', 'f', 'o']

-- constant text: warning
def v_warning : GoStr := ['w', 'a', 'r', 'n', 'i', 'n', 'g']

-- constant text: error
def v_error : GoStr := ['e', 'r', 'r', 'o', 'r']

-- constant text: silent
def v_silent : GoStr := ['s', 'i', 'l', 'e', 'n', 't']

-- constant text: allow-overwrite
def n_allow_overwrite : GoStr := ['a', 'l', 'l', 'o', 'w', '-', 'o', 'v', 'e', 'r', 'w', 'r', 
  'i', 't', 'e']

-- constant text: bundle
def n_bundle : GoStr := ['b', 'u', 'n', 'd', 'l', 'e']

-- constant text: ignore-annotations
def n_ignore_annots : GoStr := ['i', 'g', 'n', 'o', 'r', 'e', '-', 'a', 'n', 'n', 'o', 't', 'a', 
  't', 'i', 'o', 'n', 's']

-- constant text: keep-names
def n_keep_names : GoStr := ['k', 'e', 'e', 'p', '-', 'n', 'a', 'm', 'e', 's']

-- constant text: metafile
def n_metafile : GoStr := ['m', 'e', 't', 'a', 'f', 'i', 'l', 'e']

-- constant text: minify-identifiers
def n_minify_identifiers : GoStr := ['m', 'i', 'n', 'i', 'f', 'y', '-', 'i', 'd', 'e', 'n', 't', 
  'i', 'f', 'i', 'e', 'r', 's']

-- constant text: minify-syntax
def n_minify_syntax : GoStr := ['m', 'i', 'n', 'i', 'f', 'y', '-', 's', 'y', 'n', 't', 'a', 'x']

-- constant text: minify-whitespace
def n_minify_whitespace : GoStr := ['m', 'i', 'n', 'i', 'f', 'y', '-', 'w', 'h', 'i', 't', 'e', 
  's', 'p', 'a', 'c', 'e']

-- constant text: minify
def n_minify : GoStr := ['m', 'i', 'n', 'i', 'f', 'y']

-- constant text: preserve-symlinks
def n_preserve_symlinks : GoStr := ['p', 'r', 'e', 's', 'e', 'r', 'v', 'e', '-', 's', 'y', 'm', 
  'l', 'i', 'n', 'k', 's']

-- constant text: sourcemap
def n_sourcemap : GoStr := ['s', 'o', 'u', 'r', 'c', 'e', 'm', 'a', 'p']

-- constant text: splitting
def n_splitting : GoStr := ['s', 'p', 'l', 'i', 't', 't', 'i', 'n', 'g']

-- constant text: watch
def n_watch : GoStr := ['w', 'a', 't', 'c', 'h']

-- constant text: legal-comments
def n_legal_comments : GoStr := ['l', 'e', 'g', 'a', 'l', '-', 'c', 'o', 'm', 'm', 'e', 'n', 't', 
  's']

-- constant text: charset
def n_charset : GoStr := ['c', 'h', 'a', 'r', 's', 'e', 't']

-- constant text: tree-shaking
def n_tree_shaking : GoStr := ['t', 'r', 'e', 'e', '-', 's', 'h', 'a', 'k', 'i', 'n', 'g']

-- constant text: source-root
def n_source_root : GoStr := ['s', 'o', 'u', 'r', 'c', 'e', '-', 'r', 'o', 'o', 't']

-- constant text: sources-content
def n_sources_content : GoStr := ['s', 'o', 'u', 'r', 'c', 'e', 's', '-', 'c', 'o', 'n', 't', 
  'e', 'n', 't']

-- constant text: sourcefile
def n_sourcefile : GoStr := ['s', 'o', 'u', 'r', 'c', 'e', 'f', 'i', 'l', 'e']

-- constant text: resolve-extensions
def n_resolve_extensions : GoStr := ['r', 'e', 's', 'o', 'l', 'v', 'e', '-', 'e', 'x', 't', 'e', 
  'n', 's', 'i', 'o', 'n', 's']

-- constant text: main-fields
def n_main_fields : GoStr := ['m', 'a', 'i', 'n', '-', 'f', 'i', 'e', 'l', 'd', 's']

-- constant text: conditions
def n_conditions : GoStr := ['c', 'o', 'n', 'd', 'i', 't', 'i', 'o', 'n', 's']

-- constant text: public-path
def n_public_path : GoStr := ['p', 'u', 'b', 'l', 'i', 'c', '-', 'p', 'a', 't', 'h']

-- constant text: global-name
def n_global_name : GoStr := ['g', 'l', 'o', 'b', 'a', 'l', '-', 'n', 'a', 'm', 'e']

-- constant text: outfile
def n_outfile : GoStr := ['o', 'u', 't', 'f', 'i', 'l', 'e']

-- constant text: outdir
def n_outdir : GoStr := ['o', 'u', 't', 'd', 'i', 'r']

-- constant text: outbase
def n_outbase : GoStr := ['o', 'u', 't', 'b', 'a', 's', 'e']

-- constant text: tsconfig
def n_tsconfig : GoStr := ['t', 's', 'c', 'o', 'n', 'f', 'i', 'g']

-- constant text: tsconfig-raw
def n_tsconfig_raw : GoStr := ['t', 's', 'c', 'o', 'n', 'f', 'i', 'g', '-', 'r', 'a', 'w']

-- constant text: entry-names
def n_entry_names : GoStr := ['e', 'n', 't', 'r', 'y', '-', 'n', 'a', 'm', 'e', 's']

-- constant text: chunk-names
def n_chunk_names : GoStr := ['c', 'h', 'u', 'n', 'k', '-', 'n', 'a', 'm', 'e', 's']

-- constant text: asset-names
def n_asset_names : GoStr := ['a', 's', 's', 'e', 't', '-', 'n', 'a', 'm', 'e', 's']

-- constant text: loader
def n_loader : GoStr := ['l', 'o', 'a', 'd', 'e', 'r']

-- constant text: target
def n_target : GoStr := ['t', 'a', 'r', 'g', 'e', 't']

-- constant text: platform
def n_platform : GoStr := ['p', 'l', 'a', 't', 'f', 'o', 'r', 'm']

-- constant text: format
def n_format : GoStr := ['f', 'o', 'r', 'm', 'a', 't']

-- constant text: jsx
def n_jsx : GoStr := ['j', 's', 'x']

-- constant text: jsx-factory
def n_jsx_factory : GoStr := ['j', 's', 'x', '-', 'f', 'a', 'c', 't', 'o', 'r', 'y']

-- constant text: jsx-fragment
def n_jsx_fragment : GoStr := ['j', 's', 'x', '-', 'f', 'r', 'a', 'g', 'm', 'e', 'n', 't']

-- constant text: banner
def n_banner : GoStr := ['b', 'a', 'n', 'n', 'e', 'r']

-- constant text: footer
def n_footer : GoStr := ['f', 'o', 'o', 't', 'e', 'r']

-- constant text: log-limit
def n_log_limit : GoStr := ['l', 'o', 'g', '-', 'l', 'i', 'm', 'i', 't']

-- constant text: color
def n_color : GoStr := ['c', 'o', 'l', 'o', 'r']

-- constant text: log-level
def n_log_level : GoStr := ['l', 'o', 'g', '-', 'l', 'e', 'v', 'e', 'l']

-- constant text: define
def n_define : GoStr := ['d', 'e', 'f', 'i', 'n', 'e']

-- constant text: pure
def n_pure : GoStr := ['p', 'u', 'r', 'e']

-- constant text: out-extension
def n_out_extension : GoStr := ['o', 'u', 't', '-', 'e', 'x', 't', 'e', 'n', 's', 'i', 'o', 'n']

-- constant text: external
def n_external : GoStr := ['e', 'x', 't', 'e', 'r', 'n', 'a', 'l']

-- constant text: inject
def n_inject : GoStr := ['i', 'n', 'j', 'e', 'c', 't']

-- constant text: esnext
def t_esnext : GoStr := ['e', 's', 'n', 'e', 'x', 't']

-- constant text: es5
def t_es5 : GoStr := ['e', 's', '5']

-- constant text: es6
def t_es6 : GoStr := ['e', 's', '6']

-- constant text: es2015
def t_es2015 : GoStr := ['e', 's', '2', '0', '1', '5']

-- constant text: es2016
def t_es2016 : GoStr := ['e', 's', '2', '0', '1', '6']

-- constant text: es2017
def t_es2017 : GoStr := ['e', 's', '2', '0', '1', '7']

-- constant text: es2018
def t_es2018 : GoStr := ['e', 's', '2', '0', '1', '8']

-- constant text: es2019
def t_es2019 : GoStr := ['e', 's', '2', '0', '1', '9']

-- constant text: es2020
def t_es2020 : GoStr := ['e', 's', '2', '0', '2', '0']

-- constant text: es2021
def t_es2021 : GoStr := ['e', 's', '2', '0', '2', '1']

-- constant text: esN
def t_esN : GoStr := ['e', 's', 'N']

-- constant text: chrome
def e_chrome : GoStr := ['c', 'h', 'r', 'o', 'm', 'e']

-- constant text: firefox
def e_firefox : GoStr := ['f', 'i', 'r', 'e', 'f', 'o', 'x']

-- constant text: safari
def e_safari : GoStr := ['s', 'a', 'f', 'a', 'r', 'i']

-- constant text: edge
def e_edge : GoStr := ['e', 'd', 'g', 'e']

-- constant text: node
def e_node : GoStr := ['n', 'o', 'd', 'e']

-- constant text: ios
def e_ios : GoStr := ['i', 'o', 's']

-- constant text: js
def l_js : GoStr := ['j', 's']

-- constant text: jsx
def l_jsx : GoStr := ['j', 's', 'x']

-- constant text: ts
def l_ts : GoStr := ['t', 's']

-- constant text: tsx
def l_tsx : GoStr := ['t', 's', 'x']

-- constant text: css
def l_css : GoStr := ['c', 's', 's']

-- constant text: json
def l_json : GoStr := ['j', 's', 'o', 'n']

-- constant text: text
def l_text : GoStr := ['t', 'e', 'x', 't']

-- constant text: base64
def l_base64 : GoStr := ['b', 'a', 's', 'e', '6', '4']

-- constant text: dataurl
def l_dataurl : GoStr := ['d', 'a', 't', 'a', 'u', 'r', 'l']

-- constant text: file
def l_file : GoStr := ['f', 'i', 'l', 'e']

-- constant text: binary
def l_binary : GoStr := ['b', 'i', 'n', 'a', 'r', 'y']

-- constant text: default
def l_default : GoStr := ['d', 'e', 'f', 'a', 'u', 'l', 't']

-- constant text: Invalid value 
def m_invalid_value : GoStr := ['I', 'n', 'v', 'a', 'l', 'i', 'd', ' ', 'v', 'a', 'l', 'u', 'e', 
  ' ']

-- constant text:  in 
def m_in : GoStr := [' ', 'i', 'n', ' ']

-- constant text: Valid values are "none", "inline", "eof", "linked", or "external".
def m_valid_legal_comments : GoStr := ['V', 'a', 'l', 'i', 'd', ' ', 'v', 'a', 'l', 'u', 'e', 
  's', ' ', 'a', 'r', 'e', ' ', qChar, 'n', 'o', 'n', 'e', qChar, ',', ' ', qChar, 'i', 'n', 'l', 
  'i', 'n', 'e', qChar, ',', ' ', qChar, 'e', 'o', 'f', qChar, ',', ' ', qChar, 'l', 'i', 'n', 
  'k', 'e', 'd', qChar, ',', ' ', 'o', 'r', ' ', qChar, 'e', 'x', 't', 'e', 'r', 'n', 'a', 'l', 
  qChar, '.']

-- constant text: Valid values are "ascii" or "utf8".
def m_valid_charset : GoStr := ['V', 'a', 'l', 'i', 'd', ' ', 'v', 'a', 'l', 'u', 'e', 's', ' ', 
  'a', 'r', 'e', ' ', qChar, 'a', 's', 'c', 'i', 'i', qChar, ' ', 'o', 'r', ' ', qChar, 'u', 't', 
  'f', '8', qChar, '.']

-- constant text: Valid values are "true" or "false".
def m_valid_bool : GoStr := ['V', 'a', 'l', 'i', 'd', ' ', 'v', 'a', 'l', 'u', 'e', 's', ' ', 
  'a', 'r', 'e', ' ', qChar, 't', 'r', 'u', 'e', qChar, ' ', 'o', 'r', ' ', qChar, 'f', 'a', 'l', 
  's', 'e', qChar, '.']

-- constant text: Valid values are "inline", "external", or "both".
def m_valid_sourcemap : GoStr := ['V', 'a', 'l', 'i', 'd', ' ', 'v', 'a', 'l', 'u', 'e', 's', 
  ' ', 'a', 'r', 'e', ' ', qChar, 'i', 'n', 'l', 'i', 'n', 'e', qChar, ',', ' ', qChar, 'e', 'x', 
  't', 'e', 'r', 'n', 'a', 'l', qChar, ',', ' ', 'o', 'r', ' ', qChar, 'b', 'o', 't', 'h', qChar, 
  '.']

-- constant text: Missing "=" in 
def m_missing_eq_in : GoStr := ['M', 'i', 's', 's', 'i', 'n', 'g', ' ', qChar, '=', qChar, ' ', 
  'i', 'n', ' ']

-- constant text: You need to use "=" to specify both the original value and the replacement value. For example, "--define:DEBUG=true" replaces "DEBUG" with "true".
def m_define_note : GoStr := ['Y', 'o', 'u', ' ', 'n', 'e', 'e', 'd', ' ', 't', 'o', ' ', 'u', 
  's', 'e', ' ', qChar, '=', qChar, ' ', 't', 'o', ' ', 's', 'p', 'e', 'c', 'i', 'f', 'y', ' ', 
  'b', 'o', 't', 'h', ' ', 't', 'h', 'e', ' ', 'o', 'r', 'i', 'g', 'i', 'n', 'a', 'l', ' ', 'v', 
  'a', 'l', 'u', 'e', ' ', 'a', 'n', 'd', ' ', 't', 'h', 'e', ' ', 'r', 'e', 'p', 'l', 'a', 'c', 
  'e', 'm', 'e', 'n', 't', ' ', 'v', 'a', 'l', 'u', 'e', '.', ' ', 'F', 'o', 'r', ' ', 'e', 'x', 
  'a', 'm', 'p', 'l', 'e', ',', ' ', qChar, '-', '-', 'd', 'e', 'f', 'i', 'n', 'e', ':', 'D', 
  'E', 'B', 'U', 'G', '=', 't', 'r', 'u', 'e', qChar, ' ', 'r', 'e', 'p', 'l', 'a', 'c', 'e', 
  's', ' ', qChar, 'D', 'E', 'B', 'U', 'G', qChar, ' ', 'w', 'i', 't', 'h', ' ', qChar, 't', 'r', 
  'u', 'e', qChar, '.']

-- constant text: You need to specify the file extension that the loader applies to. For example, "--loader:.js=jsx" applies the "jsx" loader to files with the ".js" extension.
def m_loader_colon_note : GoStr := ['Y', 'o', 'u', ' ', 'n', 'e', 'e', 'd', ' ', 't', 'o', ' ', 
  's', 'p', 'e', 'c', 'i', 'f', 'y', ' ', 't', 'h', 'e', ' ', 'f', 'i', 'l', 'e', ' ', 'e', 'x', 
  't', 'e', 'n', 's', 'i', 'o', 'n', ' ', 't', 'h', 'a', 't', ' ', 't', 'h', 'e', ' ', 'l', 'o', 
  'a', 'd', 'e', 'r', ' ', 'a', 'p', 'p', 'l', 'i', 'e', 's', ' ', 't', 'o', '.', ' ', 'F', 'o', 
  'r', ' ', 'e', 'x', 'a', 'm', 'p', 'l', 'e', ',', ' ', qChar, '-', '-', 'l', 'o', 'a', 'd', 
  'e', 'r', ':', '.', 'j', 's', '=', 'j', 's', 'x', qChar, ' ', 'a', 'p', 'p', 'l', 'i', 'e', 
  's', ' ', 't', 'h', 'e', ' ', qChar, 'j', 's', 'x', qChar, ' ', 'l', 'o', 'a', 'd', 'e', 'r', 
  ' ', 't', 'o', ' ', 'f', 'i', 'l', 'e', 's', ' ', 'w', 'i', 't', 'h', ' ', 't', 'h', 'e', ' ', 
  qChar, '.', 'j', 's', qChar, ' ', 'e', 'x', 't', 'e', 'n', 's', 'i', 'o', 'n', '.']

-- constant text:  is not supported when transforming stdin
def m_not_supported_stdin : GoStr := [' ', 'i', 's', ' ', 'n', 'o', 't', ' ', 's', 'u', 'p', 'p', 
  'o', 'r', 't', 'e', 'd', ' ', 'w', 'h', 'e', 'n', ' ', 't', 'r', 'a', 'n', 's', 'f', 'o', 'r', 
  'm', 'i', 'n', 'g', ' ', 's', 't', 'd', 'i', 'n']

-- constant text: Using esbuild to transform stdin only generates one output file, so you cannot use the "file" loader since that needs to generate two output files.
def m_file_loader_note : GoStr := ['U', 's', 'i', 'n', 'g', ' ', 'e', 's', 'b', 'u', 'i', 'l', 
  'd', ' ', 't', 'o', ' ', 't', 'r', 'a', 'n', 's', 'f', 'o', 'r', 'm', ' ', 's', 't', 'd', 'i', 
  'n', ' ', 'o', 'n', 'l', 'y', ' ', 'g', 'e', 'n', 'e', 'r', 'a', 't', 'e', 's', ' ', 'o', 'n', 
  'e', ' ', 'o', 'u', 't', 'p', 'u', 't', ' ', 'f', 'i', 'l', 'e', ',', ' ', 's', 'o', ' ', 'y', 
  'o', 'u', ' ', 'c', 'a', 'n', 'n', 'o', 't', ' ', 'u', 's', 'e', ' ', 't', 'h', 'e', ' ', 
  qChar, 'f', 'i', 'l', 'e', qChar, ' ', 'l', 'o', 'a', 'd', 'e', 'r', ' ', 's', 'i', 'n', 'c', 
  'e', ' ', 't', 'h', 'a', 't', ' ', 'n', 'e', 'e', 'd', 's', ' ', 't', 'o', ' ', 'g', 'e', 'n', 
  'e', 'r', 'a', 't', 'e', ' ', 't', 'w', 'o', ' ', 'o', 'u', 't', 'p', 'u', 't', ' ', 'f', 'i', 
  'l', 'e', 's', '.']

-- constant text: You need to use either "--out-extension:.js=..." or "--out-extension:.css=..." to specify the file type that the output extension applies to .
def m_out_extension_note : GoStr := ['Y', 'o', 'u', ' ', 'n', 'e', 'e', 'd', ' ', 't', 'o', ' ', 
  'u', 's', 'e', ' ', 'e', 'i', 't', 'h', 'e', 'r', ' ', qChar, '-', '-', 'o', 'u', 't', '-', 
  'e', 'x', 't', 'e', 'n', 's', 'i', 'o', 'n', ':', '.', 'j', 's', '=', '.', '.', '.', qChar, 
  ' ', 'o', 'r', ' ', qChar, '-', '-', 'o', 'u', 't', '-', 'e', 'x', 't', 'e', 'n', 's', 'i', 
  'o', 'n', ':', '.', 'c', 's', 's', '=', '.', '.', '.', qChar, ' ', 't', 'o', ' ', 's', 'p', 
  'e', 'c', 'i', 'f', 'y', ' ', 't', 'h', 'e', ' ', 'f', 'i', 'l', 'e', ' ', 't', 'y', 'p', 'e', 
  ' ', 't', 'h', 'a', 't', ' ', 't', 'h', 'e', ' ', 'o', 'u', 't', 'p', 'u', 't', ' ', 'e', 'x', 
  't', 'e', 'n', 's', 'i', 'o', 'n', ' ', 'a', 'p', 'p', 'l', 'i', 'e', 's', ' ', 't', 'o', ' ', 
  '.']

-- constant text: Valid values are "browser", "node", or "neutral".
def m_valid_platform : GoStr := ['V', 'a', 'l', 'i', 'd', ' ', 'v', 'a', 'l', 'u', 'e', 's', ' ', 
  'a', 'r', 'e', ' ', qChar, 'b', 'r', 'o', 'w', 's', 'e', 'r', qChar, ',', ' ', qChar, 'n', 'o', 
  'd', 'e', qChar, ',', ' ', 'o', 'r', ' ', qChar, 'n', 'e', 'u', 't', 'r', 'a', 'l', qChar, '.']

-- constant text: Valid values are "iife", "cjs", or "esm".
def m_valid_format : GoStr := ['V', 'a', 'l', 'i', 'd', ' ', 'v', 'a', 'l', 'u', 'e', 's', ' ', 
  'a', 'r', 'e', ' ', qChar, 'i', 'i', 'f', 'e', qChar, ',', ' ', qChar, 'c', 'j', 's', qChar, 
  ',', ' ', 'o', 'r', ' ', qChar, 'e', 's', 'm', qChar, '.']

-- constant text: Valid values are "transform" or "preserve".
def m_valid_jsx : GoStr := ['V', 'a', 'l', 'i', 'd', ' ', 'v', 'a', 'l', 'u', 'e', 's', ' ', 'a', 
  'r', 'e', ' ', qChar, 't', 'r', 'a', 'n', 's', 'f', 'o', 'r', 'm', qChar, ' ', 'o', 'r', ' ', 
  qChar, 'p', 'r', 'e', 's', 'e', 'r', 'v', 'e', qChar, '.']

-- constant text: You need to use either "--banner:js=..." or "--banner:css=..." to specify the language that the banner applies to.
def m_banner_colon_note : GoStr := ['Y', 'o', 'u', ' ', 'n', 'e', 'e', 'd', ' ', 't', 'o', ' ', 
  'u', 's', 'e', ' ', 'e', 'i', 't', 'h', 'e', 'r', ' ', qChar, '-', '-', 'b', 'a', 'n', 'n', 
  'e', 'r', ':', 'j', 's', '=', '.', '.', '.', qChar, ' ', 'o', 'r', ' ', qChar, '-', '-', 'b', 
  'a', 'n', 'n', 'e', 'r', ':', 'c', 's', 's', '=', '.', '.', '.', qChar, ' ', 't', 'o', ' ', 
  's', 'p', 'e', 'c', 'i', 'f', 'y', ' ', 't', 'h', 'e', ' ', 'l', 'a', 'n', 'g', 'u', 'a', 'g', 
  'e', ' ', 't', 'h', 'a', 't', ' ', 't', 'h', 'e', ' ', 'b', 'a', 'n', 'n', 'e', 'r', ' ', 'a', 
  'p', 'p', 'l', 'i', 'e', 's', ' ', 't', 'o', '.']

-- constant text: You need to use either "--footer:js=..." or "--footer:css=..." to specify the language that the footer applies to.
def m_footer_colon_note : GoStr := ['Y', 'o', 'u', ' ', 'n', 'e', 'e', 'd', ' ', 't', 'o', ' ', 
  'u', 's', 'e', ' ', 'e', 'i', 't', 'h', 'e', 'r', ' ', qChar, '-', '-', 'f', 'o', 'o', 't', 
  'e', 'r', ':', 'j', 's', '=', '.', '.', '.', qChar, ' ', 'o', 'r', ' ', qChar, '-', '-', 'f', 
  'o', 'o', 't', 'e', 'r', ':', 'c', 's', 's', '=', '.', '.', '.', qChar, ' ', 't', 'o', ' ', 
  's', 'p', 'e', 'c', 'i', 'f', 'y', ' ', 't', 'h', 'e', ' ', 'l', 'a', 'n', 'g', 'u', 'a', 'g', 
  'e', ' ', 't', 'h', 'a', 't', ' ', 't', 'h', 'e', ' ', 'f', 'o', 'o', 't', 'e', 'r', ' ', 'a', 
  'p', 'p', 'l', 'i', 'e', 's', ' ', 't', 'o', '.']

-- constant text: The log limit must be a non-negative integer.
def m_log_limit_note : GoStr := ['T', 'h', 'e', ' ', 'l', 'o', 'g', ' ', 'l', 'i', 'm', 'i', 't', 
  ' ', 'm', 'u', 's', 't', ' ', 'b', 'e', ' ', 'a', ' ', 'n', 'o', 'n', '-', 'n', 'e', 'g', 'a', 
  't', 'i', 'v', 'e', ' ', 'i', 'n', 't', 'e', 'g', 'e', 'r', '.']

-- constant text: Valid values are "verbose", "debug", "info", "warning", "error", or "silent".
def m_valid_log_level : GoStr := ['V', 'a', 'l', 'i', 'd', ' ', 'v', 'a', 'l', 'u', 'e', 's', 
  ' ', 'a', 'r', 'e', ' ', qChar, 'v', 'e', 'r', 'b', 'o', 's', 'e', qChar, ',', ' ', qChar, 'd', 
  'e', 'b', 'u', 'g', qChar, ',', ' ', qChar, 'i', 'n', 'f', 'o', qChar, ',', ' ', qChar, 'w', 
  'a', 'r', 'n', 'i', 'n', 'g', qChar, ',', ' ', qChar, 'e', 'r', 'r', 'o', 'r', qChar, ',', ' ', 
  'o', 'r', ' ', qChar, 's', 'i', 'l', 'e', 'n', 't', qChar, '.']

-- constant text: Unexpected single quote character before flag: 
def m_quote_msg : GoStr := ['U', 'n', 'e', 'x', 'p', 'e', 'c', 't', 'e', 'd', ' ', 's', 'i', 'n', 
  'g', 'l', 'e', ' ', 'q', 'u', 'o', 't', 'e', ' ', 'c', 'h', 'a', 'r', 'a', 'c', 't', 'e', 'r', 
  ' ', 'b', 'e', 'f', 'o', 'r', 'e', ' ', 'f', 'l', 'a', 'g', ':', ' ']

-- constant text: This typically happens when attempting to use single quotes to quote arguments with a shell that doesn't recognize single quotes. Try using double quote characters to quote arguments instead.
def m_quote_note : GoStr := ['T', 'h', 'i', 's', ' ', 't', 'y', 'p', 'i', 'c', 'a', 'l', 'l', 
  'y', ' ', 'h', 'a', 'p', 'p', 'e', 'n', 's', ' ', 'w', 'h', 'e', 'n', ' ', 'a', 't', 't', 'e', 
  'm', 'p', 't', 'i', 'n', 'g', ' ', 't', 'o', ' ', 'u', 's', 'e', ' ', 's', 'i', 'n', 'g', 'l', 
  'e', ' ', 'q', 'u', 'o', 't', 'e', 's', ' ', 't', 'o', ' ', 'q', 'u', 'o', 't', 'e', ' ', 'a', 
  'r', 'g', 'u', 'm', 'e', 'n', 't', 's', ' ', 'w', 'i', 't', 'h', ' ', 'a', ' ', 's', 'h', 'e', 
  'l', 'l', ' ', 't', 'h', 'a', 't', ' ', 'd', 'o', 'e', 's', 'n', aChar, 't', ' ', 'r', 'e', 
  'c', 'o', 'g', 'n', 'i', 'z', 'e', ' ', 's', 'i', 'n', 'g', 'l', 'e', ' ', 'q', 'u', 'o', 't', 
  'e', 's', '.', ' ', 'T', 'r', 'y', ' ', 'u', 's', 'i', 'n', 'g', ' ', 'd', 'o', 'u', 'b', 'l', 
  'e', ' ', 'q', 'u', 'o', 't', 'e', ' ', 'c', 'h', 'a', 'r', 'a', 'c', 't', 'e', 'r', 's', ' ', 
  't', 'o', ' ', 'q', 'u', 'o', 't', 'e', ' ', 'a', 'r', 'g', 'u', 'm', 'e', 'n', 't', 's', ' ', 
  'i', 'n', 's', 't', 'e', 'a', 'd', '.']

-- constant text: Target 
def m_target_missing1 : GoStr := ['T', 'a', 'r', 'g', 'e', 't', ' ']

-- constant text:  is missing a version number in 
def m_target_missing2 : GoStr := [' ', 'i', 's', ' ', 'm', 'i', 's', 's', 'i', 'n', 'g', ' ', 
  'a', ' ', 'v', 'e', 'r', 's', 'i', 'o', 'n', ' ', 'n', 'u', 'm', 'b', 'e', 'r', ' ', 'i', 'n', 
  ' ']

-- constant text: Invalid target 
def m_invalid_target : GoStr := ['I', 'n', 'v', 'a', 'l', 'i', 'd', ' ', 't', 'a', 'r', 'g', 'e', 
  't', ' ']

-- constant text: Valid values are 
def m_valid_values_are : GoStr := ['V', 'a', 'l', 'i', 'd', ' ', 'v', 'a', 'l', 'u', 'e', 's', 
  ' ', 'a', 'r', 'e', ' ']

-- constant text: , or 
def m_or_sep : GoStr := [',', ' ', 'o', 'r', ' ']

-- constant text:  where N is a version number.
def m_where_n : GoStr := [' ', 'w', 'h', 'e', 'r', 'e', ' ', 'N', ' ', 'i', 's', ' ', 'a', ' ', 
  'v', 'e', 'r', 's', 'i', 'o', 'n', ' ', 'n', 'u', 'm', 'b', 'e', 'r', '.']

-- constant text: , 
def m_comma_sep : GoStr := [',', ' ']

-- constant text: Invalid build flag: 
def m_invalid_build_flag : GoStr := ['I', 'n', 'v', 'a', 'l', 'i', 'd', ' ', 'b', 'u', 'i', 'l', 
  'd', ' ', 'f', 'l', 'a', 'g', ':', ' ']

-- constant text: Invalid transform flag: 
def m_invalid_transform_flag : GoStr := ['I', 'n', 'v', 'a', 'l', 'i', 'd', ' ', 't', 'r', 'a', 
  'n', 's', 'f', 'o', 'r', 'm', ' ', 'f', 'l', 'a', 'g', ':', ' ']

-- constant text: Use "--outfile=" to configure the output file instead of "-o".
def m_o_note : GoStr := ['U', 's', 'e', ' ', qChar, '-', '-', 'o', 'u', 't', 'f', 'i', 'l', 'e', 
  '=', qChar, ' ', 't', 'o', ' ', 'c', 'o', 'n', 'f', 'i', 'g', 'u', 'r', 'e', ' ', 't', 'h', 
  'e', ' ', 'o', 'u', 't', 'p', 'u', 't', ' ', 'f', 'i', 'l', 'e', ' ', 'i', 'n', 's', 't', 'e', 
  'a', 'd', ' ', 'o', 'f', ' ', qChar, '-', 'o', qChar, '.']

-- constant text: Use "--log-level=verbose" to generate verbose logs instead of "-v".
def m_v_note : GoStr := ['U', 's', 'e', ' ', qChar, '-', '-', 'l', 'o', 'g', '-', 'l', 'e', 'v', 
  'e', 'l', '=', 'v', 'e', 'r', 'b', 'o', 's', 'e', qChar, ' ', 't', 'o', ' ', 'g', 'e', 'n', 
  'e', 'r', 'a', 't', 'e', ' ', 'v', 'e', 'r', 'b', 'o', 's', 'e', ' ', 'l', 'o', 'g', 's', ' ', 
  'i', 'n', 's', 't', 'e', 'a', 'd', ' ', 'o', 'f', ' ', qChar, '-', 'v', qChar, '.']

-- constant text: Use 
def m_use : GoStr := ['U', 's', 'e', ' ']

-- constant text:  instead of 
def m_instead_of : GoStr := [' ', 'i', 'n', 's', 't', 'e', 'a', 'd', ' ', 'o', 'f', ' ']

-- constant text: . Flags that can be re-specified multiple times use ":" instead of "=".
def m_colon_end : GoStr := ['.', ' ', 'F', 'l', 'a', 'g', 's', ' ', 't', 'h', 'a', 't', ' ', 'c', 
  'a', 'n', ' ', 'b', 'e', ' ', 'r', 'e', '-', 's', 'p', 'e', 'c', 'i', 'f', 'i', 'e', 'd', ' ', 
  'm', 'u', 'l', 't', 'i', 'p', 'l', 'e', ' ', 't', 'i', 'm', 'e', 's', ' ', 'u', 's', 'e', ' ', 
  qChar, ':', qChar, ' ', 'i', 'n', 's', 't', 'e', 'a', 'd', ' ', 'o', 'f', ' ', qChar, '=', 
  qChar, '.']

-- constant text: . Flags that can only be specified once use "=" instead of ":".
def m_equals_end : GoStr := ['.', ' ', 'F', 'l', 'a', 'g', 's', ' ', 't', 'h', 'a', 't', ' ', 
  'c', 'a', 'n', ' ', 'o', 'n', 'l', 'y', ' ', 'b', 'e', ' ', 's', 'p', 'e', 'c', 'i', 'f', 'i', 
  'e', 'd', ' ', 'o', 'n', 'c', 'e', ' ', 'u', 's', 'e', ' ', qChar, '=', qChar, ' ', 'i', 'n', 
  's', 't', 'e', 'a', 'd', ' ', 'o', 'f', ' ', qChar, ':', qChar, '.']

-- constant text: . Flags are always specified with two dashes instead of one dash.
def m_dash_end : GoStr := ['.', ' ', 'F', 'l', 'a', 'g', 's', ' ', 'a', 'r', 'e', ' ', 'a', 'l', 
  'w', 'a', 'y', 's', ' ', 's', 'p', 'e', 'c', 'i', 'f', 'i', 'e', 'd', ' ', 'w', 'i', 't', 'h', 
  ' ', 't', 'w', 'o', ' ', 'd', 'a', 's', 'h', 'e', 's', ' ', 'i', 'n', 's', 't', 'e', 'a', 'd', 
  ' ', 'o', 'f', ' ', 'o', 'n', 'e', ' ', 'd', 'a', 's', 'h', '.']

-- constant text: Use "--sourcemap" instead of "--sourcemap=
def m_sm_transform1 : GoStr := ['U', 's', 'e', ' ', qChar, '-', '-', 's', 'o', 'u', 'r', 'c', 
  'e', 'm', 'a', 'p', qChar, ' ', 'i', 'n', 's', 't', 'e', 'a', 'd', ' ', 'o', 'f', ' ', qChar, 
  '-', '-', 's', 'o', 'u', 'r', 'c', 'e', 'm', 'a', 'p', '=']

-- constant text: " when transforming stdin
def m_sm_transform2 : GoStr := [qChar, ' ', 'w', 'h', 'e', 'n', ' ', 't', 'r', 'a', 'n', 's', 
  'f', 'o', 'r', 'm', 'i', 'n', 'g', ' ', 's', 't', 'd', 'i', 'n']

-- constant text: Using esbuild to transform stdin only generates one output file, so you cannot use the 
def m_sm_note1 : GoStr := ['U', 's', 'i', 'n', 'g', ' ', 'e', 's', 'b', 'u', 'i', 'l', 'd', ' ', 
  't', 'o', ' ', 't', 'r', 'a', 'n', 's', 'f', 'o', 'r', 'm', ' ', 's', 't', 'd', 'i', 'n', ' ', 
  'o', 'n', 'l', 'y', ' ', 'g', 'e', 'n', 'e', 'r', 'a', 't', 'e', 's', ' ', 'o', 'n', 'e', ' ', 
  'o', 'u', 't', 'p', 'u', 't', ' ', 'f', 'i', 'l', 'e', ',', ' ', 's', 'o', ' ', 'y', 'o', 'u', 
  ' ', 'c', 'a', 'n', 'n', 'o', 't', ' ', 'u', 's', 'e', ' ', 't', 'h', 'e', ' ']

-- constant text:  source map mode since that needs to generate two output files.
def m_sm_note2 : GoStr := [' ', 's', 'o', 'u', 'r', 'c', 'e', ' ', 'm', 'a', 'p', ' ', 'm', 'o', 
  'd', 'e', ' ', 's', 'i', 'n', 'c', 'e', ' ', 't', 'h', 'a', 't', ' ', 'n', 'e', 'e', 'd', 's', 
  ' ', 't', 'o', ' ', 'g', 'e', 'n', 'e', 'r', 'a', 't', 'e', ' ', 't', 'w', 'o', ' ', 'o', 'u', 
  't', 'p', 'u', 't', ' ', 'f', 'i', 'l', 'e', 's', '.']

-- constant text: Invalid loader: 
def m_invalid_loader : GoStr := ['I', 'n', 'v', 'a', 'l', 'i', 'd', ' ', 'l', 'o', 'a', 'd', 'e', 
  'r', ':', ' ']

-- constant text: Invalid port number: 
def m_invalid_port : GoStr := ['I', 'n', 'v', 'a', 'l', 'i', 'd', ' ', 'p', 'o', 'r', 't', ' ', 
  'n', 'u', 'm', 'b', 'e', 'r', ':', ' ']

-- constant text: missing port in address
def m_missing_port : GoStr := ['m', 'i', 's', 's', 'i', 'n', 'g', ' ', 'p', 'o', 'r', 't', ' ', 
  'i', 'n', ' ', 'a', 'd', 'd', 'r', 'e', 's', 's']

-- constant text: too many colons in address
def m_too_many_colons : GoStr := ['t', 'o', 'o', ' ', 'm', 'a', 'n', 'y', ' ', 'c', 'o', 'l', 
  'o', 'n', 's', ' ', 'i', 'n', ' ', 'a', 'd', 'd', 'r', 'e', 's', 's']

-- constant text: missing ']' in address
def m_missing_rbracket : GoStr := ['m', 'i', 's', 's', 'i', 'n', 'g', ' ', aChar, ']', aChar, 
  ' ', 'i', 'n', ' ', 'a', 'd', 'd', 'r', 'e', 's', 's']

-- constant text: unexpected '[' in address
def m_unexpected_lbracket : GoStr := ['u', 'n', 'e', 'x', 'p', 'e', 'c', 't', 'e', 'd', ' ', 
  aChar, '[', aChar, ' ', 'i', 'n', ' ', 'a', 'd', 'd', 'r', 'e', 's', 's']

-- constant text: unexpected ']' in address
def m_unexpected_rbracket : GoStr := ['u', 'n', 'e', 'x', 'p', 'e', 'c', 't', 'e', 'd', ' ', 
  aChar, ']', aChar, ' ', 'i', 'n', ' ', 'a', 'd', 'd', 'r', 'e', 's', 's']

-- constant text: address 
def m_address : GoStr := ['a', 'd', 'd', 'r', 'e', 's', 's', ' ']

-- constant text: : 
def m_colon_sep : GoStr := [':', ' ']

-- constant text: strconv.ParseInt: parsing 
def m_parse_int_pfx : GoStr := ['s', 't', 'r', 'c', 'o', 'n', 'v', '.', 'P', 'a', 'r', 's', 'e', 
  'I', 'n', 't', ':', ' ', 'p', 'a', 'r', 's', 'i', 'n', 'g', ' ']

-- constant text: : invalid syntax
def m_invalid_syntax : GoStr := [':', ' ', 'i', 'n', 'v', 'a', 'l', 'i', 'd', ' ', 's', 'y', 'n', 
  't', 'a', 'x']

-- constant text: : value out of range
def m_out_of_range : GoStr := [':', ' ', 'v', 'a', 'l', 'u', 'e', ' ', 'o', 'u', 't', ' ', 'o', 
  'f', ' ', 'r', 'a', 'n', 'g', 'e']

-- constant text: entry.js
def x_entry_js : GoStr := ['e', 'n', 't', 'r', 'y', '.', 'j', 's']

-- constant text: a.js
def x_a_js : GoStr := ['a', '.', 'j', 's']

-- constant text: out.js
def x_out_js : GoStr := ['o', 'u', 't', '.', 'j', 's']

-- constant text: --serve=127.0.0.1:9000
def x_serve_hostport : GoStr := ['-', '-', 's', 'e', 'r', 'v', 'e', '=', '1', '2', '7', '.', '0', 
  '.', '0', '.', '1', ':', '9', '0', '0', '0']

-- constant text: 127.0.0.1
def x_hostpart : GoStr := ['1', '2', '7', '.', '0', '.', '0', '.', '1']

-- constant text: --serve=70000
def x_serve_70000 : GoStr := ['-', '-', 's', 'e', 'r', 'v', 'e', '=', '7', '0', '0', '0', '0']

-- constant text: --charset=bogus
def x_charset_bogus : GoStr := ['-', '-', 'c', 'h', 'a', 'r', 's', 'e', 't', '=', 'b', 'o', 'g', 
  'u', 's']

-- constant text: bogus
def x_bogus : GoStr := ['b', 'o', 'g', 'u', 's']

-- constant text: --format=nope
def x_format_nope : GoStr := ['-', '-', 'f', 'o', 'r', 'm', 'a', 't', '=', 'n', 'o', 'p', 'e']

-- constant text: -bundle
def x_dash_bundle : GoStr := ['-', 'b', 'u', 'n', 'd', 'l', 'e']

-- constant text: --loader=file
def x_loader_file : GoStr := ['-', '-', 'l', 'o', 'a', 'd', 'e', 'r', '=', 'f', 'i', 'l', 'e']

-- constant text: --loader:.txt=text
def x_loader_txt_text : GoStr := ['-', '-', 'l', 'o', 'a', 'd', 'e', 'r', ':', '.', 't', 'x', 
  't', '=', 't', 'e', 'x', 't']

-- constant text: --loader:.txt=json
def x_loader_txt_json : GoStr := ['-', '-', 'l', 'o', 'a', 'd', 'e', 'r', ':', '.', 't', 'x', 
  't', '=', 'j', 's', 'o', 'n']

-- constant text: .txt
def x_dot_txt : GoStr := ['.', 't', 'x', 't']

-- constant text: --target=foo
def x_target_foo : GoStr := ['-', '-', 't', 'a', 'r', 'g', 'e', 't', '=', 'f', 'o', 'o']

-- constant text: foo
def x_foo : GoStr := ['f', 'o', 'o']

-- constant text: --sourcemap=external
def x_sourcemap_external : GoStr := ['-', '-', 's', 'o', 'u', 'r', 'c', 'e', 'm', 'a', 'p', '=', 
  'e', 'x', 't', 'e', 'r', 'n', 'a', 'l']

-- constant text: chrome80
def x_chrome80 : GoStr := ['c', 'h', 'r', 'o', 'm', 'e', '8', '0']

-- constant text: 80
def x_80 : GoStr := ['8', '0']

-- constant text: --target=chrome
def x_target_chrome : GoStr := ['-', '-', 't', 'a', 'r', 'g', 'e', 't', '=', 'c', 'h', 'r', 'o', 
  'm', 'e']

-- constant text: --target=es2018,chrome80
def x_target_mix : GoStr := ['-', '-', 't', 'a', 'r', 'g', 'e', 't', '=', 'e', 's', '2', '0', 
  '1', '8', ',', 'c', 'h', 'r', 'o', 'm', 'e', '8', '0']

-- constant text: --outfile=out.js
def x_outfile_out : GoStr := ['-', '-', 'o', 'u', 't', 'f', 'i', 'l', 'e', '=', 'o', 'u', 't', 
  '.', 'j', 's']

-- constant text: --target=chrome80
def x_target_chrome80 : GoStr := ['-', '-', 't', 'a', 'r', 'g', 'e', 't', '=', 'c', 'h', 'r', 
  'o', 'm', 'e', '8', '0']

-- constant text: --target=firefox90
def x_target_firefox90 : GoStr := ['-', '-', 't', 'a', 'r', 'g', 'e', 't', '=', 'f', 'i', 'r', 
  'e', 'f', 'o', 'x', '9', '0']

-- constant text: 90
def x_90 : GoStr := ['9', '0']
/-! ## The `pkg/api` option types (the subset touched by the CLI parser).
Each enumeration's first constructor is the Go zero value. -/

namespace api

inductive SourceMap where
  | smNone | smInline | smLinked | smExternal | smInlineAndExternal
  deriving DecidableEq

inductive LegalComments where
  | lcDefault | lcNone | lcInline | lcEndOfFile | lcLinked | lcExternal
  deriving DecidableEq

inductive Charset where
  | charsetDefault | charsetASCII | charsetUTF8
  deriving DecidableEq

inductive TreeShaking where
  | tsDefault | tsTrue | tsFalse
  deriving DecidableEq

inductive SourcesContent where
  | scDefault | scInclude | scExclude
  deriving DecidableEq

inductive Platform where
  | platformBrowser | platformNode | platformNeutral
  deriving DecidableEq

inductive Format where
  | formatDefault | formatIIFE | formatCommonJS | formatESModule
  deriving DecidableEq

inductive JSXMode where
  | jsxTransform | jsxPreserve
  deriving DecidableEq

inductive StderrColor where
  | colorIfTerminal | colorNever | colorAlways
  deriving DecidableEq

inductive LogLevel where
  | llDefault | llVerbose | llDebug | llInfo | llWarning | llError | llSilent
  deriving DecidableEq

inductive Target where
  | tDefault | tESNext | tES5 | tES2015 | tES2016 | tES2017 | tES2018 | tES2019 | tES2020 | tES2021
  deriving DecidableEq

inductive EngineName where
  | engineChrome | engineFirefox | engineSafari | engineEdge | engineNode | engineIOS
  deriving DecidableEq

structure Engine where
  Name : EngineName
  Version : GoStr
  deriving DecidableEq

inductive Loader where
  | loaderNone | loaderJS | loaderJSX | loaderTS | loaderTSX | loaderCSS | loaderJSON
  | loaderText | loaderBase64 | loaderDataURL | loaderFile | loaderBinary | loaderDefault
  deriving DecidableEq

structure EntryPoint where
  OutputPath : GoStr
  InputPath : GoStr
  deriving DecidableEq

-- api.StdinOptions (the fields the parser writes; Contents/ResolveDir are
-- filled from actual stdin later, outside the parser)
structure StdinOptions where
  Sourcefile : GoStr := []
  Loader : Loader := .loaderNone
  deriving DecidableEq

-- api.WatchMode carries only an engine callback; the parser just records
-- presence, so it is modelled by `Watch : Bool` on BuildOptions.
structure BuildOptions where
  Bundle : Bool := false
  PreserveSymlinks : Bool := false
  Splitting : Bool := false
  AllowOverwrite : Bool := false
  Watch : Bool := false
  MinifySyntax : Bool := false
  MinifyWhitespace : Bool := false
  MinifyIdentifiers : Bool := false
  LegalComments : LegalComments := .lcDefault
  Charset : Charset := .charsetDefault
  TreeShaking : TreeShaking := .tsDefault
  IgnoreAnnotations : Bool := false
  KeepNames : Bool := false
  Sourcemap : SourceMap := .smNone
  SourceRoot : GoStr := []
  SourcesContent : SourcesContent := .scDefault
  Stdin : Option StdinOptions := none
  ResolveExtensions : List GoStr := []
  MainFields : List GoStr := []
  Conditions : List GoStr := []
  PublicPath : GoStr := []
  GlobalName : GoStr := []
  Metafile : Bool := false
  Outfile : GoStr := []
  Outdir : GoStr := []
  Outbase : GoStr := []
  Tsconfig : GoStr := []
  EntryNames : GoStr := []
  ChunkNames : GoStr := []
  AssetNames : GoStr := []
  Define : List (GoStr × GoStr) := []
  Pure : List GoStr := []
  Loader : List (GoStr × Loader) := []
  Target : Target := .tDefault
  Engines : List Engine := []
  OutExtensions : List (GoStr × GoStr) := []
  Platform : Platform := .platformBrowser
  Format : Format := .formatDefault
  External : List GoStr := []
  Inject : List GoStr := []
  JSXMode : JSXMode := .jsxTransform
  JSXFactory : GoStr := []
  JSXFragment : GoStr := []
  Banner : List (GoStr × GoStr) := []
  Footer : List (GoStr × GoStr) := []
  LogLimit : Int := 0
  Color : StderrColor := .colorIfTerminal
  LogLevel : LogLevel := .llDefault
  EntryPoints : List GoStr := []
  EntryPointsAdvanced : List EntryPoint := []
  Write : Bool := false
  deriving DecidableEq

structure TransformOptions where
  MinifySyntax : Bool := false
  MinifyWhitespace : Bool := false
  MinifyIdentifiers : Bool := false
  LegalComments : LegalComments := .lcDefault
  Charset : Charset := .charsetDefault
  TreeShaking : TreeShaking := .tsDefault
  IgnoreAnnotations : Bool := false
  KeepNames : Bool := false
  Sourcemap : SourceMap := .smNone
  SourceRoot : GoStr := []
  SourcesContent : SourcesContent := .scDefault
  Sourcefile : GoStr := []
  GlobalName : GoStr := []
  TsconfigRaw : GoStr := []
  Define : List (GoStr × GoStr) := []
  Pure : List GoStr := []
  Loader : Loader := .loaderNone
  Target : Target := .tDefault
  Engines : List Engine := []
  Format : Format := .formatDefault
  JSXMode : JSXMode := .jsxTransform
  JSXFactory : GoStr := []
  JSXFragment : GoStr := []
  Banner : GoStr := []
  Footer : GoStr := []
  LogLimit : Int := 0
  Color : StderrColor := .colorIfTerminal
  LogLevel : LogLevel := .llDefault
  deriving DecidableEq

structure ServeOptions where
  Port : Nat
  Host : GoStr
  Servedir : GoStr
  deriving DecidableEq

end api

-- cli_impl.go: newBuildOptions (the four maps start empty; every other field
-- is the Go zero value, which is the default of each field above)
def newBuildOptions : api.BuildOptions := {}

-- cli_impl.go: newTransformOptions
def newTransformOptions : api.TransformOptions := {}

inductive ParseOptionsKind where
  | kindInternal | kindExternal
  deriving DecidableEq

/-- Modelled from the spec: `cli_helpers.ParseLoader` is repository code that is
not under `src/` (only its caller is).  Per spec section 6 the repeatable
`--loader:.ext=kind` / `--loader=kind` flags carry a loader-kind name; the kinds
exercised by the claims are "text", "json" and "file", and an unrecognized name
is a flag error.  The full name set here follows the public esbuild loader
vocabulary; only text/json/file matter to any claim. -/
def ParseLoader (text : GoStr) : Except ErrorWithNote api.Loader :=
  if text == l_js then .ok .loaderJS
  else if text == l_jsx then .ok .loaderJSX
  else if text == l_ts then .ok .loaderTS
  else if text == l_tsx then .ok .loaderTSX
  else if text == l_css then .ok .loaderCSS
  else if text == l_json then .ok .loaderJSON
  else if text == l_text then .ok .loaderText
  else if text == l_base64 then .ok .loaderBase64
  else if text == l_dataurl then .ok .loaderDataURL
  else if text == l_file then .ok .loaderFile
  else if text == l_binary then .ok .loaderBinary
  else if text == l_default then .ok .loaderDefault
  else .error (MakeErrorWithNote (m_invalid_loader ++ quoteGo text) [])
/-! ## parseTargets (cli_impl.go lines 710-767) -/

-- validTargets: the keys are compared against strings.ToLower(value)
def validTargets : List (GoStr × api.Target) :=
  [(t_esnext, .tESNext), (t_es5, .tES5), (t_es6, .tES2015), (t_es2015, .tES2015),
   (t_es2016, .tES2016), (t_es2017, .tES2017), (t_es2018, .tES2018), (t_es2019, .tES2019),
   (t_es2020, .tES2020), (t_es2021, .tES2021)]

-- validEngines: Go ranges over this map in unspecified order, but no engine
-- name is a prefix of another, so at most one entry can prefix-match a given
-- token and the iteration order is immaterial; a fixed order is used here.
def validEngines : List (GoStr × api.EngineName) :=
  [(e_chrome, .engineChrome), (e_firefox, .engineFirefox), (e_safari, .engineSafari),
   (e_edge, .engineEdge), (e_node, .engineNode), (e_ios, .engineIOS)]

-- The note of the invalid-target error: "esN" is appended first and the whole
-- list (baseline pattern included) is then sorted by sort.Strings.
def targetNote : GoStr :=
  let engines := sortStrings (quoteGo t_esN :: validEngines.map (fun p => quoteGo (p.1 ++ ['N'])))
  m_valid_values_are ++ goJoin m_comma_sep engines.dropLast ++ m_or_sep ++
    engines.getLastD [] ++ m_where_n

-- the per-token loop of parseTargets, with the two accumulators of the Go code
def parseTargetsLoop (arg : GoStr) :
    List GoStr → api.Target → List api.Engine → Except ErrorWithNote (api.Target × List api.Engine)
  | [], target, engines => .ok (target, engines)
  | value :: rest, target, engines =>
    match mapGet validTargets (goToLower value) with
    | some valid => parseTargetsLoop arg rest valid engines
    | none =>
      match validEngines.find? (fun p => hasPfx value p.1) with
      | some (engine, name) =>
        let version := value.drop engine.length
        if version == [] then
          .error (MakeErrorWithNote
            (m_target_missing1 ++ quoteGo value ++ m_target_missing2 ++ quoteGo arg) [])
        else
          parseTargetsLoop arg rest target (engines ++ [{ Name := name, Version := version }])
      | none =>
        .error (MakeErrorWithNote
          (m_invalid_target ++ quoteGo value ++ m_in ++ quoteGo arg) targetNote)

def parseTargets (targets : List GoStr) (arg : GoStr) :
    Except ErrorWithNote (api.Target × List api.Engine) :=
  parseTargetsLoop arg targets .tDefault []

/-! ## The per-argument switch of parseOptionsImpl (cli_impl.go lines 50-698).

The switch is split into `classify` (which case of the switch fires for a
given argument, including every error produced while inspecting the argument)
and `applyAction` (the field assignments of the selected case).  `classify`
only sees the argument, the parse kind, and whether the Build pointer is the
non-nil one, mirroring the `buildOpts != nil` guards; every error of the Go
switch depends only on those inputs. -/

-- the advisor tables (cli_impl.go lines 587-647), used only for diagnostics
def bareFlags : List GoStr :=
  [n_allow_overwrite, n_bundle, n_ignore_annots, n_keep_names, n_metafile,
   n_minify_identifiers, n_minify_syntax, n_minify_whitespace, n_minify, n_preserve_symlinks,
   n_sourcemap, n_splitting, n_watch]

def equalsFlags : List GoStr :=
  [n_legal_comments, n_charset, n_tree_shaking, n_sourcemap, n_source_root, n_sources_content,
   n_sourcefile, n_resolve_extensions, n_main_fields, n_conditions, n_public_path, n_global_name,
   n_outfile, n_outdir, n_outbase, n_tsconfig, n_tsconfig_raw, n_entry_names, n_chunk_names,
   n_asset_names, n_loader, n_target, n_platform, n_format, n_jsx, n_jsx_factory, n_jsx_fragment,
   n_banner, n_footer, n_log_limit, n_color, n_log_level]

def colonFlags : List GoStr :=
  [n_define, n_pure, n_loader, n_out_extension, n_external, n_inject, n_banner, n_footer]

def mkUseNote (fix arg tail : GoStr) : GoStr :=
  m_use ++ quoteGo fix ++ m_instead_of ++ quoteGo arg ++ tail

-- the single-dash branch of the advisor (cli_impl.go lines 670-689):
-- `some fix` iff `isValid` ends up true, with `fix` the suggested flag
def oneDashFix (arg : GoStr) : Option GoStr :=
  let bareValid := bareFlags.contains (arg.drop 1)
  let colonChecks : Option GoStr :=
    match splitOnFirst ':' arg with
    | some (pre2, post2) =>
      if colonFlags.contains (pre2.drop 1) then some ('-' :: arg)
      else if equalsFlags.contains (pre2.drop 1) then some (('-' :: pre2) ++ '=' :: post2)
      else if bareValid then some ('-' :: arg) else none
    | none => if bareValid then some ('-' :: arg) else none
  match splitOnFirst '=' arg with
  | some (pre, post) =>
    if equalsFlags.contains (pre.drop 1) then some ('-' :: arg)
    else if colonFlags.contains (pre.drop 1) then some (('-' :: pre) ++ ':' :: post)
    else colonChecks
  | none => colonChecks

-- the note computation of the default case (cli_impl.go lines 649-690)
def adviseNote (arg : GoStr) : GoStr :=
  if arg == c_dash_o then m_o_note
  else if arg == c_dash_v then m_v_note
  else if hasPfx arg c_2dash then
    -- two sequential `if`s: a match of the second overwrites the first
    let n1 : GoStr :=
      match splitOnFirst '=' arg with
      | some (pre, post) =>
        if colonFlags.contains (pre.drop 2) then mkUseNote (pre ++ ':' :: post) arg m_colon_end
        else []
      | none => []
    match splitOnFirst ':' arg with
    | some (pre, post) =>
      if equalsFlags.contains (pre.drop 2) then mkUseNote (pre ++ '=' :: post) arg m_equals_end
      else n1
    | none => n1
  else if hasPfx arg c_dash then
    match oneDashFix arg with
    | some fix => mkUseNote fix arg m_dash_end
    | none => []
  else []

def invalidFlagError (isBuild : Bool) (arg : GoStr) : ErrorWithNote :=
  MakeErrorWithNote
    ((if isBuild then m_invalid_build_flag else m_invalid_transform_flag) ++ quoteGo arg)
    (adviseNote arg)

inductive ArgAction where
  | aBundle | aPreserveSymlinks | aSplitting | aAllowOverwrite | aWatch
  | aMinify | aMinifySyntax | aMinifyWhitespace | aMinifyIdentifiers
  | aLegalComments (v : api.LegalComments)
  | aCharset (v : api.Charset)
  | aTreeShaking (v : api.TreeShaking)
  | aIgnoreAnnots | aKeepNames
  | aSourcemapBare
  | aSourcemapEq (v : api.SourceMap)
  | aSourceRoot (v : GoStr)
  | aSourcesContent (v : api.SourcesContent)
  | aSourcefile (v : GoStr)
  | aResolveExtensions (v : List GoStr)
  | aMainFields (v : List GoStr)
  | aConditions (v : List GoStr)
  | aPublicPath (v : GoStr)
  | aGlobalName (v : GoStr)
  | aMetafileBare
  | aMetafileEq (v : GoStr)
  | aOutfile (v : GoStr)
  | aOutdir (v : GoStr)
  | aOutbase (v : GoStr)
  | aTsconfig (v : GoStr)
  | aTsconfigRaw (v : GoStr)
  | aEntryNames (v : GoStr)
  | aChunkNames (v : GoStr)
  | aAssetNames (v : GoStr)
  | aDefine (k v : GoStr)
  | aPure (v : GoStr)
  | aLoaderColon (ext : GoStr) (l : api.Loader)
  | aLoaderEq (l : api.Loader)
  | aTarget (t : api.Target) (es : List api.Engine)
  | aOutExt (k v : GoStr)
  | aPlatform (v : api.Platform)
  | aFormat (v : api.Format)
  | aExternal (v : GoStr)
  | aInject (v : GoStr)
  | aJsx (v : api.JSXMode)
  | aJsxFactory (v : GoStr)
  | aJsxFragment (v : GoStr)
  | aBannerEq (v : GoStr)
  | aFooterEq (v : GoStr)
  | aBannerColon (k v : GoStr)
  | aFooterColon (k v : GoStr)
  | aLogLimit (v : Int)
  | aColor (v : api.StderrColor)
  | aLogLevel (v : api.LogLevel)
  | aEntry (v : GoStr)
  | aEntryAdvanced (out inp : GoStr)
  | aErr (e : ErrorWithNote)

open ArgAction in
-- Switch cases 1-14 (cli_impl.go lines 52-177): bare flags and the
-- legal-comments/charset/tree-shaking value switches, in source order.
def classifyGroup1 (isBuild : Bool) (arg : GoStr) : Option ArgAction :=
  if arg == c_bundle && isBuild then some aBundle
  else if arg == c_preserve_symlinks && isBuild then some aPreserveSymlinks
  else if arg == c_splitting && isBuild then some aSplitting
  else if arg == c_allow_overwrite && isBuild then some aAllowOverwrite
  else if arg == c_watch && isBuild then some aWatch
  else if arg == c_minify then some aMinify
  else if arg == c_minify_syntax then some aMinifySyntax
  else if arg == c_minify_whitespace then some aMinifyWhitespace
  else if arg == c_minify_identifiers then some aMinifyIdentifiers
  else if hasPfx arg c_legal_comments_eq then
    let value := arg.drop c_legal_comments_eq.length
    if value == v_none then some (aLegalComments .lcNone)
    else if value == v_inline then some (aLegalComments .lcInline)
    else if value == v_eof then some (aLegalComments .lcEndOfFile)
    else if value == v_linked then some (aLegalComments .lcLinked)
    else if value == v_external then some (aLegalComments .lcExternal)
    else some (aErr (MakeErrorWithNote (m_invalid_value ++ quoteGo value ++ m_in ++ quoteGo arg)
      m_valid_legal_comments))
  else if hasPfx arg c_charset_eq then
    let name := arg.drop c_charset_eq.length
    if name == v_ascii then some (aCharset .charsetASCII)
    else if name == v_utf8 then some (aCharset .charsetUTF8)
    else some (aErr (MakeErrorWithNote (m_invalid_value ++ quoteGo name ++ m_in ++ quoteGo arg)
      m_valid_charset))
  else if hasPfx arg c_tree_shaking_eq then
    let name := arg.drop c_tree_shaking_eq.length
    if name == v_false then some (aTreeShaking .tsFalse)
    else if name == v_true then some (aTreeShaking .tsTrue)
    else some (aErr (MakeErrorWithNote (m_invalid_value ++ quoteGo name ++ m_in ++ quoteGo arg)
      m_valid_bool))
  else if arg == c_ignore_annots then some aIgnoreAnnots
  else if arg == c_keep_names then some aKeepNames
  else none

open ArgAction in
-- Switch cases 15-16 (lines 179-208): the two sourcemap cases.
def classifyGroup2 (arg : GoStr) : Option ArgAction :=
  if arg == c_sourcemap then some aSourcemapBare
  else if hasPfx arg c_sourcemap_eq then
    let value := arg.drop c_sourcemap_eq.length
    if value == v_inline then some (aSourcemapEq .smInline)
    else if value == v_external then some (aSourcemapEq .smExternal)
    else if value == v_both then some (aSourcemapEq .smInlineAndExternal)
    else some (aErr (MakeErrorWithNote (m_invalid_value ++ quoteGo value ++ m_in ++ quoteGo arg)
      m_valid_sourcemap))
  else none

open ArgAction in
-- Switch cases 17-26 (lines 210-273): source-root through the metafile cases.
def classifyGroup3 (kind : ParseOptionsKind) (isBuild : Bool) (arg : GoStr) : Option ArgAction :=
  if hasPfx arg c_source_root_eq then some (aSourceRoot (arg.drop c_source_root_eq.length))
  else if hasPfx arg c_sources_content_eq then
    let value := arg.drop c_sources_content_eq.length
    if value == v_false then some (aSourcesContent .scExclude)
    else if value == v_true then some (aSourcesContent .scInclude)
    else some (aErr (MakeErrorWithNote (m_invalid_value ++ quoteGo value ++ m_in ++ quoteGo arg)
      m_valid_bool))
  else if hasPfx arg c_sourcefile_eq then some (aSourcefile (arg.drop c_sourcefile_eq.length))
  else if hasPfx arg c_resolve_extensions_eq && isBuild then
    some (aResolveExtensions (splitWithEmptyCheck (arg.drop c_resolve_extensions_eq.length) ','))
  else if hasPfx arg c_main_fields_eq && isBuild then
    some (aMainFields (splitWithEmptyCheck (arg.drop c_main_fields_eq.length) ','))
  else if hasPfx arg c_conditions_eq && isBuild then
    some (aConditions (splitWithEmptyCheck (arg.drop c_conditions_eq.length) ','))
  else if hasPfx arg c_public_path_eq && isBuild then
    some (aPublicPath (arg.drop c_public_path_eq.length))
  else if hasPfx arg c_global_name_eq then some (aGlobalName (arg.drop c_global_name_eq.length))
  else if arg == c_metafile && isBuild && kind == .kindExternal then some aMetafileBare
  else if hasPfx arg c_metafile_eq && isBuild && kind == .kindInternal then
    some (aMetafileEq (arg.drop c_metafile_eq.length))
  else none

open ArgAction in
-- Switch cases 27-38 (lines 275-360): output paths through the loader cases.
def classifyGroup4 (isBuild : Bool) (arg : GoStr) : Option ArgAction :=
  if hasPfx arg c_outfile_eq && isBuild then some (aOutfile (arg.drop c_outfile_eq.length))
  else if hasPfx arg c_outdir_eq && isBuild then some (aOutdir (arg.drop c_outdir_eq.length))
  else if hasPfx arg c_outbase_eq && isBuild then some (aOutbase (arg.drop c_outbase_eq.length))
  else if hasPfx arg c_tsconfig_eq && isBuild then some (aTsconfig (arg.drop c_tsconfig_eq.length))
  else if hasPfx arg c_tsconfig_raw_eq && !isBuild then
    some (aTsconfigRaw (arg.drop c_tsconfig_raw_eq.length))
  else if hasPfx arg c_entry_names_eq && isBuild then
    some (aEntryNames (arg.drop c_entry_names_eq.length))
  else if hasPfx arg c_chunk_names_eq && isBuild then
    some (aChunkNames (arg.drop c_chunk_names_eq.length))
  else if hasPfx arg c_asset_names_eq && isBuild then
    some (aAssetNames (arg.drop c_asset_names_eq.length))
  else if hasPfx arg c_define_colon then
    let value := arg.drop c_define_colon.length
    match splitOnFirst '=' value with
    | none => some (aErr (MakeErrorWithNote (m_missing_eq_in ++ quoteGo arg) m_define_note))
    | some (k, v) => some (aDefine k v)
  else if hasPfx arg c_pure_colon then some (aPure (arg.drop c_pure_colon.length))
  else if hasPfx arg c_loader_colon && isBuild then
    let value := arg.drop c_loader_colon.length
    match splitOnFirst '=' value with
    | none => some (aErr (MakeErrorWithNote (m_missing_eq_in ++ quoteGo arg) m_loader_colon_note))
    | some (ext, text) =>
      match ParseLoader text with
      | .error e => some (aErr e)
      | .ok loader => some (aLoaderColon ext loader)
  else if hasPfx arg c_loader_eq then
    let value := arg.drop c_loader_eq.length
    match ParseLoader value with
    | .error e => some (aErr e)
    | .ok loader =>
      if loader == .loaderFile then
        some (aErr (MakeErrorWithNote (quoteGo arg ++ m_not_supported_stdin) m_file_loader_note))
      else some (aLoaderEq loader)
  else none

open ArgAction in
-- Switch cases 39-47 (lines 362-474): target through the jsx cases.
def classifyGroup5 (isBuild : Bool) (arg : GoStr) : Option ArgAction :=
  if hasPfx arg c_target_eq then
    match parseTargets (splitWithEmptyCheck (arg.drop c_target_eq.length) ',') arg with
    | .error e => some (aErr e)
    | .ok (target, engines) => some (aTarget target engines)
  else if hasPfx arg c_out_extension_colon && isBuild then
    let value := arg.drop c_out_extension_colon.length
    match splitOnFirst '=' value with
    | none => some (aErr (MakeErrorWithNote (m_missing_eq_in ++ quoteGo arg) m_out_extension_note))
    | some (k, v) => some (aOutExt k v)
  else if hasPfx arg c_platform_eq && isBuild then
    let value := arg.drop c_platform_eq.length
    if value == v_browser then some (aPlatform .platformBrowser)
    else if value == v_node then some (aPlatform .platformNode)
    else if value == v_neutral then some (aPlatform .platformNeutral)
    else some (aErr (MakeErrorWithNote (m_invalid_value ++ quoteGo value ++ m_in ++ quoteGo arg)
      m_valid_platform))
  else if hasPfx arg c_format_eq then
    let value := arg.drop c_format_eq.length
    if value == v_iife then some (aFormat .formatIIFE)
    else if value == v_cjs then some (aFormat .formatCommonJS)
    else if value == v_esm then some (aFormat .formatESModule)
    else some (aErr (MakeErrorWithNote (m_invalid_value ++ quoteGo value ++ m_in ++ quoteGo arg)
      m_valid_format))
  else if hasPfx arg c_external_colon && isBuild then
    some (aExternal (arg.drop c_external_colon.length))
  else if hasPfx arg c_inject_colon && isBuild then some (aInject (arg.drop c_inject_colon.length))
  else if hasPfx arg c_jsx_eq then
    let value := arg.drop c_jsx_eq.length
    if value == v_transform then some (aJsx .jsxTransform)
    else if value == v_preserve then some (aJsx .jsxPreserve)
    else some (aErr (MakeErrorWithNote (m_invalid_value ++ quoteGo value ++ m_in ++ quoteGo arg)
      m_valid_jsx))
  else if hasPfx arg c_jsx_factory_eq then some (aJsxFactory (arg.drop c_jsx_factory_eq.length))
  else if hasPfx arg c_jsx_fragment_eq then some (aJsxFragment (arg.drop c_jsx_fragment_eq.length))
  else none

open ArgAction in
-- Switch cases 48-54 (lines 476-567): banner/footer through log-level.
def classifyGroup6 (isBuild : Bool) (arg : GoStr) : Option ArgAction :=
  if hasPfx arg c_banner_eq && !isBuild then some (aBannerEq (arg.drop c_banner_eq.length))
  else if hasPfx arg c_footer_eq && !isBuild then some (aFooterEq (arg.drop c_footer_eq.length))
  else if hasPfx arg c_banner_colon && isBuild then
    let value := arg.drop c_banner_colon.length
    match splitOnFirst '=' value with
    | none => some (aErr (MakeErrorWithNote (m_missing_eq_in ++ quoteGo arg) m_banner_colon_note))
    | some (k, v) => some (aBannerColon k v)
  else if hasPfx arg c_footer_colon && isBuild then
    let value := arg.drop c_footer_colon.length
    match splitOnFirst '=' value with
    | none => some (aErr (MakeErrorWithNote (m_missing_eq_in ++ quoteGo arg) m_footer_colon_note))
    | some (k, v) => some (aFooterColon k v)
  else if hasPfx arg c_log_limit_eq then
    let value := arg.drop c_log_limit_eq.length
    match goParseInt value 64 with
    | none => some (aErr (MakeErrorWithNote (m_invalid_value ++ quoteGo value ++ m_in ++ quoteGo arg)
        m_log_limit_note))
    | some limit =>
      if limit < 0 then
        some (aErr (MakeErrorWithNote (m_invalid_value ++ quoteGo value ++ m_in ++ quoteGo arg)
          m_log_limit_note))
      else some (aLogLimit limit)
  else if hasPfx arg c_color_eq then
    let value := arg.drop c_color_eq.length
    if value == v_false then some (aColor .colorNever)
    else if value == v_true then some (aColor .colorAlways)
    else some (aErr (MakeErrorWithNote (m_invalid_value ++ quoteGo value ++ m_in ++ quoteGo arg)
      m_valid_bool))
  else if hasPfx arg c_log_level_eq then
    let value := arg.drop c_log_level_eq.length
    if value == v_verbose then some (aLogLevel .llVerbose)
    else if value == v_debug then some (aLogLevel .llDebug)
    else if value == v_info then some (aLogLevel .llInfo)
    else if value == v_warning then some (aLogLevel .llWarning)
    else if value == v_error then some (aLogLevel .llError)
    else if value == v_silent then some (aLogLevel .llSilent)
    else some (aErr (MakeErrorWithNote (m_invalid_value ++ quoteGo value ++ m_in ++ quoteGo arg)
      m_valid_log_level))
  else none

open ArgAction in
-- Switch cases 55-56 (lines 569-584): the stray-quote case and the bare
-- entry-point case.
def classifyGroup7 (isBuild : Bool) (arg : GoStr) : Option ArgAction :=
  if hasPfx arg c_quote_2dash then
    some (aErr (MakeErrorWithNote (m_quote_msg ++ arg) m_quote_note))
  else if !hasPfx arg c_dash && isBuild then
    match splitOnFirst '=' arg with
    | some (out, inp) => some (aEntryAdvanced out inp)
    | none => some (aEntry arg)
  else none

-- The full switch (lines 50-698): the groups in source order, falling through
-- to the default invalid-flag case.  The grouping is only a sectioning of the
-- one Go switch; conditions, order and results are unchanged.
def classify (kind : ParseOptionsKind) (isBuild : Bool) (arg : GoStr) : ArgAction :=
  match classifyGroup1 isBuild arg with
  | some a => a
  | none =>
  match classifyGroup2 arg with
  | some a => a
  | none =>
  match classifyGroup3 kind isBuild arg with
  | some a => a
  | none =>
  match classifyGroup4 isBuild arg with
  | some a => a
  | none =>
  match classifyGroup5 isBuild arg with
  | some a => a
  | none =>
  match classifyGroup6 isBuild arg with
  | some a => a
  | none =>
  match classifyGroup7 isBuild arg with
  | some a => a
  | none => ArgAction.aErr (invalidFlagError isBuild arg)

/-! ## The mutable parse state and the field assignments of each case. -/

inductive OptState where
  | build (b : api.BuildOptions)
  | transform (t : api.TransformOptions)
  deriving DecidableEq

def OptState.isBuild : OptState → Bool
  | .build _ => true
  | .transform _ => false

structure ParseState where
  opts : OptState
  hasBareSourceMapFlag : Bool
  metafile : Option GoStr
  deriving DecidableEq

-- Apply one switch case's assignments.  Build-only (resp. transform-only)
-- actions are produced by `classify` only when the matching pointer is the
-- non-nil one, so the fall-through arms below are unreachable from `bindArg`.
def applyAction (a : ArgAction) (s : ParseState) : Except ErrorWithNote ParseState :=
  match a with
  | .aErr e => .error e
  | .aBundle => .ok { s with opts := match s.opts with
      | .build b => .build { b with Bundle := true } | t => t }
  | .aPreserveSymlinks => .ok { s with opts := match s.opts with
      | .build b => .build { b with PreserveSymlinks := true } | t => t }
  | .aSplitting => .ok { s with opts := match s.opts with
      | .build b => .build { b with Splitting := true } | t => t }
  | .aAllowOverwrite => .ok { s with opts := match s.opts with
      | .build b => .build { b with AllowOverwrite := true } | t => t }
  | .aWatch => .ok { s with opts := match s.opts with
      | .build b => .build { b with Watch := true } | t => t }
  | .aMinify => .ok { s with opts := match s.opts with
      | .build b => .build
          { b with MinifySyntax := true, MinifyWhitespace := true, MinifyIdentifiers := true }
      | .transform t => .transform
          { t with MinifySyntax := true, MinifyWhitespace := true, MinifyIdentifiers := true } }
  | .aMinifySyntax => .ok { s with opts := match s.opts with
      | .build b => .build { b with MinifySyntax := true }
      | .transform t => .transform { t with MinifySyntax := true } }
  | .aMinifyWhitespace => .ok { s with opts := match s.opts with
      | .build b => .build { b with MinifyWhitespace := true }
      | .transform t => .transform { t with MinifyWhitespace := true } }
  | .aMinifyIdentifiers => .ok { s with opts := match s.opts with
      | .build b => .build { b with MinifyIdentifiers := true }
      | .transform t => .transform { t with MinifyIdentifiers := true } }
  | .aLegalComments v => .ok { s with opts := match s.opts with
      | .build b => .build { b with LegalComments := v }
      | .transform t => .transform { t with LegalComments := v } }
  | .aCharset v => .ok { s with opts := match s.opts with
      | .build b => .build { b with Charset := v }
      | .transform t => .transform { t with Charset := v } }
  | .aTreeShaking v => .ok { s with opts := match s.opts with
      | .build b => .build { b with TreeShaking := v }
      | .transform t => .transform { t with TreeShaking := v } }
  | .aIgnoreAnnots => .ok { s with opts := match s.opts with
      | .build b => .build { b with IgnoreAnnotations := true }
      | .transform t => .transform { t with IgnoreAnnotations := true } }
  | .aKeepNames => .ok { s with opts := match s.opts with
      | .build b => .build { b with KeepNames := true }
      | .transform t => .transform { t with KeepNames := true } }
  | .aSourcemapBare => .ok { s with
      opts := match s.opts with
        | .build b => .build { b with Sourcemap := .smLinked }
        | .transform t => .transform { t with Sourcemap := .smInline },
      hasBareSourceMapFlag := true }
  | .aSourcemapEq v => .ok { s with
      opts := match s.opts with
        | .build b => .build { b with Sourcemap := v }
        | .transform t => .transform { t with Sourcemap := v },
      hasBareSourceMapFlag := false }
  | .aSourceRoot v => .ok { s with opts := match s.opts with
      | .build b => .build { b with SourceRoot := v }
      | .transform t => .transform { t with SourceRoot := v } }
  | .aSourcesContent v => .ok { s with opts := match s.opts with
      | .build b => .build { b with SourcesContent := v }
      | .transform t => .transform { t with SourcesContent := v } }
  | .aSourcefile v => .ok { s with opts := match s.opts with
      | .build b => .build { b with Stdin := some { (b.Stdin.getD {}) with Sourcefile := v } }
      | .transform t => .transform { t with Sourcefile := v } }
  | .aResolveExtensions v => .ok { s with opts := match s.opts with
      | .build b => .build { b with ResolveExtensions := v } | t => t }
  | .aMainFields v => .ok { s with opts := match s.opts with
      | .build b => .build { b with MainFields := v } | t => t }
  | .aConditions v => .ok { s with opts := match s.opts with
      | .build b => .build { b with Conditions := v } | t => t }
  | .aPublicPath v => .ok { s with opts := match s.opts with
      | .build b => .build { b with PublicPath := v } | t => t }
  | .aGlobalName v => .ok { s with opts := match s.opts with
      | .build b => .build { b with GlobalName := v }
      | .transform t => .transform { t with GlobalName := v } }
  | .aMetafileBare => .ok { s with opts := match s.opts with
      | .build b => .build { b with Metafile := true } | t => t }
  | .aMetafileEq v => .ok { s with
      opts := (match s.opts with
        | .build b => .build { b with Metafile := true } | t => t),
      metafile := some v }
  | .aOutfile v => .ok { s with opts := match s.opts with
      | .build b => .build { b with Outfile := v } | t => t }
  | .aOutdir v => .ok { s with opts := match s.opts with
      | .build b => .build { b with Outdir := v } | t => t }
  | .aOutbase v => .ok { s with opts := match s.opts with
      | .build b => .build { b with Outbase := v } | t => t }
  | .aTsconfig v => .ok { s with opts := match s.opts with
      | .build b => .build { b with Tsconfig := v } | t => t }
  | .aTsconfigRaw v => .ok { s with opts := match s.opts with
      | .transform t => .transform { t with TsconfigRaw := v } | b => b }
  | .aEntryNames v => .ok { s with opts := match s.opts with
      | .build b => .build { b with EntryNames := v } | t => t }
  | .aChunkNames v => .ok { s with opts := match s.opts with
      | .build b => .build { b with ChunkNames := v } | t => t }
  | .aAssetNames v => .ok { s with opts := match s.opts with
      | .build b => .build { b with AssetNames := v } | t => t }
  | .aDefine k v => .ok { s with opts := match s.opts with
      | .build b => .build { b with Define := mapSet b.Define k v }
      | .transform t => .transform { t with Define := mapSet t.Define k v } }
  | .aPure v => .ok { s with opts := match s.opts with
      | .build b => .build { b with Pure := b.Pure ++ [v] }
      | .transform t => .transform { t with Pure := t.Pure ++ [v] } }
  | .aLoaderColon ext l => .ok { s with opts := match s.opts with
      | .build b => .build { b with Loader := mapSet b.Loader ext l } | t => t }
  | .aLoaderEq l => .ok { s with opts := match s.opts with
      | .build b => .build { b with Stdin := some { (b.Stdin.getD {}) with Loader := l } }
      | .transform t => .transform { t with Loader := l } }
  | .aTarget target engines => .ok { s with opts := match s.opts with
      | .build b => .build { b with Target := target, Engines := engines }
      | .transform t => .transform { t with Target := target, Engines := engines } }
  | .aOutExt k v => .ok { s with opts := match s.opts with
      | .build b => .build { b with OutExtensions := mapSet b.OutExtensions k v } | t => t }
  | .aPlatform v => .ok { s with opts := match s.opts with
      | .build b => .build { b with Platform := v } | t => t }
  | .aFormat v => .ok { s with opts := match s.opts with
      | .build b => .build { b with Format := v }
      | .transform t => .transform { t with Format := v } }
  | .aExternal v => .ok { s with opts := match s.opts with
      | .build b => .build { b with External := b.External ++ [v] } | t => t }
  | .aInject v => .ok { s with opts := match s.opts with
      | .build b => .build { b with Inject := b.Inject ++ [v] } | t => t }
  | .aJsx v => .ok { s with opts := match s.opts with
      | .build b => .build { b with JSXMode := v }
      | .transform t => .transform { t with JSXMode := v } }
  | .aJsxFactory v => .ok { s with opts := match s.opts with
      | .build b => .build { b with JSXFactory := v }
      | .transform t => .transform { t with JSXFactory := v } }
  | .aJsxFragment v => .ok { s with opts := match s.opts with
      | .build b => .build { b with JSXFragment := v }
      | .transform t => .transform { t with JSXFragment := v } }
  | .aBannerEq v => .ok { s with opts := match s.opts with
      | .transform t => .transform { t with Banner := v } | b => b }
  | .aFooterEq v => .ok { s with opts := match s.opts with
      | .transform t => .transform { t with Footer := v } | b => b }
  | .aBannerColon k v => .ok { s with opts := match s.opts with
      | .build b => .build { b with Banner := mapSet b.Banner k v } | t => t }
  | .aFooterColon k v => .ok { s with opts := match s.opts with
      | .build b => .build { b with Footer := mapSet b.Footer k v } | t => t }
  | .aLogLimit v => .ok { s with opts := match s.opts with
      | .build b => .build { b with LogLimit := v }
      | .transform t => .transform { t with LogLimit := v } }
  | .aColor v => .ok { s with opts := match s.opts with
      | .build b => .build { b with Color := v }
      | .transform t => .transform { t with Color := v } }
  | .aLogLevel v => .ok { s with opts := match s.opts with
      | .build b => .build { b with LogLevel := v }
      | .transform t => .transform { t with LogLevel := v } }
  | .aEntry v => .ok { s with opts := match s.opts with
      | .build b => .build { b with EntryPoints := b.EntryPoints ++ [v] } | t => t }
  | .aEntryAdvanced out inp => .ok { s with opts := match s.opts with
      | .build b => .build { b with EntryPointsAdvanced :=
          b.EntryPointsAdvanced ++ [{ OutputPath := out, InputPath := inp }] } | t => t }

def bindArg (kind : ParseOptionsKind) (s : ParseState) (arg : GoStr) :
    Except ErrorWithNote ParseState :=
  applyAction (classify kind s.opts.isBuild arg) s

/-! ## parseOptionsImpl (cli_impl.go lines 41-708) -/

def parseOptionsImpl (osArgs : List GoStr) (opts0 : OptState) (kind : ParseOptionsKind) :
    Except ErrorWithNote (OptState × Option GoStr) :=
  match osArgs.foldlM (bindArg kind) (ParseState.mk opts0 false none) with
  | .error e => .error e
  | .ok s =>
    -- lines 700-705: the bare --sourcemap reconciliation
    match s.opts with
    | .build b =>
      if s.hasBareSourceMapFlag && b.Outfile == [] && b.Outdir == [] then
        .ok (.build { b with Sourcemap := .smInline }, s.metafile)
      else .ok (.build b, s.metafile)
    | .transform t => .ok (.transform t, s.metafile)

/-! ## parseOptionsForRun (cli_impl.go lines 769-817) -/

-- the Build-vs-Transform decision: the single forward scan of lines 772-773
def decideModeIsBuild (osArgs : List GoStr) : Bool :=
  (osArgs.find? (fun arg => !hasPfx arg c_dash || arg == c_bundle)).isSome

def sourceMapModeName : api.SourceMap → GoStr
  | .smExternal => v_external
  | .smInlineAndExternal => v_both
  | .smLinked => v_linked
  | _ => []

def transformSourcemapError (sm : api.SourceMap) : ErrorWithNote :=
  MakeErrorWithNote
    (m_sm_transform1 ++ sourceMapModeName sm ++ m_sm_transform2)
    (m_sm_note1 ++ quoteGo (sourceMapModeName sm) ++ m_sm_note2)

-- Returns (BuildOptions, metafile, TransformOptions, error) like the Go
-- 4-tuple of pointers; `none` models a nil pointer.
def parseOptionsForRun (osArgs : List GoStr) :
    Option api.BuildOptions × Option GoStr × Option api.TransformOptions × Option ErrorWithNote :=
  if decideModeIsBuild osArgs then
    -- CLI defaults: LogLimit 6, LogLevel info, Write true
    match parseOptionsImpl osArgs
        (.build { newBuildOptions with LogLimit := 6, LogLevel := .llInfo, Write := true })
        .kindInternal with
    | .error err => (none, none, none, some err)
    | .ok (.build b, metafile) => (some b, metafile, none, none)
    | .ok (.transform _, _) => (none, none, none, none) -- unreachable: the mode is preserved
  else
    -- CLI defaults: LogLimit 6, LogLevel info
    match parseOptionsImpl osArgs
        (.transform { newTransformOptions with LogLimit := 6, LogLevel := .llInfo })
        .kindInternal with
    | .error err => (none, none, none, some err)
    | .ok (.transform t, _) =>
      if t.Sourcemap != .smNone && t.Sourcemap != .smInline then
        (none, none, none, some (transformSourcemapError t.Sourcemap))
      else (none, none, some t, none)
    | .ok (.build _, _) => (none, none, none, none) -- unreachable: the mode is preserved

/-! ## parseServeOptionsImpl (cli_impl.go lines 1026-1068) -/

-- net.SplitHostPort (Go standard library), modelled at the character level.
def splitHostPort (hostPort : GoStr) : Except GoStr (GoStr × GoStr) :=
  let addrErr : GoStr → Except GoStr (GoStr × GoStr) :=
    fun why => .error (m_address ++ hostPort ++ m_colon_sep ++ why)
  match lastIdxOf ':' hostPort with
  | none => addrErr m_missing_port
  | some i =>
    match hostPort.head? with
    | some '[' =>
      match (hostPort.findIdx? (· == ']')) with
      | none => addrErr m_missing_rbracket
      | some endIdx =>
        if endIdx + 1 == hostPort.length then addrErr m_missing_port
        else if endIdx + 1 == i then
          let host := (hostPort.drop 1).take (endIdx - 1)
          if containsCh '[' (hostPort.drop 1) then addrErr m_unexpected_lbracket
          else if containsCh ']' (hostPort.drop (endIdx + 1)) then addrErr m_unexpected_rbracket
          else .ok (host, hostPort.drop (i + 1))
        else if (hostPort.drop (endIdx + 1)).head? == some (Char.ofNat 58) then addrErr m_too_many_colons
        else addrErr m_missing_port
    | _ =>
      let host := hostPort.take i
      if containsCh ':' host then addrErr m_too_many_colons
      else if containsCh '[' hostPort then addrErr m_unexpected_lbracket
      else if containsCh ']' hostPort then addrErr m_unexpected_rbracket
      else .ok (host, hostPort.drop (i + 1))

def parseServeOptionsImpl (osArgs : List GoStr) :
    Except GoStr (api.ServeOptions × List GoStr) :=
  -- the filtering loop (lines 1032-1043)
  let st := osArgs.foldl (fun (st : GoStr × GoStr × List GoStr) arg =>
    let (portText, servedir, filteredArgs) := st
    if arg == c_serve then (portText, servedir, filteredArgs)
    else if hasPfx arg c_serve_eq then (arg.drop c_serve_eq.length, servedir, filteredArgs)
    else if hasPfx arg c_servedir_eq then (portText, arg.drop c_servedir_eq.length, filteredArgs)
    else (portText, servedir, filteredArgs ++ [arg])) (['0'], [], [])
  let (portText0, servedir, filteredArgs) := st
  -- the optional host split (lines 1046-1052)
  match (if containsCh ':' portText0 then splitHostPort portText0
         else .ok ([], portText0) : Except GoStr (GoStr × GoStr)) with
  | .error e => .error e
  | .ok (host, portText) =>
    -- the port parse and range check (lines 1055-1061)
    match goParseInt portText 32 with
    | none => .error (m_parse_int_pfx ++ quoteGo portText ++ m_invalid_syntax)
    | some port =>
      if port < 0 || port > 65535 then .error (m_invalid_port ++ portText)
      else .ok ({ Port := port.toNat, Host := host, Servedir := servedir }, filteredArgs)
/-! ## Basic lemmas about the argument fold -/

theorem except_bind_ok {ε α β : Type} (a : α) (f : α → Except ε β) :
    (Except.ok a >>= f) = f a := rfl

theorem except_bind_error {ε α β : Type} (e : ε) (f : α → Except ε β) :
    (Except.error e >>= f : Except ε β) = Except.error e := rfl

theorem applyAction_error_iff (a : ArgAction) (s : ParseState) (e : ErrorWithNote) :
    applyAction a s = .error e ↔ a = .aErr e := by
  cases a <;> simp [applyAction]

theorem applyAction_isBuild {a : ArgAction} {s s' : ParseState}
    (h : applyAction a s = .ok s') : s'.opts.isBuild = s.opts.isBuild := by
  cases a <;> cases hs : s.opts <;>
    first
      | (simp only [applyAction, hs, Except.ok.injEq] at h
         subst h
         simp [OptState.isBuild, hs])
      | simp [applyAction] at h

theorem applyAction_ok_of_ne (a : ArgAction) (s : ParseState) (h : ∀ e, a ≠ .aErr e) :
    ∃ s', applyAction a s = .ok s' := by
  cases a <;> first
    | exact ⟨_, rfl⟩
    | exact absurd rfl (h _)

-- The error produced for one argument: it depends only on the argument, the
-- parse kind, and the mode — not on the state built so far.
def errOfArg (kind : ParseOptionsKind) (isBuild : Bool) (arg : GoStr) : Option ErrorWithNote :=
  match classify kind isBuild arg with
  | .aErr e => some e
  | _ => none

theorem errOfArg_eq_some {kind : ParseOptionsKind} {isBuild : Bool} {arg : GoStr}
    {e : ErrorWithNote} :
    errOfArg kind isBuild arg = some e ↔ classify kind isBuild arg = .aErr e := by
  unfold errOfArg
  cases h : classify kind isBuild arg <;> simp

theorem errOfArg_eq_none {kind : ParseOptionsKind} {isBuild : Bool} {arg : GoStr} :
    errOfArg kind isBuild arg = none ↔ ∀ e, classify kind isBuild arg ≠ .aErr e := by
  unfold errOfArg
  cases h : classify kind isBuild arg <;> simp

theorem bindArg_def (kind : ParseOptionsKind) (s : ParseState) (arg : GoStr) :
    bindArg kind s arg = applyAction (classify kind s.opts.isBuild arg) s := rfl

theorem foldlM_bindArg_isBuild {kind : ParseOptionsKind} :
    ∀ {args : List GoStr} {s s' : ParseState},
    args.foldlM (bindArg kind) s = .ok s' → s'.opts.isBuild = s.opts.isBuild := by
  intro args
  induction args with
  | nil =>
    intro s s' h
    simp only [List.foldlM_nil] at h
    cases h
    rfl
  | cons a rest ih =>
    intro s s' h
    rw [List.foldlM_cons] at h
    cases hb : bindArg kind s a with
    | error e => rw [hb, except_bind_error] at h; cases h
    | ok s1 =>
      rw [hb, except_bind_ok] at h
      exact (ih h).trans (applyAction_isBuild hb)

theorem foldlM_bindArg_error {kind : ParseOptionsKind} :
    ∀ {args : List GoStr} {s : ParseState} {e : ErrorWithNote},
    args.findSome? (errOfArg kind s.opts.isBuild) = some e →
    args.foldlM (bindArg kind) s = .error e := by
  intro args
  induction args with
  | nil => intro s e h; simp at h
  | cons a rest ih =>
    intro s e h
    rw [List.findSome?_cons] at h
    rw [List.foldlM_cons]
    cases hfa : errOfArg kind s.opts.isBuild a with
    | some e' =>
      rw [hfa] at h
      cases h
      rw [bindArg_def, errOfArg_eq_some.mp hfa]
      rfl
    | none =>
      rw [hfa] at h
      have hne := errOfArg_eq_none.mp hfa
      obtain ⟨s1, hs1⟩ := applyAction_ok_of_ne _ s (fun e' he' => hne e' he')
      rw [bindArg_def, hs1, except_bind_ok]
      have hib : s1.opts.isBuild = s.opts.isBuild := applyAction_isBuild hs1
      exact ih (by rw [hib]; exact h)

theorem foldlM_bindArg_ok_of_none {kind : ParseOptionsKind} :
    ∀ {args : List GoStr} {s : ParseState},
    args.findSome? (errOfArg kind s.opts.isBuild) = none →
    ∃ s', args.foldlM (bindArg kind) s = .ok s' := by
  intro args
  induction args with
  | nil => intro s _; exact ⟨s, rfl⟩
  | cons a rest ih =>
    intro s h
    rw [List.findSome?_cons] at h
    cases hfa : errOfArg kind s.opts.isBuild a with
    | some e' => rw [hfa] at h; cases h
    | none =>
      rw [hfa] at h
      have hne := errOfArg_eq_none.mp hfa
      obtain ⟨s1, hs1⟩ := applyAction_ok_of_ne _ s (fun e' he' => hne e' he')
      have hib : s1.opts.isBuild = s.opts.isBuild := applyAction_isBuild hs1
      obtain ⟨s', hs'⟩ := @ih s1 (by rw [hib]; exact h)
      refine ⟨s', ?_⟩
      rw [List.foldlM_cons, bindArg_def, hs1, except_bind_ok]
      exact hs'

-- The fold errors exactly when some argument is individually invalid.
theorem foldlM_bindArg_cases {kind : ParseOptionsKind} (args : List GoStr) (s : ParseState) :
    (∃ e, args.findSome? (errOfArg kind s.opts.isBuild) = some e ∧
      args.foldlM (bindArg kind) s = .error e) ∨
    (args.findSome? (errOfArg kind s.opts.isBuild) = none ∧
      ∃ s', args.foldlM (bindArg kind) s = .ok s') := by
  cases h : args.findSome? (errOfArg kind s.opts.isBuild) with
  | some e => exact .inl ⟨e, rfl, foldlM_bindArg_error h⟩
  | none => exact .inr ⟨rfl, foldlM_bindArg_ok_of_none h⟩

/-! ## Mode preservation through parseOptionsImpl -/

theorem parseOptionsImpl_build_shape {args : List GoStr} {b0 : api.BuildOptions}
    {kind : ParseOptionsKind} {st : OptState} {m : Option GoStr}
    (h : parseOptionsImpl args (.build b0) kind = .ok (st, m)) : ∃ bb, st = .build bb := by
  unfold parseOptionsImpl at h
  cases hf : args.foldlM (bindArg kind) (ParseState.mk (.build b0) false none) with
  | error e => rw [hf] at h; cases h
  | ok s =>
    rw [hf] at h
    dsimp only at h
    have hib : s.opts.isBuild = true := foldlM_bindArg_isBuild hf
    cases hs : s.opts with
    | transform t => rw [hs] at hib; cases hib
    | build bb =>
      rw [hs] at h
      dsimp only at h
      by_cases hc : (s.hasBareSourceMapFlag && bb.Outfile == [] && bb.Outdir == []) = true
      · rw [if_pos hc] at h
        cases h
        exact ⟨_, rfl⟩
      · rw [if_neg hc] at h
        cases h
        exact ⟨_, rfl⟩

theorem parseOptionsImpl_transform_shape {args : List GoStr} {t0 : api.TransformOptions}
    {kind : ParseOptionsKind} {st : OptState} {m : Option GoStr}
    (h : parseOptionsImpl args (.transform t0) kind = .ok (st, m)) : ∃ tt, st = .transform tt := by
  unfold parseOptionsImpl at h
  cases hf : args.foldlM (bindArg kind) (ParseState.mk (.transform t0) false none) with
  | error e => rw [hf] at h; cases h
  | ok s =>
    rw [hf] at h
    dsimp only at h
    have hib : s.opts.isBuild = false := foldlM_bindArg_isBuild hf
    cases hs : s.opts with
    | build bb => rw [hs] at hib; cases hib
    | transform tt =>
      rw [hs] at h
      dsimp only at h
      cases h
      exact ⟨_, rfl⟩
/-! ## parseOptionsImpl error/success characterization -/

theorem parseOptionsImpl_error {args : List GoStr} {opts0 : OptState} {kind : ParseOptionsKind}
    {e : ErrorWithNote} (h : args.findSome? (errOfArg kind opts0.isBuild) = some e) :
    parseOptionsImpl args opts0 kind = .error e := by
  unfold parseOptionsImpl
  rw [@foldlM_bindArg_error kind args (ParseState.mk opts0 false none) e h]

theorem parseOptionsImpl_ok_of_none {args : List GoStr} {opts0 : OptState}
    {kind : ParseOptionsKind} (h : args.findSome? (errOfArg kind opts0.isBuild) = none) :
    ∃ stm, parseOptionsImpl args opts0 kind = .ok stm := by
  unfold parseOptionsImpl
  obtain ⟨s', hs'⟩ :=
    @foldlM_bindArg_ok_of_none kind args (ParseState.mk opts0 false none) h
  rw [hs']
  dsimp only
  cases hso : s'.opts with
  | build b =>
    dsimp only
    by_cases hc : (s'.hasBareSourceMapFlag && b.Outfile == [] && b.Outdir == []) = true
    · rw [if_pos hc]; exact ⟨_, rfl⟩
    · rw [if_neg hc]; exact ⟨_, rfl⟩
  | transform t => exact ⟨_, rfl⟩

-- The first per-argument flag error of a run, in left-to-right order, with the
-- mode fixed by the pre-scan (parseOptionsForRun always uses kindInternal).
def firstFlagError (osArgs : List GoStr) : Option ErrorWithNote :=
  osArgs.findSome? (errOfArg .kindInternal (decideModeIsBuild osArgs))

-- Shared: a first flag error makes parseOptionsForRun return it and nothing else.
theorem parseOptionsForRun_firstError {osArgs : List GoStr} {e : ErrorWithNote}
    (h : firstFlagError osArgs = some e) :
    parseOptionsForRun osArgs = (none, none, none, some e) := by
  unfold firstFlagError at h
  by_cases hd : decideModeIsBuild osArgs = true
  · have him : parseOptionsImpl osArgs
        (.build { newBuildOptions with LogLimit := 6, LogLevel := .llInfo, Write := true })
        .kindInternal = .error e :=
      parseOptionsImpl_error (by rw [hd] at h; exact h)
    unfold parseOptionsForRun
    rw [if_pos hd, him]
  · have hdf : decideModeIsBuild osArgs = false := by simpa using hd
    have him : parseOptionsImpl osArgs
        (.transform { newTransformOptions with LogLimit := 6, LogLevel := .llInfo })
        .kindInternal = .error e :=
      parseOptionsImpl_error (by rw [hdf] at h; exact h)
    unfold parseOptionsForRun
    rw [if_neg hd, him]

/-- C1: the mode decision is Build iff some argument lacks a leading dash or is
"--bundle" (decided by the single forward pre-scan `decideModeIsBuild`), and
`parseOptionsForRun` yields exactly one of: a BuildOptions value, a
TransformOptions value, or an error — never more than one, and never zero
unless there is an error.  A Build result implies the pre-scan said Build and a
Transform result implies it said Transform. -/
theorem parseOptionsForRun_mode_and_exclusivity (osArgs : List GoStr) :
    (decideModeIsBuild osArgs = true ↔
      ∃ arg ∈ osArgs, hasPfx arg c_dash = false ∨ arg = c_bundle)
    ∧ ((∃ b m, parseOptionsForRun osArgs = (some b, m, none, none)) ∨
       (∃ t, parseOptionsForRun osArgs = (none, none, some t, none)) ∨
       (∃ e, parseOptionsForRun osArgs = (none, none, none, some e)))
    ∧ ((parseOptionsForRun osArgs).1.isSome = true → decideModeIsBuild osArgs = true)
    ∧ ((parseOptionsForRun osArgs).2.2.1.isSome = true → decideModeIsBuild osArgs = false) := by
  refine ⟨?_, ?_⟩
  · unfold decideModeIsBuild
    rw [List.find?_isSome]
    simp only [Bool.or_eq_true, Bool.not_eq_true', beq_iff_eq]
  · by_cases hd : decideModeIsBuild osArgs = true
    · cases him : parseOptionsImpl osArgs
          (.build { newBuildOptions with LogLimit := 6, LogLevel := .llInfo, Write := true })
          .kindInternal with
      | error e =>
        have hr : parseOptionsForRun osArgs = (none, none, none, some e) := by
          unfold parseOptionsForRun
          rw [if_pos hd, him]
        refine ⟨.inr (.inr ⟨e, hr⟩), fun _ => hd, fun hsome => ?_⟩
        rw [hr] at hsome
        simp at hsome
      | ok stm =>
        obtain ⟨st, m⟩ := stm
        obtain ⟨bb, rfl⟩ := parseOptionsImpl_build_shape him
        have hr : parseOptionsForRun osArgs = (some bb, m, none, none) := by
          unfold parseOptionsForRun
          rw [if_pos hd, him]
        refine ⟨.inl ⟨bb, m, hr⟩, fun _ => hd, fun hsome => ?_⟩
        rw [hr] at hsome
        simp at hsome
    · have hdf : decideModeIsBuild osArgs = false := by simpa using hd
      cases him : parseOptionsImpl osArgs
          (.transform { newTransformOptions with LogLimit := 6, LogLevel := .llInfo })
          .kindInternal with
      | error e =>
        have hr : parseOptionsForRun osArgs = (none, none, none, some e) := by
          unfold parseOptionsForRun
          rw [if_neg hd, him]
        refine ⟨.inr (.inr ⟨e, hr⟩), fun hsome => ?_, fun _ => hdf⟩
        rw [hr] at hsome
        simp at hsome
      | ok stm =>
        obtain ⟨st, m⟩ := stm
        obtain ⟨tt, rfl⟩ := parseOptionsImpl_transform_shape him
        by_cases hsm : (tt.Sourcemap != .smNone && tt.Sourcemap != .smInline) = true
        · have hr : parseOptionsForRun osArgs =
              (none, none, none, some (transformSourcemapError tt.Sourcemap)) := by
            unfold parseOptionsForRun
            rw [if_neg hd, him]
            dsimp only
            rw [if_pos hsm]
          refine ⟨.inr (.inr ⟨_, hr⟩), fun hsome => ?_, fun _ => hdf⟩
          rw [hr] at hsome
          simp at hsome
        · have hr : parseOptionsForRun osArgs = (none, none, some tt, none) := by
            unfold parseOptionsForRun
            rw [if_neg hd, him]
            dsimp only
            rw [if_neg hsm]
          refine ⟨.inr (.inl ⟨tt, hr⟩), fun hsome => ?_, fun _ => hdf⟩
          rw [hr] at hsome
          simp at hsome

/-- Witness for C1 at the concrete argument list ["--bundle"]. -/
theorem parseOptionsForRun_mode_and_exclusivity_witness :
    decideModeIsBuild [c_bundle] = true :=
  (parseOptionsForRun_mode_and_exclusivity [c_bundle]).1.mpr ⟨c_bundle, by simp, Or.inr rfl⟩

/-- C3: option parsing stops at the first invalid argument (left-to-right): the
first per-argument error, when one exists, is the entire result — the error is
returned with all three configuration components nil, and errors of later
invalid flags are never reported.  The first conjunct ties "contains an invalid
flag" to `firstFlagError`. -/
theorem parse_stops_at_first_invalid_flag (osArgs : List GoStr) :
    (firstFlagError osArgs = none ↔
      ∀ arg ∈ osArgs, errOfArg .kindInternal (decideModeIsBuild osArgs) arg = none)
    ∧ ∀ e, firstFlagError osArgs = some e →
        parseOptionsForRun osArgs = (none, none, none, some e) := by
  refine ⟨List.findSome?_eq_none_iff, fun e h => parseOptionsForRun_firstError h⟩

/-- Witness for C3: with an invalid --charset followed by an invalid --format,
the reported error is the first one and no config is returned. -/
theorem parse_stops_at_first_invalid_flag_witness :
    ∃ e, firstFlagError [x_charset_bogus, x_format_nope] = some e ∧
      parseOptionsForRun [x_charset_bogus, x_format_nope] = (none, none, none, some e) := by
  obtain ⟨e, he⟩ : ∃ e, firstFlagError [x_charset_bogus, x_format_nope] = some e := ⟨_, rfl⟩
  exact ⟨e, he, (parse_stops_at_first_invalid_flag _).2 e he⟩

/-- C10: "--loader=file" is rejected by the switch itself, before the
build/transform branch of the loader= case, in both modes and for both parse
kinds; hence any argument list containing it fails with no config produced. -/
theorem loader_file_rejected_in_both_modes :
    (∀ (kind : ParseOptionsKind) (isBuild : Bool),
      classify kind isBuild x_loader_file =
        .aErr (MakeErrorWithNote (quoteGo x_loader_file ++ m_not_supported_stdin)
          m_file_loader_note))
    ∧ ∀ osArgs, x_loader_file ∈ osArgs →
        (parseOptionsForRun osArgs).1 = none ∧ (parseOptionsForRun osArgs).2.2.1 = none ∧
        (parseOptionsForRun osArgs).2.2.2.isSome = true := by
  constructor
  · intro kind isBuild
    cases kind <;> cases isBuild <;> rfl
  · intro osArgs hmem
    have herr : ∀ b : Bool, errOfArg .kindInternal b x_loader_file ≠ none := by decide
    cases hfe : firstFlagError osArgs with
    | none =>
      exact absurd ((List.findSome?_eq_none_iff.mp hfe) x_loader_file hmem)
        (herr (decideModeIsBuild osArgs))
    | some e =>
      rw [parseOptionsForRun_firstError hfe]
      simp

/-- Witness for C10: a Build-mode invocation with an entry point still fails on
"--loader=file". -/
theorem loader_file_rejected_in_both_modes_witness :
    (parseOptionsForRun [x_entry_js, x_loader_file]).1 = none ∧
      (parseOptionsForRun [x_entry_js, x_loader_file]).2.2.1 = none ∧
      (parseOptionsForRun [x_entry_js, x_loader_file]).2.2.2.isSome = true :=
  loader_file_rejected_in_both_modes.2 [x_entry_js, x_loader_file] (by simp)
/-! ## Per-token characterization of parseTargets -/

-- the baseline-table lookup for one token (case-insensitive)
def baselineOf (value : GoStr) : Option api.Target := mapGet validTargets (goToLower value)

-- the engine-prefix match for one token (case-sensitive; at most one engine
-- name can match since none is a prefix of another)
def engineOf (value : GoStr) : Option (api.EngineName × GoStr) :=
  match validEngines.find? (fun p => hasPfx value p.1) with
  | some (engine, name) => some (name, value.drop engine.length)
  | none => none

-- the fatal error contributed by one token, if any
def tokenErr (arg value : GoStr) : Option ErrorWithNote :=
  match baselineOf value with
  | some _ => none
  | none =>
    match engineOf value with
    | some (_, version) =>
      if version == [] then
        some (MakeErrorWithNote
          (m_target_missing1 ++ quoteGo value ++ m_target_missing2 ++ quoteGo arg) [])
      else none
    | none =>
      some (MakeErrorWithNote (m_invalid_target ++ quoteGo value ++ m_in ++ quoteGo arg)
        targetNote)

-- the engine constraint contributed by one token, if any
def engineEventOf (value : GoStr) : Option api.Engine :=
  match baselineOf value with
  | some _ => none
  | none =>
    match engineOf value with
    | some (name, version) => if version == [] then none else some { Name := name, Version := version }
    | none => none

theorem parseTargetsLoop_spec (arg : GoStr) :
    ∀ (tokens : List GoStr) (t0 : api.Target) (es0 : List api.Engine),
    parseTargetsLoop arg tokens t0 es0 =
      (match tokens.findSome? (tokenErr arg) with
       | some e => .error e
       | none => .ok (tokens.foldl (fun t v => (baselineOf v).getD t) t0,
           es0 ++ tokens.filterMap engineEventOf)) := by
  intro tokens
  induction tokens with
  | nil => intro t0 es0; simp [parseTargetsLoop]
  | cons v rest ih =>
    intro t0 es0
    unfold parseTargetsLoop
    cases hb : baselineOf v with
    | some valid =>
      rw [show mapGet validTargets (goToLower v) = some valid from hb]
      dsimp only
      rw [ih]
      have ht : tokenErr arg v = none := by simp [tokenErr, hb]
      have hev : engineEventOf v = none := by simp [engineEventOf, hb]
      simp [List.findSome?_cons, ht, hev, List.filterMap_cons, List.foldl_cons, hb]
    | none =>
      rw [show mapGet validTargets (goToLower v) = none from hb]
      dsimp only
      cases hf : validEngines.find? (fun p => hasPfx v p.1) with
      | some p =>
        obtain ⟨engine, name⟩ := p
        dsimp only
        by_cases hv : (v.drop engine.length == ([] : GoStr)) = true
        · rw [if_pos hv]
          have ht : tokenErr arg v = some (MakeErrorWithNote
              (m_target_missing1 ++ quoteGo v ++ m_target_missing2 ++ quoteGo arg) []) := by
            simp [tokenErr, hb, engineOf, hf, hv]
          simp [List.findSome?_cons, ht]
        · rw [if_neg hv]
          rw [ih]
          have ht : tokenErr arg v = none := by
            simp [tokenErr, hb, engineOf, hf, hv]
          have hev : engineEventOf v = some { Name := name, Version := v.drop engine.length } := by
            simp [engineEventOf, hb, engineOf, hf, hv]
          simp [List.findSome?_cons, ht, hev, List.filterMap_cons, List.foldl_cons, hb]
      | none =>
        dsimp only
        have ht : tokenErr arg v = some (MakeErrorWithNote
            (m_invalid_target ++ quoteGo v ++ m_in ++ quoteGo arg) targetNote) := by
          simp [tokenErr, hb, engineOf, hf]
        simp [List.findSome?_cons, ht]

/-- C4: parseTargets maps tokens independently: a baseline token (matched
case-insensitively through `goToLower`) overwrites the single scalar baseline,
last match winning (the `foldl`); an engine token with a non-empty version
suffix appends its constraint in first-seen order with duplicates retained (the
`filterMap`); an engine token with an empty suffix is a fatal error.  In
particular es2018,chrome80 gives baseline ES2018 with constraints
[{chrome,80}] in either token order, and a bare "chrome" is fatal. -/
theorem parseTargets_token_semantics :
    (∀ (tokens : List GoStr) (arg : GoStr) (t : api.Target) (es : List api.Engine),
      parseTargets tokens arg = .ok (t, es) →
        es = tokens.filterMap engineEventOf ∧
        t = tokens.foldl (fun t v => (baselineOf v).getD t) .tDefault)
    ∧ (∀ (tokens : List GoStr) (arg : GoStr) (e : ErrorWithNote),
        tokens.findSome? (tokenErr arg) = some e → parseTargets tokens arg = .error e)
    ∧ parseTargets [t_es2018, x_chrome80] x_target_mix =
        .ok (.tES2018, [{ Name := .engineChrome, Version := x_80 }])
    ∧ parseTargets [x_chrome80, t_es2018] x_target_mix =
        .ok (.tES2018, [{ Name := .engineChrome, Version := x_80 }])
    ∧ parseTargets [e_chrome] x_target_chrome = .error (MakeErrorWithNote
        (m_target_missing1 ++ quoteGo e_chrome ++ m_target_missing2 ++ quoteGo x_target_chrome)
        []) := by
  refine ⟨?_, ?_, by decide, by decide, by decide⟩
  · intro tokens arg t es h
    unfold parseTargets at h
    rw [parseTargetsLoop_spec] at h
    cases hfs : tokens.findSome? (tokenErr arg) with
    | some e => rw [hfs] at h; cases h
    | none =>
      rw [hfs] at h
      dsimp only at h
      cases h
      exact ⟨by simp, rfl⟩
  · intro tokens arg e h
    unfold parseTargets
    rw [parseTargetsLoop_spec, h]

/-- Witness for C4 at the token list ["es2018", "chrome80"]. -/
theorem parseTargets_token_semantics_witness :
    [t_es2018, x_chrome80].filterMap engineEventOf =
      [{ Name := api.EngineName.engineChrome, Version := x_80 }] :=
  ((parseTargets_token_semantics.1 [t_es2018, x_chrome80] x_target_mix .tES2018
    [{ Name := .engineChrome, Version := x_80 }] (by decide)).1).symm

/-! ## C8: the ordering of the invalid-target note -/

-- The rendering the claim describes: alphabetically sorted except that the
-- baseline pattern "esN" is always listed first.
def targetNoteClaimed : GoStr :=
  let engines := quoteGo t_esN :: sortStrings (validEngines.map (fun p => quoteGo (p.1 ++ ['N'])))
  m_valid_values_are ++ goJoin m_comma_sep engines.dropLast ++ m_or_sep ++
    engines.getLastD [] ++ m_where_n

/-- Counterexample for C8: for the invalid token "foo" the produced note is not
the esN-first rendering the claim describes — sort.Strings sorts the whole
list, "esN" included, so "esN" lands third, after "chromeN" and "edgeN". -/
theorem target_note_esN_not_first_counterexample :
    parseTargets [x_foo] x_target_foo = .error (MakeErrorWithNote
      (m_invalid_target ++ quoteGo x_foo ++ m_in ++ quoteGo x_target_foo) targetNote)
    ∧ targetNote ≠ targetNoteClaimed
    ∧ sortStrings (quoteGo t_esN :: validEngines.map (fun p => quoteGo (p.1 ++ ['N']))) =
        [quoteGo (e_chrome ++ ['N']), quoteGo (e_edge ++ ['N']), quoteGo t_esN,
         quoteGo (e_firefox ++ ['N']), quoteGo (e_ios ++ ['N']), quoteGo (e_node ++ ['N']),
         quoteGo (e_safari ++ ['N'])] := by
  decide

/-- C8 amended: for every token matching neither form, the error's note lists
every valid form — the baseline pattern "esN" plus the six engine names
followed by N — in full alphabetical order, the baseline pattern included in
the sort (it appears third). -/
theorem invalid_target_note_fully_sorted (value arg : GoStr)
    (hb : baselineOf value = none) (he : engineOf value = none) :
    tokenErr arg value = some (MakeErrorWithNote
      (m_invalid_target ++ quoteGo value ++ m_in ++ quoteGo arg) targetNote)
    ∧ parseTargets [value] arg = .error (MakeErrorWithNote
      (m_invalid_target ++ quoteGo value ++ m_in ++ quoteGo arg) targetNote)
    ∧ targetNote = m_valid_values_are ++ goJoin m_comma_sep
        [quoteGo (e_chrome ++ ['N']), quoteGo (e_edge ++ ['N']), quoteGo t_esN,
         quoteGo (e_firefox ++ ['N']), quoteGo (e_ios ++ ['N']), quoteGo (e_node ++ ['N'])]
      ++ m_or_sep ++ quoteGo (e_safari ++ ['N']) ++ m_where_n := by
  have ht : tokenErr arg value = some (MakeErrorWithNote
      (m_invalid_target ++ quoteGo value ++ m_in ++ quoteGo arg) targetNote) := by
    simp [tokenErr, hb, he]
  refine ⟨ht, ?_, by decide⟩
  unfold parseTargets
  rw [parseTargetsLoop_spec]
  rw [List.findSome?_cons, ht]

/-- Witness for the amended C8 at the concrete invalid token "foo". -/
theorem invalid_target_note_fully_sorted_witness :
    tokenErr x_target_foo x_foo = some (MakeErrorWithNote
      (m_invalid_target ++ quoteGo x_foo ++ m_in ++ quoteGo x_target_foo) targetNote) :=
  (invalid_target_note_fully_sorted x_foo x_target_foo (by decide) (by decide)).1
/-! ## C7: parseServeOptionsImpl -/

-- serve-specific arguments, removed by the filtering loop
def isServeArg (arg : GoStr) : Bool :=
  arg == c_serve || hasPfx arg c_serve_eq || hasPfx arg c_servedir_eq

-- the port-spec text after the loop: the last "--serve=" payload, default "0"
def servePortTextFrom (pt : GoStr) (osArgs : List GoStr) : GoStr :=
  osArgs.foldl (fun portText arg =>
    if arg == c_serve then portText
    else if hasPfx arg c_serve_eq then arg.drop c_serve_eq.length
    else if hasPfx arg c_servedir_eq then portText
    else portText) pt

def servePortText (osArgs : List GoStr) : GoStr := servePortTextFrom ['0'] osArgs

-- the served directory after the loop: the last "--servedir=" payload
def serveDirFrom (sd : GoStr) (osArgs : List GoStr) : GoStr :=
  osArgs.foldl (fun servedir arg =>
    if arg == c_serve then servedir
    else if hasPfx arg c_serve_eq then servedir
    else if hasPfx arg c_servedir_eq then arg.drop c_servedir_eq.length
    else servedir) sd

def serveDirOf (osArgs : List GoStr) : GoStr := serveDirFrom [] osArgs

-- host:port resolution of the spec text: standard host:port parsing when a
-- colon is present, else the whole text is the port and the host is empty
def serveHostPort (pt : GoStr) : Except GoStr (GoStr × GoStr) :=
  if containsCh ':' pt then splitHostPort pt else .ok ([], pt)

theorem serve_fold_spec :
    ∀ (osArgs : List GoStr) (pt sd : GoStr) (fa : List GoStr),
    (osArgs.foldl (fun (st : GoStr × GoStr × List GoStr) arg =>
      let (portText, servedir, filteredArgs) := st
      if arg == c_serve then (portText, servedir, filteredArgs)
      else if hasPfx arg c_serve_eq then (arg.drop c_serve_eq.length, servedir, filteredArgs)
      else if hasPfx arg c_servedir_eq then (portText, arg.drop c_servedir_eq.length, filteredArgs)
      else (portText, servedir, filteredArgs ++ [arg])) (pt, sd, fa)) =
    (servePortTextFrom pt osArgs, serveDirFrom sd osArgs,
      fa ++ osArgs.filter (fun a => !isServeArg a)) := by
  intro osArgs
  induction osArgs with
  | nil => intro pt sd fa; simp [servePortTextFrom, serveDirFrom]
  | cons a rest ih =>
    intro pt sd fa
    rw [List.foldl_cons]
    dsimp only
    by_cases h1 : (a == c_serve) = true
    · rw [if_pos h1, ih]
      have h1' : a = c_serve := beq_iff_eq.mp h1
      subst h1'
      simp [servePortTextFrom, serveDirFrom, isServeArg, List.filter_cons, List.foldl_cons]
    · rw [if_neg h1]
      have h1' : ¬(a = c_serve) := fun hh => h1 (by rw [hh]; exact beq_self_eq_true _)
      by_cases h2 : hasPfx a c_serve_eq = true
      · rw [if_pos h2, ih]
        simp [servePortTextFrom, serveDirFrom, isServeArg, h1', h2, List.filter_cons,
          List.foldl_cons]
      · rw [if_neg h2]
        by_cases h3 : hasPfx a c_servedir_eq = true
        · rw [if_pos h3, ih]
          simp [servePortTextFrom, serveDirFrom, isServeArg, h1', h2, h3, List.filter_cons,
            List.foldl_cons]
        · rw [if_neg h3, ih]
          simp [servePortTextFrom, serveDirFrom, isServeArg, h1', h2, h3, List.filter_cons,
            List.foldl_cons]

/-- C7: the serve spec is split on a colon into host and port via host:port
parsing, otherwise it is a bare port string defaulting to "0"; the port is
parsed as a base-10 integer (32-bit) and a parse failure or a value outside
[0, 65535] is a fatal error; every non-serve argument passes through unchanged
into the filtered list.  In particular --serve=127.0.0.1:9000 yields host
127.0.0.1 and port 9000, and --serve=70000 is fatal. -/
theorem parseServeOptions_spec :
    (∀ osArgs : List GoStr,
      parseServeOptionsImpl osArgs =
        match serveHostPort (servePortText osArgs) with
        | .error e => .error e
        | .ok (host, portText) =>
          match goParseInt portText 32 with
          | none => .error (m_parse_int_pfx ++ quoteGo portText ++ m_invalid_syntax)
          | some port =>
            if port < 0 || port > 65535 then .error (m_invalid_port ++ portText)
            else .ok ({ Port := port.toNat, Host := host, Servedir := serveDirOf osArgs },
                osArgs.filter (fun a => !isServeArg a)))
    ∧ parseServeOptionsImpl [x_serve_hostport, x_a_js] =
        .ok ({ Port := 9000, Host := x_hostpart, Servedir := [] }, [x_a_js])
    ∧ parseServeOptionsImpl [x_serve_70000] =
        .error (m_invalid_port ++ ['7', '0', '0', '0', '0']) := by
  refine ⟨?_, by decide, by decide⟩
  intro osArgs
  unfold parseServeOptionsImpl
  rw [serve_fold_spec]
  dsimp only
  unfold serveHostPort servePortText serveDirOf
  rfl
/-! ## C6: rejected sourcemap modes when transforming stdin -/

/-- Counterexample for C6 as stated: for "--sourcemap=external" in Transform
mode the fatal error's NOTE does not mention "--sourcemap" at all — the
recommendation to use the bare flag lives in the error's message (Text), while
the note only names the rejected mode and explains the single-output
constraint. -/
theorem transform_sourcemap_note_counterexample :
    parseOptionsForRun [x_sourcemap_external] =
      (none, none, none, some (transformSourcemapError .smExternal))
    ∧ containsSub c_sourcemap (transformSourcemapError api.SourceMap.smExternal).Note = false
    ∧ containsSub c_sourcemap (transformSourcemapError api.SourceMap.smExternal).Text = true := by
  decide

/-- C6 amended: in Transform mode a resulting sourcemap mode other than none or
inline is a fatal error produced by parseOptionsForRun itself (before any
engine invocation); its MESSAGE names the rejected mode and recommends using
bare "--sourcemap" instead, and its note names the rejected mode; a mode of
none or inline (in particular the one set by bare "--sourcemap") is accepted.
-/
theorem transform_sourcemap_mode_rejected (osArgs : List GoStr) (t : api.TransformOptions)
    (m : Option GoStr) (hd : decideModeIsBuild osArgs = false)
    (hp : parseOptionsImpl osArgs
      (.transform { newTransformOptions with LogLimit := 6, LogLevel := .llInfo })
      .kindInternal = .ok (.transform t, m)) :
    (t.Sourcemap ≠ .smNone ∧ t.Sourcemap ≠ .smInline →
      parseOptionsForRun osArgs = (none, none, none, some (transformSourcemapError t.Sourcemap))
      ∧ (transformSourcemapError t.Sourcemap).Text =
          m_sm_transform1 ++ sourceMapModeName t.Sourcemap ++ m_sm_transform2
      ∧ containsSub c_sourcemap (transformSourcemapError t.Sourcemap).Text = true
      ∧ containsSub (sourceMapModeName t.Sourcemap)
          (transformSourcemapError t.Sourcemap).Text = true
      ∧ containsSub (sourceMapModeName t.Sourcemap)
          (transformSourcemapError t.Sourcemap).Note = true)
    ∧ (t.Sourcemap = .smNone ∨ t.Sourcemap = .smInline →
      parseOptionsForRun osArgs = (none, none, some t, none)) := by
  have hneg : ¬(decideModeIsBuild osArgs = true) := by simp [hd]
  constructor
  · rintro ⟨h1, h2⟩
    have hsm : (t.Sourcemap != .smNone && t.Sourcemap != .smInline) = true := by
      simp [bne_iff_ne, h1, h2]
    have hr : parseOptionsForRun osArgs =
        (none, none, none, some (transformSourcemapError t.Sourcemap)) := by
      unfold parseOptionsForRun
      rw [if_neg hneg, hp]
      dsimp only
      rw [if_pos hsm]
    refine ⟨hr, rfl, ?_, ?_, ?_⟩ <;> cases hsmv : t.Sourcemap <;> decide
  · intro h12
    have hsm : ¬((t.Sourcemap != .smNone && t.Sourcemap != .smInline) = true) := by
      cases h12 with
      | inl h => simp [h]
      | inr h => simp [h]
    unfold parseOptionsForRun
    rw [if_neg hneg, hp]
    dsimp only
    rw [if_neg hsm]

/-- Witness for the amended C6: "--sourcemap=external" alone (Transform mode)
is rejected with the expected error, and bare "--sourcemap" alone is accepted
with mode inline. -/
theorem transform_sourcemap_mode_rejected_witness :
    parseOptionsForRun [x_sourcemap_external] =
      (none, none, none, some (transformSourcemapError api.SourceMap.smExternal))
    ∧ parseOptionsForRun [c_sourcemap] =
      (none, none,
        some { newTransformOptions with
                 LogLimit := 6, LogLevel := .llInfo, Sourcemap := api.SourceMap.smInline },
        none) := by
  constructor
  · exact ((transform_sourcemap_mode_rejected [x_sourcemap_external]
      { newTransformOptions with
          LogLimit := 6, LogLevel := .llInfo, Sourcemap := api.SourceMap.smExternal }
      none (by decide) (by decide)).1 ⟨by decide, by decide⟩).1
  · exact ((transform_sourcemap_mode_rejected [c_sourcemap]
      { newTransformOptions with
          LogLimit := 6, LogLevel := .llInfo, Sourcemap := api.SourceMap.smInline }
      none (by decide) (by decide)).2 (Or.inr rfl))
/-! ## Character-list lemmas used to invert the classify chain -/

theorem goStr_beq_cons (a b : Char) (as bs : GoStr) :
    ((a :: as : GoStr) == (b :: bs)) = (a == b && as == bs) := rfl

theorem goStr_pfx_cons (a b : Char) (as bs : GoStr) :
    ((a :: as : GoStr).isPrefixOf (b :: bs)) = (a == b && as.isPrefixOf bs) := rfl

theorem goStr_pfx_nil (s : GoStr) : (([] : GoStr)).isPrefixOf s = true := by
  cases s <;> rfl

theorem goStr_pfx_self_append (p rest : GoStr) : p.isPrefixOf (p ++ rest) = true := by
  induction p with
  | nil => exact goStr_pfx_nil _
  | cons a as ih => simp [goStr_pfx_cons, ih]

theorem goStr_isPrefixOf_iff (p s : GoStr) : p.isPrefixOf s = true ↔ ∃ t, p ++ t = s := by
  rw [List.isPrefixOf_iff_prefix]
  exact Iff.rfl

-- xs ++ rest can never equal a string that xs is not a prefix of
theorem goStr_append_ne_of_not_pfx (xs ys : GoStr) (rest : GoStr)
    (h : xs.isPrefixOf ys = false) : ((xs ++ rest : GoStr) == ys) = false := by
  cases hb : ((xs ++ rest : GoStr) == ys) with
  | false => rfl
  | true =>
    have he : xs ++ rest = ys := beq_iff_eq.mp hb
    have : xs.isPrefixOf ys = true := (goStr_isPrefixOf_iff xs ys).mpr ⟨rest, he⟩
    rw [h] at this
    cases this

-- a prefix-incomparable string is not a prefix of xs ++ rest either
theorem goStr_pfx_append_false (xs p : GoStr) (rest : GoStr)
    (h1 : p.isPrefixOf xs = false) (h2 : xs.isPrefixOf p = false) :
    p.isPrefixOf (xs ++ rest) = false := by
  cases hb : p.isPrefixOf (xs ++ rest) with
  | false => rfl
  | true =>
    have hp : p <+: xs ++ rest := List.isPrefixOf_iff_prefix.mp hb
    have hx : xs <+: xs ++ rest := List.prefix_append xs rest
    cases List.prefix_or_prefix_of_prefix hp hx with
    | inl hpx =>
      have : p.isPrefixOf xs = true := List.isPrefixOf_iff_prefix.mpr hpx
      rw [h1] at this; cases this
    | inr hxp =>
      have : xs.isPrefixOf p = true := List.isPrefixOf_iff_prefix.mpr hxp
      rw [h2] at this; cases this

/-! ## Inversion lemmas for the sourcemap cases of the switch -/

-- whether an action writes the sourcemap mode / the bare-flag marker
def isSmAction (a : ArgAction) : Bool :=
  match a with
  | .aSourcemapBare => true
  | .aSourcemapEq _ => true
  | _ => false

theorem group1_no_sm {isBuild : Bool} {arg : GoStr} {a : ArgAction}
    (h : classifyGroup1 isBuild arg = some a) : isSmAction a = false := by
  unfold classifyGroup1 at h
  by_cases c1 : (arg == c_bundle && isBuild) = true
  · rw [if_pos c1] at h
    try dsimp only at h
    repeat' split at h
    all_goals
      first
        | (injection h with hinj; subst hinj; rfl)
        | exact Option.noConfusion h
  · rw [if_neg c1] at h
    by_cases c2 : (arg == c_preserve_symlinks && isBuild) = true
    · rw [if_pos c2] at h
      try dsimp only at h
      repeat' split at h
      all_goals
        first
          | (injection h with hinj; subst hinj; rfl)
          | exact Option.noConfusion h
    · rw [if_neg c2] at h
      by_cases c3 : (arg == c_splitting && isBuild) = true
      · rw [if_pos c3] at h
        try dsimp only at h
        repeat' split at h
        all_goals
          first
            | (injection h with hinj; subst hinj; rfl)
            | exact Option.noConfusion h
      · rw [if_neg c3] at h
        by_cases c4 : (arg == c_allow_overwrite && isBuild) = true
        · rw [if_pos c4] at h
          try dsimp only at h
          repeat' split at h
          all_goals
            first
              | (injection h with hinj; subst hinj; rfl)
              | exact Option.noConfusion h
        · rw [if_neg c4] at h
          by_cases c5 : (arg == c_watch && isBuild) = true
          · rw [if_pos c5] at h
            try dsimp only at h
            repeat' split at h
            all_goals
              first
                | (injection h with hinj; subst hinj; rfl)
                | exact Option.noConfusion h
          · rw [if_neg c5] at h
            by_cases c6 : (arg == c_minify) = true
            · rw [if_pos c6] at h
              try dsimp only at h
              repeat' split at h
              all_goals
                first
                  | (injection h with hinj; subst hinj; rfl)
                  | exact Option.noConfusion h
            · rw [if_neg c6] at h
              by_cases c7 : (arg == c_minify_syntax) = true
              · rw [if_pos c7] at h
                try dsimp only at h
                repeat' split at h
                all_goals
                  first
                    | (injection h with hinj; subst hinj; rfl)
                    | exact Option.noConfusion h
              · rw [if_neg c7] at h
                by_cases c8 : (arg == c_minify_whitespace) = true
                · rw [if_pos c8] at h
                  try dsimp only at h
                  repeat' split at h
                  all_goals
                    first
                      | (injection h with hinj; subst hinj; rfl)
                      | exact Option.noConfusion h
                · rw [if_neg c8] at h
                  by_cases c9 : (arg == c_minify_identifiers) = true
                  · rw [if_pos c9] at h
                    try dsimp only at h
                    repeat' split at h
                    all_goals
                      first
                        | (injection h with hinj; subst hinj; rfl)
                        | exact Option.noConfusion h
                  · rw [if_neg c9] at h
                    by_cases c10 : hasPfx arg c_legal_comments_eq = true
                    · rw [if_pos c10] at h
                      try dsimp only at h
                      repeat' split at h
                      all_goals
                        first
                          | (injection h with hinj; subst hinj; rfl)
                          | exact Option.noConfusion h
                    · rw [if_neg c10] at h
                      by_cases c11 : hasPfx arg c_charset_eq = true
                      · rw [if_pos c11] at h
                        try dsimp only at h
                        repeat' split at h
                        all_goals
                          first
                            | (injection h with hinj; subst hinj; rfl)
                            | exact Option.noConfusion h
                      · rw [if_neg c11] at h
                        by_cases c12 : hasPfx arg c_tree_shaking_eq = true
                        · rw [if_pos c12] at h
                          try dsimp only at h
                          repeat' split at h
                          all_goals
                            first
                              | (injection h with hinj; subst hinj; rfl)
                              | exact Option.noConfusion h
                        · rw [if_neg c12] at h
                          by_cases c13 : (arg == c_ignore_annots) = true
                          · rw [if_pos c13] at h
                            try dsimp only at h
                            repeat' split at h
                            all_goals
                              first
                                | (injection h with hinj; subst hinj; rfl)
                                | exact Option.noConfusion h
                          · rw [if_neg c13] at h
                            by_cases c14 : (arg == c_keep_names) = true
                            · rw [if_pos c14] at h
                              try dsimp only at h
                              repeat' split at h
                              all_goals
                                first
                                  | (injection h with hinj; subst hinj; rfl)
                                  | exact Option.noConfusion h
                            · rw [if_neg c14] at h
                              exact Option.noConfusion h

theorem group3_no_sm {kind : ParseOptionsKind} {isBuild : Bool} {arg : GoStr} {a : ArgAction}
    (h : classifyGroup3 kind isBuild arg = some a) : isSmAction a = false := by
  unfold classifyGroup3 at h
  by_cases c1 : hasPfx arg c_source_root_eq = true
  · rw [if_pos c1] at h
    try dsimp only at h
    repeat' split at h
    all_goals
      first
        | (injection h with hinj; subst hinj; rfl)
        | exact Option.noConfusion h
  · rw [if_neg c1] at h
    by_cases c2 : hasPfx arg c_sources_content_eq = true
    · rw [if_pos c2] at h
      try dsimp only at h
      repeat' split at h
      all_goals
        first
          | (injection h with hinj; subst hinj; rfl)
          | exact Option.noConfusion h
    · rw [if_neg c2] at h
      by_cases c3 : hasPfx arg c_sourcefile_eq = true
      · rw [if_pos c3] at h
        try dsimp only at h
        repeat' split at h
        all_goals
          first
            | (injection h with hinj; subst hinj; rfl)
            | exact Option.noConfusion h
      · rw [if_neg c3] at h
        by_cases c4 : (hasPfx arg c_resolve_extensions_eq && isBuild) = true
        · rw [if_pos c4] at h
          try dsimp only at h
          repeat' split at h
          all_goals
            first
              | (injection h with hinj; subst hinj; rfl)
              | exact Option.noConfusion h
        · rw [if_neg c4] at h
          by_cases c5 : (hasPfx arg c_main_fields_eq && isBuild) = true
          · rw [if_pos c5] at h
            try dsimp only at h
            repeat' split at h
            all_goals
              first
                | (injection h with hinj; subst hinj; rfl)
                | exact Option.noConfusion h
          · rw [if_neg c5] at h
            by_cases c6 : (hasPfx arg c_conditions_eq && isBuild) = true
            · rw [if_pos c6] at h
              try dsimp only at h
              repeat' split at h
              all_goals
                first
                  | (injection h with hinj; subst hinj; rfl)
                  | exact Option.noConfusion h
            · rw [if_neg c6] at h
              by_cases c7 : (hasPfx arg c_public_path_eq && isBuild) = true
              · rw [if_pos c7] at h
                try dsimp only at h
                repeat' split at h
                all_goals
                  first
                    | (injection h with hinj; subst hinj; rfl)
                    | exact Option.noConfusion h
              · rw [if_neg c7] at h
                by_cases c8 : hasPfx arg c_global_name_eq = true
                · rw [if_pos c8] at h
                  try dsimp only at h
                  repeat' split at h
                  all_goals
                    first
                      | (injection h with hinj; subst hinj; rfl)
                      | exact Option.noConfusion h
                · rw [if_neg c8] at h
                  by_cases c9 : (arg == c_metafile && isBuild && kind == ParseOptionsKind.kindExternal) = true
                  · rw [if_pos c9] at h
                    try dsimp only at h
                    repeat' split at h
                    all_goals
                      first
                        | (injection h with hinj; subst hinj; rfl)
                        | exact Option.noConfusion h
                  · rw [if_neg c9] at h
                    by_cases c10 : (hasPfx arg c_metafile_eq && isBuild && kind == ParseOptionsKind.kindInternal) = true
                    · rw [if_pos c10] at h
                      try dsimp only at h
                      repeat' split at h
                      all_goals
                        first
                          | (injection h with hinj; subst hinj; rfl)
                          | exact Option.noConfusion h
                    · rw [if_neg c10] at h
                      exact Option.noConfusion h

theorem group4_no_sm {isBuild : Bool} {arg : GoStr} {a : ArgAction}
    (h : classifyGroup4 isBuild arg = some a) : isSmAction a = false := by
  unfold classifyGroup4 at h
  by_cases c1 : (hasPfx arg c_outfile_eq && isBuild) = true
  · rw [if_pos c1] at h
    try dsimp only at h
    repeat' split at h
    all_goals
      first
        | (injection h with hinj; subst hinj; rfl)
        | exact Option.noConfusion h
  · rw [if_neg c1] at h
    by_cases c2 : (hasPfx arg c_outdir_eq && isBuild) = true
    · rw [if_pos c2] at h
      try dsimp only at h
      repeat' split at h
      all_goals
        first
          | (injection h with hinj; subst hinj; rfl)
          | exact Option.noConfusion h
    · rw [if_neg c2] at h
      by_cases c3 : (hasPfx arg c_outbase_eq && isBuild) = true
      · rw [if_pos c3] at h
        try dsimp only at h
        repeat' split at h
        all_goals
          first
            | (injection h with hinj; subst hinj; rfl)
            | exact Option.noConfusion h
      · rw [if_neg c3] at h
        by_cases c4 : (hasPfx arg c_tsconfig_eq && isBuild) = true
        · rw [if_pos c4] at h
          try dsimp only at h
          repeat' split at h
          all_goals
            first
              | (injection h with hinj; subst hinj; rfl)
              | exact Option.noConfusion h
        · rw [if_neg c4] at h
          by_cases c5 : (hasPfx arg c_tsconfig_raw_eq && !isBuild) = true
          · rw [if_pos c5] at h
            try dsimp only at h
            repeat' split at h
            all_goals
              first
                | (injection h with hinj; subst hinj; rfl)
                | exact Option.noConfusion h
          · rw [if_neg c5] at h
            by_cases c6 : (hasPfx arg c_entry_names_eq && isBuild) = true
            · rw [if_pos c6] at h
              try dsimp only at h
              repeat' split at h
              all_goals
                first
                  | (injection h with hinj; subst hinj; rfl)
                  | exact Option.noConfusion h
            · rw [if_neg c6] at h
              by_cases c7 : (hasPfx arg c_chunk_names_eq && isBuild) = true
              · rw [if_pos c7] at h
                try dsimp only at h
                repeat' split at h
                all_goals
                  first
                    | (injection h with hinj; subst hinj; rfl)
                    | exact Option.noConfusion h
              · rw [if_neg c7] at h
                by_cases c8 : (hasPfx arg c_asset_names_eq && isBuild) = true
                · rw [if_pos c8] at h
                  try dsimp only at h
                  repeat' split at h
                  all_goals
                    first
                      | (injection h with hinj; subst hinj; rfl)
                      | exact Option.noConfusion h
                · rw [if_neg c8] at h
                  by_cases c9 : hasPfx arg c_define_colon = true
                  · rw [if_pos c9] at h
                    try dsimp only at h
                    repeat' split at h
                    all_goals
                      first
                        | (injection h with hinj; subst hinj; rfl)
                        | exact Option.noConfusion h
                  · rw [if_neg c9] at h
                    by_cases c10 : hasPfx arg c_pure_colon = true
                    · rw [if_pos c10] at h
                      try dsimp only at h
                      repeat' split at h
                      all_goals
                        first
                          | (injection h with hinj; subst hinj; rfl)
                          | exact Option.noConfusion h
                    · rw [if_neg c10] at h
                      by_cases c11 : (hasPfx arg c_loader_colon && isBuild) = true
                      · rw [if_pos c11] at h
                        try dsimp only at h
                        repeat' split at h
                        all_goals
                          first
                            | (injection h with hinj; subst hinj; rfl)
                            | exact Option.noConfusion h
                      · rw [if_neg c11] at h
                        by_cases c12 : hasPfx arg c_loader_eq = true
                        · rw [if_pos c12] at h
                          try dsimp only at h
                          repeat' split at h
                          all_goals
                            first
                              | (injection h with hinj; subst hinj; rfl)
                              | exact Option.noConfusion h
                        · rw [if_neg c12] at h
                          exact Option.noConfusion h

theorem group5_no_sm {isBuild : Bool} {arg : GoStr} {a : ArgAction}
    (h : classifyGroup5 isBuild arg = some a) : isSmAction a = false := by
  unfold classifyGroup5 at h
  by_cases c1 : hasPfx arg c_target_eq = true
  · rw [if_pos c1] at h
    try dsimp only at h
    repeat' split at h
    all_goals
      first
        | (injection h with hinj; subst hinj; rfl)
        | exact Option.noConfusion h
  · rw [if_neg c1] at h
    by_cases c2 : (hasPfx arg c_out_extension_colon && isBuild) = true
    · rw [if_pos c2] at h
      try dsimp only at h
      repeat' split at h
      all_goals
        first
          | (injection h with hinj; subst hinj; rfl)
          | exact Option.noConfusion h
    · rw [if_neg c2] at h
      by_cases c3 : (hasPfx arg c_platform_eq && isBuild) = true
      · rw [if_pos c3] at h
        try dsimp only at h
        repeat' split at h
        all_goals
          first
            | (injection h with hinj; subst hinj; rfl)
            | exact Option.noConfusion h
      · rw [if_neg c3] at h
        by_cases c4 : hasPfx arg c_format_eq = true
        · rw [if_pos c4] at h
          try dsimp only at h
          repeat' split at h
          all_goals
            first
              | (injection h with hinj; subst hinj; rfl)
              | exact Option.noConfusion h
        · rw [if_neg c4] at h
          by_cases c5 : (hasPfx arg c_external_colon && isBuild) = true
          · rw [if_pos c5] at h
            try dsimp only at h
            repeat' split at h
            all_goals
              first
                | (injection h with hinj; subst hinj; rfl)
                | exact Option.noConfusion h
          · rw [if_neg c5] at h
            by_cases c6 : (hasPfx arg c_inject_colon && isBuild) = true
            · rw [if_pos c6] at h
              try dsimp only at h
              repeat' split at h
              all_goals
                first
                  | (injection h with hinj; subst hinj; rfl)
                  | exact Option.noConfusion h
            · rw [if_neg c6] at h
              by_cases c7 : hasPfx arg c_jsx_eq = true
              · rw [if_pos c7] at h
                try dsimp only at h
                repeat' split at h
                all_goals
                  first
                    | (injection h with hinj; subst hinj; rfl)
                    | exact Option.noConfusion h
              · rw [if_neg c7] at h
                by_cases c8 : hasPfx arg c_jsx_factory_eq = true
                · rw [if_pos c8] at h
                  try dsimp only at h
                  repeat' split at h
                  all_goals
                    first
                      | (injection h with hinj; subst hinj; rfl)
                      | exact Option.noConfusion h
                · rw [if_neg c8] at h
                  by_cases c9 : hasPfx arg c_jsx_fragment_eq = true
                  · rw [if_pos c9] at h
                    try dsimp only at h
                    repeat' split at h
                    all_goals
                      first
                        | (injection h with hinj; subst hinj; rfl)
                        | exact Option.noConfusion h
                  · rw [if_neg c9] at h
                    exact Option.noConfusion h

theorem group6_no_sm {isBuild : Bool} {arg : GoStr} {a : ArgAction}
    (h : classifyGroup6 isBuild arg = some a) : isSmAction a = false := by
  unfold classifyGroup6 at h
  by_cases c1 : (hasPfx arg c_banner_eq && !isBuild) = true
  · rw [if_pos c1] at h
    try dsimp only at h
    repeat' split at h
    all_goals
      first
        | (injection h with hinj; subst hinj; rfl)
        | exact Option.noConfusion h
  · rw [if_neg c1] at h
    by_cases c2 : (hasPfx arg c_footer_eq && !isBuild) = true
    · rw [if_pos c2] at h
      try dsimp only at h
      repeat' split at h
      all_goals
        first
          | (injection h with hinj; subst hinj; rfl)
          | exact Option.noConfusion h
    · rw [if_neg c2] at h
      by_cases c3 : (hasPfx arg c_banner_colon && isBuild) = true
      · rw [if_pos c3] at h
        try dsimp only at h
        repeat' split at h
        all_goals
          first
            | (injection h with hinj; subst hinj; rfl)
            | exact Option.noConfusion h
      · rw [if_neg c3] at h
        by_cases c4 : (hasPfx arg c_footer_colon && isBuild) = true
        · rw [if_pos c4] at h
          try dsimp only at h
          repeat' split at h
          all_goals
            first
              | (injection h with hinj; subst hinj; rfl)
              | exact Option.noConfusion h
        · rw [if_neg c4] at h
          by_cases c5 : hasPfx arg c_log_limit_eq = true
          · rw [if_pos c5] at h
            try dsimp only at h
            repeat' split at h
            all_goals
              first
                | (injection h with hinj; subst hinj; rfl)
                | exact Option.noConfusion h
          · rw [if_neg c5] at h
            by_cases c6 : hasPfx arg c_color_eq = true
            · rw [if_pos c6] at h
              try dsimp only at h
              repeat' split at h
              all_goals
                first
                  | (injection h with hinj; subst hinj; rfl)
                  | exact Option.noConfusion h
            · rw [if_neg c6] at h
              by_cases c7 : hasPfx arg c_log_level_eq = true
              · rw [if_pos c7] at h
                try dsimp only at h
                repeat' split at h
                all_goals
                  first
                    | (injection h with hinj; subst hinj; rfl)
                    | exact Option.noConfusion h
              · rw [if_neg c7] at h
                exact Option.noConfusion h

theorem group7_no_sm {isBuild : Bool} {arg : GoStr} {a : ArgAction}
    (h : classifyGroup7 isBuild arg = some a) : isSmAction a = false := by
  unfold classifyGroup7 at h
  by_cases c1 : hasPfx arg c_quote_2dash = true
  · rw [if_pos c1] at h
    try dsimp only at h
    repeat' split at h
    all_goals
      first
        | (injection h with hinj; subst hinj; rfl)
        | exact Option.noConfusion h
  · rw [if_neg c1] at h
    by_cases c2 : (!hasPfx arg c_dash && isBuild) = true
    · rw [if_pos c2] at h
      try dsimp only at h
      repeat' split at h
      all_goals
        first
          | (injection h with hinj; subst hinj; rfl)
          | exact Option.noConfusion h
    · rw [if_neg c2] at h
      exact Option.noConfusion h
theorem group2_some_bare_inv {arg : GoStr}
    (h : classifyGroup2 arg = some .aSourcemapBare) : arg = c_sourcemap := by
  unfold classifyGroup2 at h
  by_cases c1 : (arg == c_sourcemap) = true
  · exact beq_iff_eq.mp c1
  · rw [if_neg c1] at h
    by_cases c2 : hasPfx arg c_sourcemap_eq = true
    · rw [if_pos c2] at h
      dsimp only at h
      repeat' split at h
      all_goals
        injection h with hinj
        exact ArgAction.noConfusion hinj
    · rw [if_neg c2] at h
      exact Option.noConfusion h

theorem group2_some_smEq_inv {arg : GoStr} {sm : api.SourceMap}
    (h : classifyGroup2 arg = some (.aSourcemapEq sm)) : hasPfx arg c_sourcemap_eq = true := by
  unfold classifyGroup2 at h
  by_cases c1 : (arg == c_sourcemap) = true
  · rw [if_pos c1] at h
    injection h with hinj
    exact ArgAction.noConfusion hinj
  · rw [if_neg c1] at h
    by_cases c2 : hasPfx arg c_sourcemap_eq = true
    · exact c2
    · rw [if_neg c2] at h
      exact Option.noConfusion h

theorem classify_eq_bare_inv {kind : ParseOptionsKind} {isBuild : Bool} {arg : GoStr}
    (h : classify kind isBuild arg = .aSourcemapBare) : arg = c_sourcemap := by
  unfold classify at h
  cases h1 : classifyGroup1 isBuild arg with
  | some a =>
    rw [h1] at h; dsimp only at h; subst h
    have := group1_no_sm h1
    simp [isSmAction] at this
  | none =>
  rw [h1] at h; dsimp only at h
  cases h2 : classifyGroup2 arg with
  | some a =>
    rw [h2] at h; dsimp only at h; subst h
    exact group2_some_bare_inv h2
  | none =>
  rw [h2] at h; dsimp only at h
  cases h3 : classifyGroup3 kind isBuild arg with
  | some a =>
    rw [h3] at h; dsimp only at h; subst h
    have := group3_no_sm h3
    simp [isSmAction] at this
  | none =>
  rw [h3] at h; dsimp only at h
  cases h4 : classifyGroup4 isBuild arg with
  | some a =>
    rw [h4] at h; dsimp only at h; subst h
    have := group4_no_sm h4
    simp [isSmAction] at this
  | none =>
  rw [h4] at h; dsimp only at h
  cases h5 : classifyGroup5 isBuild arg with
  | some a =>
    rw [h5] at h; dsimp only at h; subst h
    have := group5_no_sm h5
    simp [isSmAction] at this
  | none =>
  rw [h5] at h; dsimp only at h
  cases h6 : classifyGroup6 isBuild arg with
  | some a =>
    rw [h6] at h; dsimp only at h; subst h
    have := group6_no_sm h6
    simp [isSmAction] at this
  | none =>
  rw [h6] at h; dsimp only at h
  cases h7 : classifyGroup7 isBuild arg with
  | some a =>
    rw [h7] at h; dsimp only at h; subst h
    have := group7_no_sm h7
    simp [isSmAction] at this
  | none =>
  rw [h7] at h; dsimp only at h
  cases h

theorem classify_eq_smEq_inv {kind : ParseOptionsKind} {isBuild : Bool} {arg : GoStr}
    {sm : api.SourceMap} (h : classify kind isBuild arg = .aSourcemapEq sm) :
    hasPfx arg c_sourcemap_eq = true := by
  unfold classify at h
  cases h1 : classifyGroup1 isBuild arg with
  | some a =>
    rw [h1] at h; dsimp only at h; subst h
    have := group1_no_sm h1
    simp [isSmAction] at this
  | none =>
  rw [h1] at h; dsimp only at h
  cases h2 : classifyGroup2 arg with
  | some a =>
    rw [h2] at h; dsimp only at h; subst h
    exact group2_some_smEq_inv h2
  | none =>
  rw [h2] at h; dsimp only at h
  cases h3 : classifyGroup3 kind isBuild arg with
  | some a =>
    rw [h3] at h; dsimp only at h; subst h
    have := group3_no_sm h3
    simp [isSmAction] at this
  | none =>
  rw [h3] at h; dsimp only at h
  cases h4 : classifyGroup4 isBuild arg with
  | some a =>
    rw [h4] at h; dsimp only at h; subst h
    have := group4_no_sm h4
    simp [isSmAction] at this
  | none =>
  rw [h4] at h; dsimp only at h
  cases h5 : classifyGroup5 isBuild arg with
  | some a =>
    rw [h5] at h; dsimp only at h; subst h
    have := group5_no_sm h5
    simp [isSmAction] at this
  | none =>
  rw [h5] at h; dsimp only at h
  cases h6 : classifyGroup6 isBuild arg with
  | some a =>
    rw [h6] at h; dsimp only at h; subst h
    have := group6_no_sm h6
    simp [isSmAction] at this
  | none =>
  rw [h6] at h; dsimp only at h
  cases h7 : classifyGroup7 isBuild arg with
  | some a =>
    rw [h7] at h; dsimp only at h; subst h
    have := group7_no_sm h7
    simp [isSmAction] at this
  | none =>
  rw [h7] at h; dsimp only at h
  cases h

theorem group1_none_smEq (isBuild : Bool) (rest : GoStr) :
    classifyGroup1 isBuild (c_sourcemap_eq ++ rest) = none := by
  simp [classifyGroup1, hasPfx,
    goStr_append_ne_of_not_pfx c_sourcemap_eq c_bundle rest (by decide),
    goStr_append_ne_of_not_pfx c_sourcemap_eq c_preserve_symlinks rest (by decide),
    goStr_append_ne_of_not_pfx c_sourcemap_eq c_splitting rest (by decide),
    goStr_append_ne_of_not_pfx c_sourcemap_eq c_allow_overwrite rest (by decide),
    goStr_append_ne_of_not_pfx c_sourcemap_eq c_watch rest (by decide),
    goStr_append_ne_of_not_pfx c_sourcemap_eq c_minify rest (by decide),
    goStr_append_ne_of_not_pfx c_sourcemap_eq c_minify_syntax rest (by decide),
    goStr_append_ne_of_not_pfx c_sourcemap_eq c_minify_whitespace rest (by decide),
    goStr_append_ne_of_not_pfx c_sourcemap_eq c_minify_identifiers rest (by decide),
    goStr_append_ne_of_not_pfx c_sourcemap_eq c_ignore_annots rest (by decide),
    goStr_append_ne_of_not_pfx c_sourcemap_eq c_keep_names rest (by decide),
    goStr_pfx_append_false c_sourcemap_eq c_legal_comments_eq rest (by decide) (by decide),
    goStr_pfx_append_false c_sourcemap_eq c_charset_eq rest (by decide) (by decide),
    goStr_pfx_append_false c_sourcemap_eq c_tree_shaking_eq rest (by decide) (by decide)]

-- an argument of the form "--sourcemap=..." always selects the sourcemap=
-- case (value valid) or errors (value invalid)
theorem classify_of_smEq_pfx {kind : ParseOptionsKind} {isBuild : Bool} {arg : GoStr}
    (hp : hasPfx arg c_sourcemap_eq = true) :
    (∃ sm, classify kind isBuild arg = .aSourcemapEq sm) ∨
    (∃ e, classify kind isBuild arg = .aErr e) := by
  obtain ⟨rest, rfl⟩ := (goStr_isPrefixOf_iff _ _).mp hp
  unfold classify
  rw [group1_none_smEq]
  dsimp only
  unfold classifyGroup2
  rw [if_neg (by simp [goStr_append_ne_of_not_pfx c_sourcemap_eq c_sourcemap rest (by decide)])]
  rw [if_pos (by simp [hasPfx, goStr_pfx_self_append])]
  dsimp only
  rw [List.drop_left]
  by_cases h1 : (rest == v_inline) = true
  · rw [if_pos h1]; exact .inl ⟨_, rfl⟩
  · rw [if_neg h1]
    by_cases h2 : (rest == v_external) = true
    · rw [if_pos h2]; exact .inl ⟨_, rfl⟩
    · rw [if_neg h2]
      by_cases h3 : (rest == v_both) = true
      · rw [if_pos h3]; exact .inl ⟨_, rfl⟩
      · rw [if_neg h3]; exact .inr ⟨_, rfl⟩

/-! ## Frame lemmas for the sourcemap state -/

theorem applyAction_hasBare_frame {a : ArgAction} {s s' : ParseState}
    (h : applyAction a s = .ok s') :
    s'.hasBareSourceMapFlag = (match a with
      | .aSourcemapBare => true
      | .aSourcemapEq _ => false
      | _ => s.hasBareSourceMapFlag) := by
  cases a <;> cases hs : s.opts <;>
    first
      | (simp only [applyAction, hs, Except.ok.injEq] at h
         subst h
         rfl)
      | (simp [applyAction] at h)

theorem applyAction_sourcemap_frame {a : ArgAction} {s s' : ParseState}
    {b b' : api.BuildOptions} (h : applyAction a s = .ok s') (hb : s.opts = .build b)
    (hb' : s'.opts = .build b') :
    b'.Sourcemap = (match a with
      | .aSourcemapBare => api.SourceMap.smLinked
      | .aSourcemapEq sm => sm
      | _ => b.Sourcemap) := by
  cases a <;>
    first
      | (simp only [applyAction, hb, Except.ok.injEq] at h
         subst h
         simp only [hb, OptState.build.injEq] at hb'
         subst hb'
         rfl)
      | (simp only [applyAction, hb, Except.ok.injEq] at h
         subst h
         simp only [OptState.build.injEq] at hb'
         subst hb'
         rfl)
      | (simp [applyAction] at h)

/-! ## The hasBare flag tracks the last sourcemap flag of the argument list -/

-- true iff the bare "--sourcemap" flag is the most recently seen sourcemap
-- flag (a later "--sourcemap=..." resets it)
def lastBareFold (init : Bool) (args : List GoStr) : Bool :=
  args.foldl (fun acc arg =>
    if arg == c_sourcemap then true
    else if hasPfx arg c_sourcemap_eq then false
    else acc) init

theorem bindArg_hasBare_step {kind : ParseOptionsKind} {s s' : ParseState} {arg : GoStr}
    (h : bindArg kind s arg = .ok s') :
    s'.hasBareSourceMapFlag =
      (if arg == c_sourcemap then true
       else if hasPfx arg c_sourcemap_eq then false
       else s.hasBareSourceMapFlag) := by
  rw [bindArg_def] at h
  by_cases h1 : (arg == c_sourcemap) = true
  · rw [if_pos h1]
    have harg : arg = c_sourcemap := beq_iff_eq.mp h1
    subst harg
    have hcl : classify kind s.opts.isBuild c_sourcemap = .aSourcemapBare := by
      cases kind <;> cases hbb : s.opts.isBuild <;> rfl
    rw [hcl] at h
    rw [applyAction_hasBare_frame h]
  · rw [if_neg h1]
    by_cases h2 : hasPfx arg c_sourcemap_eq = true
    · rw [if_pos h2]
      cases @classify_of_smEq_pfx kind s.opts.isBuild arg h2 with
      | inl hex =>
        obtain ⟨sm, hcl⟩ := hex
        rw [hcl] at h
        rw [applyAction_hasBare_frame h]
      | inr hex =>
        obtain ⟨e, hcl⟩ := hex
        rw [hcl] at h
        simp [applyAction] at h
    · rw [if_neg h2]
      cases hcl : classify kind s.opts.isBuild arg <;> rw [hcl] at h <;>
        first
          | (exact absurd (classify_eq_bare_inv hcl) (fun hh => h1 (by rw [hh]; decide)))
          | (exact absurd (classify_eq_smEq_inv hcl) h2)
          | (rw [applyAction_hasBare_frame h])
          | (simp [applyAction] at h)

theorem lastBareFold_cons (init : Bool) (a : GoStr) (rest : List GoStr) :
    lastBareFold init (a :: rest) =
      lastBareFold
        (if a == c_sourcemap then true
         else if hasPfx a c_sourcemap_eq then false
         else init) rest := rfl

theorem foldlM_hasBare {kind : ParseOptionsKind} :
    ∀ {args : List GoStr} {s s' : ParseState},
    args.foldlM (bindArg kind) s = .ok s' →
    s'.hasBareSourceMapFlag = lastBareFold s.hasBareSourceMapFlag args := by
  intro args
  induction args with
  | nil =>
    intro s s' h
    simp only [List.foldlM_nil] at h
    cases h
    rfl
  | cons a rest ih =>
    intro s s' h
    rw [List.foldlM_cons] at h
    cases hb : bindArg kind s a with
    | error e => rw [hb, except_bind_error] at h; cases h
    | ok s1 =>
      rw [hb, except_bind_ok] at h
      rw [ih h, lastBareFold_cons, bindArg_hasBare_step hb]

-- if the bare flag was the last sourcemap flag, the sourcemap mode of the
-- in-progress build config is "linked" (invariant along the fold)
theorem bindArg_bare_linked_step {kind : ParseOptionsKind} {s s' : ParseState} {arg : GoStr}
    (h : bindArg kind s arg = .ok s')
    (hinv : ∀ b, s.opts = .build b → s.hasBareSourceMapFlag = true →
      b.Sourcemap = api.SourceMap.smLinked) :
    ∀ b', s'.opts = .build b' → s'.hasBareSourceMapFlag = true →
      b'.Sourcemap = api.SourceMap.smLinked := by
  intro b' hb' hbare'
  rw [bindArg_def] at h
  have hib := applyAction_isBuild h
  have hibt : s.opts.isBuild = true := by
    rw [← hib, hb']
    rfl
  obtain ⟨b, hb⟩ : ∃ b, s.opts = .build b := by
    cases hsop : s.opts with
    | build bb => exact ⟨_, rfl⟩
    | transform tt => rw [hsop] at hibt; cases hibt
  cases ha : classify kind s.opts.isBuild arg <;> rw [ha] at h <;>
    (have hsf := applyAction_sourcemap_frame h hb hb'
     have hbf := applyAction_hasBare_frame h
     try dsimp only at hsf hbf) <;>
    first
      | exact hsf
      | (rw [hbf] at hbare'; cases hbare')
      | (rw [hbf] at hbare'
         rw [hsf]
         exact hinv b hb hbare')

theorem foldlM_bare_linked {kind : ParseOptionsKind} :
    ∀ {args : List GoStr} {s s' : ParseState},
    args.foldlM (bindArg kind) s = .ok s' →
    (∀ b, s.opts = .build b → s.hasBareSourceMapFlag = true →
      b.Sourcemap = api.SourceMap.smLinked) →
    ∀ b', s'.opts = .build b' → s'.hasBareSourceMapFlag = true →
      b'.Sourcemap = api.SourceMap.smLinked := by
  intro args
  induction args with
  | nil =>
    intro s s' h hinv
    simp only [List.foldlM_nil] at h
    cases h
    exact hinv
  | cons a rest ih =>
    intro s s' h hinv
    rw [List.foldlM_cons] at h
    cases hb : bindArg kind s a with
    | error e => rw [hb, except_bind_error] at h; cases h
    | ok s1 =>
      rw [hb, except_bind_ok] at h
      exact ih h (bindArg_bare_linked_step hb hinv)

/-- C2: in Build mode, when the bare "--sourcemap" flag is the most recently
seen sourcemap flag of the argument list (no later "--sourcemap=mode"), the
resulting config's sourcemap mode is inline if neither an output file nor an
output directory is configured, and linked if one of them is. -/
theorem bare_sourcemap_reconciliation (osArgs : List GoStr) (b : api.BuildOptions)
    (m : Option GoStr) (hr : parseOptionsForRun osArgs = (some b, m, none, none))
    (hbare : lastBareFold false osArgs = true) :
    (b.Outfile = [] ∧ b.Outdir = [] → b.Sourcemap = api.SourceMap.smInline)
    ∧ (b.Outfile ≠ [] ∨ b.Outdir ≠ [] → b.Sourcemap = api.SourceMap.smLinked) := by
  unfold parseOptionsForRun at hr
  by_cases hd : decideModeIsBuild osArgs = true
  case neg =>
    exfalso
    rw [if_neg hd] at hr
    cases him : parseOptionsImpl osArgs
        (.transform { newTransformOptions with LogLimit := 6, LogLevel := .llInfo })
        .kindInternal with
    | error e => rw [him] at hr; simp at hr
    | ok stm =>
      obtain ⟨st, m'⟩ := stm
      obtain ⟨tt, rfl⟩ := parseOptionsImpl_transform_shape him
      rw [him] at hr
      dsimp only at hr
      by_cases hsm : (tt.Sourcemap != .smNone && tt.Sourcemap != .smInline) = true
      · rw [if_pos hsm] at hr; simp at hr
      · rw [if_neg hsm] at hr; simp at hr
  case pos =>
    rw [if_pos hd] at hr
    cases him : parseOptionsImpl osArgs
        (.build { newBuildOptions with LogLimit := 6, LogLevel := .llInfo, Write := true })
        .kindInternal with
    | error e => rw [him] at hr; simp at hr
    | ok stm =>
      obtain ⟨st, m'⟩ := stm
      obtain ⟨bb, rfl⟩ := parseOptionsImpl_build_shape him
      rw [him] at hr
      dsimp only at hr
      obtain ⟨h1, h2⟩ : bb = b ∧ m' = m := by
        simpa using hr
      have h1s : b = bb := h1.symm
      have h2s : m = m' := h2.symm
      subst h1s
      subst h2s
      unfold parseOptionsImpl at him
      cases hf : osArgs.foldlM (bindArg .kindInternal)
          (ParseState.mk
            (.build { newBuildOptions with LogLimit := 6, LogLevel := .llInfo, Write := true })
            false none) with
      | error e => rw [hf] at him; cases him
      | ok s =>
        rw [hf] at him
        dsimp only at him
        have hbareS : s.hasBareSourceMapFlag = true := by
          rw [foldlM_hasBare hf]
          exact hbare
        have hibt : s.opts.isBuild = true := foldlM_bindArg_isBuild hf
        obtain ⟨b1, hb1⟩ : ∃ b1, s.opts = .build b1 := by
          cases hsop : s.opts with
          | build x => exact ⟨_, rfl⟩
          | transform x => rw [hsop] at hibt; cases hibt
        have hlinked : b1.Sourcemap = api.SourceMap.smLinked := by
          refine foldlM_bare_linked hf ?_ b1 hb1 hbareS
          intro b0 _ hfalse
          cases hfalse
        rw [hb1] at him
        dsimp only at him
        by_cases hc : (s.hasBareSourceMapFlag && b1.Outfile == [] && b1.Outdir == []) = true
        · rw [if_pos hc] at him
          obtain ⟨hbeq, -⟩ : OptState.build { b1 with Sourcemap := .smInline } = .build b ∧
              s.metafile = m := by
            simpa using him
          simp only [OptState.build.injEq] at hbeq
          subst hbeq
          constructor
          · intro _; rfl
          · intro hne
            rw [hbareS] at hc
            simp only [Bool.true_and, Bool.and_eq_true, beq_iff_eq] at hc
            exfalso
            cases hne with
            | inl hO => exact hO hc.1
            | inr hO => exact hO hc.2
        · rw [if_neg hc] at him
          obtain ⟨hbeq, -⟩ : OptState.build b1 = .build b ∧ s.metafile = m := by
            simpa using him
          simp only [OptState.build.injEq] at hbeq
          subst hbeq
          rw [hbareS] at hc
          simp only [Bool.true_and, Bool.and_eq_true, beq_iff_eq, not_and] at hc
          constructor
          · intro ⟨hO1, hO2⟩
            exact absurd hO2 (hc hO1)
          · intro _
            exact hlinked

/-- Witness for C2: "a.js --sourcemap" (Build mode, no output path) resolves
the sourcemap mode to inline. -/
def c2WitnessOptions : api.BuildOptions :=
  { newBuildOptions with
      LogLimit := 6
      LogLevel := .llInfo
      Write := true
      EntryPoints := [x_a_js]
      Sourcemap := api.SourceMap.smInline }

theorem bare_sourcemap_reconciliation_witness :
    c2WitnessOptions.Sourcemap = api.SourceMap.smInline :=
  (bare_sourcemap_reconciliation [x_a_js, c_sourcemap] c2WitnessOptions
    none (by decide) (by decide)).1 ⟨rfl, rfl⟩
/-! ## C9: the single-dash advisor of the invalid-flag default case -/

theorem beq_symm_false {c d : Char} (h : (c == d) = false) : (d == c) = false := by
  cases hb : (d == c) with
  | false => rfl
  | true =>
    have he : d = c := beq_iff_eq.mp hb
    rw [he] at h
    simp at h

theorem group1_none_singleDash (isBuild : Bool) (c : Char) (cs : GoStr)
    (hc : (c == '-') = false) : classifyGroup1 isBuild ('-' :: c :: cs) = none := by
  have hc2 : ('-' == c) = false := beq_symm_false hc
  simp [classifyGroup1, hasPfx, goStr_beq_cons, goStr_pfx_cons, hc, hc2,
    c_bundle, c_preserve_symlinks, c_splitting, c_allow_overwrite, c_watch,
    c_minify, c_minify_syntax, c_minify_whitespace, c_minify_identifiers,
    c_legal_comments_eq, c_charset_eq, c_tree_shaking_eq, c_ignore_annots, c_keep_names]

theorem group2_none_singleDash (c : Char) (cs : GoStr)
    (hc : (c == '-') = false) : classifyGroup2 ('-' :: c :: cs) = none := by
  have hc2 : ('-' == c) = false := beq_symm_false hc
  simp [classifyGroup2, hasPfx, goStr_beq_cons, goStr_pfx_cons, hc, hc2,
    c_sourcemap, c_sourcemap_eq]

theorem group3_none_singleDash (kind : ParseOptionsKind) (isBuild : Bool) (c : Char) (cs : GoStr)
    (hc : (c == '-') = false) : classifyGroup3 kind isBuild ('-' :: c :: cs) = none := by
  have hc2 : ('-' == c) = false := beq_symm_false hc
  simp [classifyGroup3, hasPfx, goStr_beq_cons, goStr_pfx_cons, hc, hc2,
    c_source_root_eq, c_sources_content_eq, c_sourcefile_eq, c_resolve_extensions_eq,
    c_main_fields_eq, c_conditions_eq, c_public_path_eq, c_global_name_eq,
    c_metafile, c_metafile_eq]

theorem group4_none_singleDash (isBuild : Bool) (c : Char) (cs : GoStr)
    (hc : (c == '-') = false) : classifyGroup4 isBuild ('-' :: c :: cs) = none := by
  have hc2 : ('-' == c) = false := beq_symm_false hc
  simp [classifyGroup4, hasPfx, goStr_beq_cons, goStr_pfx_cons, hc, hc2,
    c_outfile_eq, c_outdir_eq, c_outbase_eq, c_tsconfig_eq, c_tsconfig_raw_eq,
    c_entry_names_eq, c_chunk_names_eq, c_asset_names_eq, c_define_colon, c_pure_colon,
    c_loader_colon, c_loader_eq]

theorem group5_none_singleDash (isBuild : Bool) (c : Char) (cs : GoStr)
    (hc : (c == '-') = false) : classifyGroup5 isBuild ('-' :: c :: cs) = none := by
  have hc2 : ('-' == c) = false := beq_symm_false hc
  simp [classifyGroup5, hasPfx, goStr_beq_cons, goStr_pfx_cons, hc, hc2,
    c_target_eq, c_out_extension_colon, c_platform_eq, c_format_eq, c_external_colon,
    c_inject_colon, c_jsx_eq, c_jsx_factory_eq, c_jsx_fragment_eq]

theorem group6_none_singleDash (isBuild : Bool) (c : Char) (cs : GoStr)
    (hc : (c == '-') = false) : classifyGroup6 isBuild ('-' :: c :: cs) = none := by
  have hc2 : ('-' == c) = false := beq_symm_false hc
  simp [classifyGroup6, hasPfx, goStr_beq_cons, goStr_pfx_cons, hc, hc2,
    c_banner_eq, c_footer_eq, c_banner_colon, c_footer_colon, c_log_limit_eq,
    c_color_eq, c_log_level_eq]

theorem group7_none_singleDash (isBuild : Bool) (c : Char) (cs : GoStr)
    (hc : (c == '-') = false) : classifyGroup7 isBuild ('-' :: c :: cs) = none := by
  have ha : (aChar == '-') = false := by decide
  simp [classifyGroup7, hasPfx, goStr_beq_cons, goStr_pfx_cons, hc, ha,
    c_quote_2dash, c_dash, goStr_pfx_nil]

-- every single-dash argument falls through the whole switch to the default
-- invalid-flag case
theorem classify_singleDash (kind : ParseOptionsKind) (isBuild : Bool) (c : Char) (cs : GoStr)
    (hc : (c == '-') = false) :
    classify kind isBuild ('-' :: c :: cs) = .aErr (invalidFlagError isBuild ('-' :: c :: cs)) := by
  unfold classify
  rw [group1_none_singleDash isBuild c cs hc]
  dsimp only
  rw [group2_none_singleDash c cs hc]
  dsimp only
  rw [group3_none_singleDash kind isBuild c cs hc]
  dsimp only
  rw [group4_none_singleDash isBuild c cs hc]
  dsimp only
  rw [group5_none_singleDash isBuild c cs hc]
  dsimp only
  rw [group6_none_singleDash isBuild c cs hc]
  dsimp only
  rw [group7_none_singleDash isBuild c cs hc]

-- on a single-dash argument with a recognized dash-stripped form the advisor
-- note is the two-dash suggestion
theorem adviseNote_singleDash (c : Char) (cs fix : GoStr) (hc : (c == '-') = false)
    (hfix : oneDashFix ('-' :: c :: cs) = some fix) :
    adviseNote ('-' :: c :: cs) = mkUseNote fix ('-' :: c :: cs) m_dash_end := by
  have hc2 : ('-' == c) = false := beq_symm_false hc
  unfold adviseNote
  by_cases ho : (('-' :: c :: cs : GoStr) == c_dash_o) = true
  · exfalso
    have he : ('-' :: c :: cs : GoStr) = c_dash_o := beq_iff_eq.mp ho
    rw [he] at hfix
    have : oneDashFix c_dash_o = none := by decide
    rw [this] at hfix
    cases hfix
  · rw [if_neg ho]
    by_cases hv : (('-' :: c :: cs : GoStr) == c_dash_v) = true
    · exfalso
      have he : ('-' :: c :: cs : GoStr) = c_dash_v := beq_iff_eq.mp hv
      rw [he] at hfix
      have : oneDashFix c_dash_v = none := by decide
      rw [this] at hfix
      cases hfix
    · rw [if_neg hv]
      have h2d : hasPfx ('-' :: c :: cs) c_2dash = false := by
        simp [hasPfx, c_2dash, goStr_pfx_cons, hc2]
      rw [if_neg (by simp [h2d])]
      have h1d : hasPfx ('-' :: c :: cs) c_dash = true := by
        simp [hasPfx, c_dash, goStr_pfx_cons, goStr_pfx_nil]
      rw [if_pos h1d]
      rw [hfix]

/-- C9: an argument starting with exactly one dash whose dash-stripped form
(with its separator converted when needed) is a recognized bare, equals- or
colon-syntax flag name — the cases where the one-dash fixer recognizes the
argument and produces a corrected form — is an invalid-flag error: classify
falls through the whole switch to the default case, the error's note suggests
the corrected two-dash form, and binding the argument in any matching state
fails with that error. -/
theorem single_dash_flag_advisor (kind : ParseOptionsKind) (isBuild : Bool) (c : Char)
    (cs fix : GoStr) (hc : (c == '-') = false)
    (hfix : oneDashFix ('-' :: c :: cs) = some fix) :
    classify kind isBuild ('-' :: c :: cs) =
      .aErr (MakeErrorWithNote
        ((if isBuild then m_invalid_build_flag else m_invalid_transform_flag)
          ++ quoteGo ('-' :: c :: cs))
        (mkUseNote fix ('-' :: c :: cs) m_dash_end))
    ∧ ∀ s : ParseState, s.opts.isBuild = isBuild →
        bindArg kind s ('-' :: c :: cs) =
          .error (MakeErrorWithNote
            ((if isBuild then m_invalid_build_flag else m_invalid_transform_flag)
              ++ quoteGo ('-' :: c :: cs))
            (mkUseNote fix ('-' :: c :: cs) m_dash_end)) := by
  have hcl := classify_singleDash kind isBuild c cs hc
  have herr : invalidFlagError isBuild ('-' :: c :: cs) =
      MakeErrorWithNote
        ((if isBuild then m_invalid_build_flag else m_invalid_transform_flag)
          ++ quoteGo ('-' :: c :: cs))
        (mkUseNote fix ('-' :: c :: cs) m_dash_end) := by
    unfold invalidFlagError
    rw [adviseNote_singleDash c cs fix hc hfix]
  constructor
  · rw [hcl, herr]
  · intro s hs
    rw [bindArg_def, hs, hcl, herr]
    rfl

/-- Witness for C9: "-bundle" is fatal in Build mode with a note suggesting
"--bundle". -/
theorem single_dash_flag_advisor_witness :
    classify ParseOptionsKind.kindInternal true ('-' :: 'b' :: ['u', 'n', 'd', 'l', 'e']) =
      .aErr (MakeErrorWithNote
        ((if true then m_invalid_build_flag else m_invalid_transform_flag)
          ++ quoteGo ('-' :: 'b' :: ['u', 'n', 'd', 'l', 'e']))
        (mkUseNote c_bundle ('-' :: 'b' :: ['u', 'n', 'd', 'l', 'e']) m_dash_end)) :=
  (single_dash_flag_advisor .kindInternal true 'b' ['u', 'n', 'd', 'l', 'e'] c_bundle
    (by decide) (by decide)).1
/-! ## C5: map-typed and list-typed option fields -/

-- number of entries of the Go map model with the given key
def countKey {α : Type} (m : List (GoStr × α)) (k : GoStr) : Nat :=
  (m.filter (fun p => p.1 == k)).length

-- the value of the last assignment event with the given key, if any
def lastValue {α : Type} (k : GoStr) : List (GoStr × α) → Option α
  | [] => none
  | kv :: rest =>
    match lastValue k rest with
    | some v => some v
    | none => if kv.1 == k then some kv.2 else none

theorem countKey_cons_pos {α : Type} {p : GoStr × α} {k : GoStr} (rest : List (GoStr × α))
    (hp : (p.1 == k) = true) : countKey (p :: rest) k = countKey rest k + 1 := by
  unfold countKey
  rw [@List.filter_cons_of_pos _ (fun q => q.1 == k) p rest hp, List.length_cons]

theorem countKey_cons_neg {α : Type} {p : GoStr × α} {k : GoStr} (rest : List (GoStr × α))
    (hp : ¬((p.1 == k) = true)) : countKey (p :: rest) k = countKey rest k := by
  unfold countKey
  rw [@List.filter_cons_of_neg _ (fun q => q.1 == k) p rest hp]

theorem mapGet_cons_pos {α : Type} (p : GoStr × α) (rest : List (GoStr × α)) (k : GoStr)
    (hp : (p.1 == k) = true) : mapGet (p :: rest) k = some p.2 := by
  unfold mapGet
  rw [@List.find?_cons_of_pos _ (fun q => q.1 == k) p rest hp]
  rfl

theorem mapGet_cons_neg {α : Type} (p : GoStr × α) (rest : List (GoStr × α)) (k : GoStr)
    (hp : ¬((p.1 == k) = true)) : mapGet (p :: rest) k = mapGet rest k := by
  unfold mapGet
  rw [@List.find?_cons_of_neg _ (fun q => q.1 == k) p rest hp]

theorem mapGet_map_found {α : Type} (k : GoStr) (v : α) :
    ∀ (m : List (GoStr × α)), m.any (fun p => p.1 == k) = true →
    mapGet (m.map (fun p => if p.1 == k then (k, v) else p)) k = some v := by
  intro m
  induction m with
  | nil => intro ha; cases ha
  | cons p rest ih =>
    intro ha
    rw [List.map_cons]
    by_cases hp : (p.1 == k) = true
    · rw [if_pos hp]
      exact mapGet_cons_pos (k, v) _ k (beq_self_eq_true k)
    · rw [if_neg hp]
      rw [mapGet_cons_neg _ _ _ hp]
      have hp' : (p.1 == k) = false := by
        cases hb : (p.1 == k) with
        | false => rfl
        | true => exact absurd hb hp
      rw [List.any_cons, hp', Bool.false_or] at ha
      exact ih ha

theorem mapGet_append_new {α : Type} (k : GoStr) (v : α) :
    ∀ (m : List (GoStr × α)), m.any (fun p => p.1 == k) = false →
    mapGet (m ++ [(k, v)]) k = some v := by
  intro m
  induction m with
  | nil => exact fun _ => mapGet_cons_pos (k, v) [] k (beq_self_eq_true k)
  | cons p rest ih =>
    intro ha
    have hp : (p.1 == k) = false := by
      cases hb : (p.1 == k) with
      | false => rfl
      | true => rw [List.any_cons, hb, Bool.true_or] at ha; cases ha
    have ha' : rest.any (fun p => p.1 == k) = false := by
      rw [List.any_cons, hp, Bool.false_or] at ha
      exact ha
    rw [List.cons_append, mapGet_cons_neg _ _ _ (by simp [hp])]
    exact ih ha'

theorem mapGet_mapSet_same {α : Type} (m : List (GoStr × α)) (k : GoStr) (v : α) :
    mapGet (mapSet m k v) k = some v := by
  unfold mapSet
  by_cases ha : m.any (fun p => p.1 == k) = true
  · rw [if_pos ha]
    exact mapGet_map_found k v m ha
  · rw [if_neg ha]
    have ha' : m.any (fun p => p.1 == k) = false := by
      cases hb : m.any (fun p => p.1 == k) with
      | false => rfl
      | true => exact absurd hb ha
    exact mapGet_append_new k v m ha'

theorem mapGet_map_other {α : Type} (k1 k : GoStr) (v : α) (hk : (k1 == k) = false) :
    ∀ (m : List (GoStr × α)),
    mapGet (m.map (fun p => if p.1 == k1 then (k1, v) else p)) k = mapGet m k := by
  intro m
  induction m with
  | nil => rfl
  | cons p rest ih =>
    rw [List.map_cons]
    by_cases hp : (p.1 == k1) = true
    · have he : p.1 = k1 := beq_iff_eq.mp hp
      have hpk : (p.1 == k) = false := by rw [he]; exact hk
      rw [if_pos hp, mapGet_cons_neg (k1, v) _ k (by simp [hk]),
        mapGet_cons_neg p _ k (by simp [hpk])]
      exact ih
    · rw [if_neg hp]
      by_cases hpk : (p.1 == k) = true
      · rw [mapGet_cons_pos p _ k hpk, mapGet_cons_pos p _ k hpk]
      · rw [mapGet_cons_neg p _ k hpk, mapGet_cons_neg p _ k hpk]
        exact ih

theorem mapGet_append_other {α : Type} (k1 k : GoStr) (v : α) (hk : (k1 == k) = false) :
    ∀ (m : List (GoStr × α)), mapGet (m ++ [(k1, v)]) k = mapGet m k := by
  intro m
  induction m with
  | nil =>
    rw [List.nil_append, mapGet_cons_neg (k1, v) [] k (by simp [hk])]
  | cons p rest ih =>
    rw [List.cons_append]
    by_cases hpk : (p.1 == k) = true
    · rw [mapGet_cons_pos p _ k hpk, mapGet_cons_pos p _ k hpk]
    · rw [mapGet_cons_neg p _ k hpk, mapGet_cons_neg p _ k hpk]
      exact ih

theorem mapGet_mapSet_other {α : Type} (m : List (GoStr × α)) (k1 k : GoStr) (v : α)
    (hk : (k1 == k) = false) : mapGet (mapSet m k1 v) k = mapGet m k := by
  unfold mapSet
  by_cases ha : m.any (fun p => p.1 == k1) = true
  · rw [if_pos ha]
    exact mapGet_map_other k1 k v hk m
  · rw [if_neg ha]
    exact mapGet_append_other k1 k v hk m

theorem countKey_map_same {α : Type} (k : GoStr) (v : α) :
    ∀ (m : List (GoStr × α)),
    countKey (m.map (fun p => if p.1 == k then (k, v) else p)) k = countKey m k := by
  intro m
  induction m with
  | nil => rfl
  | cons p rest ih =>
    rw [List.map_cons]
    by_cases hp : (p.1 == k) = true
    · rw [if_pos hp]
      rw [countKey_cons_pos _ (beq_self_eq_true k), countKey_cons_pos _ hp, ih]
    · rw [if_neg hp]
      rw [countKey_cons_neg _ hp, countKey_cons_neg _ hp, ih]

theorem countKey_pos_of_any {α : Type} (k : GoStr) :
    ∀ (m : List (GoStr × α)), m.any (fun p => p.1 == k) = true → 1 ≤ countKey m k := by
  intro m
  induction m with
  | nil => intro ha; cases ha
  | cons p rest ih =>
    intro ha
    by_cases hp : (p.1 == k) = true
    · rw [countKey_cons_pos rest hp]
      omega
    · have hp' : (p.1 == k) = false := by
        cases hb : (p.1 == k) with
        | false => rfl
        | true => exact absurd hb hp
      rw [countKey_cons_neg rest hp]
      rw [List.any_cons, hp', Bool.false_or] at ha
      exact ih ha

theorem countKey_zero_of_not_any {α : Type} (k : GoStr) :
    ∀ (m : List (GoStr × α)), m.any (fun p => p.1 == k) = false → countKey m k = 0 := by
  intro m
  induction m with
  | nil => intro _; rfl
  | cons p rest ih =>
    intro ha
    have hp : (p.1 == k) = false := by
      cases hb : (p.1 == k) with
      | false => rfl
      | true => rw [List.any_cons, hb, Bool.true_or] at ha; cases ha
    have ha' : rest.any (fun p => p.1 == k) = false := by
      rw [List.any_cons, hp, Bool.false_or] at ha
      exact ha
    rw [countKey_cons_neg rest (by simp [hp])]
    exact ih ha'

theorem countKey_append_one {α : Type} (k : GoStr) (v : α) :
    ∀ (m : List (GoStr × α)), countKey (m ++ [(k, v)]) k = countKey m k + 1 := by
  intro m
  induction m with
  | nil =>
    rw [List.nil_append, countKey_cons_pos [] (beq_self_eq_true k)]
  | cons p rest ih =>
    rw [List.cons_append]
    by_cases hp : (p.1 == k) = true
    · rw [countKey_cons_pos _ hp, countKey_cons_pos _ hp, ih]
    · rw [countKey_cons_neg _ hp, countKey_cons_neg _ hp, ih]

theorem countKey_mapSet_same {α : Type} (m : List (GoStr × α)) (k : GoStr) (v : α)
    (h : countKey m k ≤ 1) : countKey (mapSet m k v) k = 1 := by
  unfold mapSet
  by_cases ha : m.any (fun p => p.1 == k) = true
  · rw [if_pos ha, countKey_map_same]
    have := countKey_pos_of_any k m ha
    omega
  · rw [if_neg ha]
    have ha' : m.any (fun p => p.1 == k) = false := by
      cases hb : m.any (fun p => p.1 == k) with
      | false => rfl
      | true => exact absurd hb ha
    rw [countKey_append_one k v m, countKey_zero_of_not_any k m ha']

theorem countKey_map_other {α : Type} (k1 k : GoStr) (v : α) (hk : (k1 == k) = false) :
    ∀ (m : List (GoStr × α)),
    countKey (m.map (fun p => if p.1 == k1 then (k1, v) else p)) k = countKey m k := by
  intro m
  induction m with
  | nil => rfl
  | cons p rest ih =>
    rw [List.map_cons]
    by_cases hp : (p.1 == k1) = true
    · have he : p.1 = k1 := beq_iff_eq.mp hp
      have hpk : (p.1 == k) = false := by rw [he]; exact hk
      rw [if_pos hp]
      rw [countKey_cons_neg _ (by simp [hk]), countKey_cons_neg _ (by simp [hpk]), ih]
    · rw [if_neg hp]
      by_cases hpk : (p.1 == k) = true
      · rw [countKey_cons_pos _ hpk, countKey_cons_pos _ hpk, ih]
      · rw [countKey_cons_neg _ hpk, countKey_cons_neg _ hpk, ih]

theorem countKey_append_other {α : Type} (k1 k : GoStr) (v : α) (hk : (k1 == k) = false) :
    ∀ (m : List (GoStr × α)), countKey (m ++ [(k1, v)]) k = countKey m k := by
  intro m
  induction m with
  | nil =>
    rw [List.nil_append, countKey_cons_neg [] (by simp [hk])]
  | cons p rest ih =>
    rw [List.cons_append]
    by_cases hp : (p.1 == k) = true
    · rw [countKey_cons_pos _ hp, countKey_cons_pos _ hp, ih]
    · rw [countKey_cons_neg _ hp, countKey_cons_neg _ hp, ih]

theorem countKey_mapSet_other {α : Type} (m : List (GoStr × α)) (k1 k : GoStr) (v : α)
    (hk : (k1 == k) = false) : countKey (mapSet m k1 v) k = countKey m k := by
  unfold mapSet
  by_cases ha : m.any (fun p => p.1 == k1) = true
  · rw [if_pos ha]
    exact countKey_map_other k1 k v hk m
  · rw [if_neg ha]
    exact countKey_append_other k1 k v hk m

theorem countKey_mapSet_le {α : Type} (m : List (GoStr × α)) (k k1 : GoStr) (v : α)
    (h : countKey m k ≤ 1) : countKey (mapSet m k1 v) k ≤ 1 := by
  by_cases hk : (k1 == k) = true
  · have he : k1 = k := beq_iff_eq.mp hk
    subst he
    rw [countKey_mapSet_same m k1 v h]
  · have hk' : (k1 == k) = false := by
      cases hb : (k1 == k) with
      | false => rfl
      | true => exact absurd hb hk
    rw [countKey_mapSet_other m k1 k v hk']
    exact h

-- the final value of a Go map built by a sequence of assignments: the last
-- assignment to each key wins
theorem foldl_mapSet_lookup {α : Type} :
    ∀ (events : List (GoStr × α)) (m0 : List (GoStr × α)) (k : GoStr),
    mapGet (events.foldl (fun m kv => mapSet m kv.1 kv.2) m0) k =
      (match lastValue k events with
       | some v => some v
       | none => mapGet m0 k) := by
  intro events
  induction events with
  | nil => intro m0 k; rfl
  | cons kv rest ih =>
    intro m0 k
    rw [List.foldl_cons, ih]
    simp only [lastValue]
    cases hl : lastValue k rest with
    | some v => rfl
    | none =>
      dsimp only
      by_cases hk : (kv.1 == k) = true
      · rw [if_pos hk]
        have he : kv.1 = k := beq_iff_eq.mp hk
        subst he
        exact mapGet_mapSet_same m0 kv.1 kv.2
      · have hk' : (kv.1 == k) = false := by
          cases hb : (kv.1 == k) with
          | false => rfl
          | true => exact absurd hb hk
        rw [if_neg hk]
        exact mapGet_mapSet_other m0 kv.1 k kv.2 hk'

-- a Go map built by a sequence of assignments keeps a single entry per
-- assigned key
theorem foldl_mapSet_count {α : Type} :
    ∀ (events : List (GoStr × α)) (m0 : List (GoStr × α)) (k : GoStr),
    countKey m0 k ≤ 1 →
    countKey (events.foldl (fun m kv => mapSet m kv.1 kv.2) m0) k =
      (match lastValue k events with
       | some _ => 1
       | none => countKey m0 k) := by
  intro events
  induction events with
  | nil => intro m0 k _; rfl
  | cons kv rest ih =>
    intro m0 k h
    rw [List.foldl_cons, ih _ _ (countKey_mapSet_le m0 k kv.1 kv.2 h)]
    simp only [lastValue]
    cases hl : lastValue k rest with
    | some v => rfl
    | none =>
      dsimp only
      by_cases hk : (kv.1 == k) = true
      · rw [if_pos hk]
        have he : kv.1 = k := beq_iff_eq.mp hk
        subst he
        exact countKey_mapSet_same m0 kv.1 kv.2 h
      · have hk' : (kv.1 == k) = false := by
          cases hb : (kv.1 == k) with
          | false => rfl
          | true => exact absurd hb hk
        rw [if_neg hk]
        exact countKey_mapSet_other m0 kv.1 k kv.2 hk'

/-! ## Per-action events of the C5 fields -/

-- Go map assignment carried by an action, per map-typed field
def mapUpd {α : Type} (e : Option (GoStr × α)) (m : List (GoStr × α)) : List (GoStr × α) :=
  match e with
  | some kv => mapSet m kv.1 kv.2
  | none => m

-- Go append carried by an action, per list-typed field
def listUpd {α : Type} (e : Option α) (l : List α) : List α :=
  match e with
  | some v => l ++ [v]
  | none => l

-- Go wholesale assignment carried by an action (the Engines field)
def replUpd {α : Type} (e : Option α) (x : α) : α := e.getD x

def defineEventOf : ArgAction → Option (GoStr × GoStr)
  | .aDefine k v => some (k, v)
  | _ => none

def loaderEventOf : ArgAction → Option (GoStr × api.Loader)
  | .aLoaderColon ext l => some (ext, l)
  | _ => none

def bannerEventOf : ArgAction → Option (GoStr × GoStr)
  | .aBannerColon k v => some (k, v)
  | _ => none

def footerEventOf : ArgAction → Option (GoStr × GoStr)
  | .aFooterColon k v => some (k, v)
  | _ => none

def outExtEventOf : ArgAction → Option (GoStr × GoStr)
  | .aOutExt k v => some (k, v)
  | _ => none

def externalEventOf : ArgAction → Option GoStr
  | .aExternal v => some v
  | _ => none

def injectEventOf : ArgAction → Option GoStr
  | .aInject v => some v
  | _ => none

def pureEventOf : ArgAction → Option GoStr
  | .aPure v => some v
  | _ => none

def entryEventOf : ArgAction → Option GoStr
  | .aEntry v => some v
  | _ => none

def targetEnginesOf : ArgAction → Option (List api.Engine)
  | .aTarget _ es => some es
  | _ => none

theorem applyAction_c5_fields {a : ArgAction} {s s' : ParseState} {b b' : api.BuildOptions}
    (h : applyAction a s = .ok s') (hb : s.opts = .build b) (hb' : s'.opts = .build b') :
    b'.Define = mapUpd (defineEventOf a) b.Define
    ∧ b'.Loader = mapUpd (loaderEventOf a) b.Loader
    ∧ b'.Banner = mapUpd (bannerEventOf a) b.Banner
    ∧ b'.Footer = mapUpd (footerEventOf a) b.Footer
    ∧ b'.OutExtensions = mapUpd (outExtEventOf a) b.OutExtensions
    ∧ b'.External = listUpd (externalEventOf a) b.External
    ∧ b'.Inject = listUpd (injectEventOf a) b.Inject
    ∧ b'.Pure = listUpd (pureEventOf a) b.Pure
    ∧ b'.EntryPoints = listUpd (entryEventOf a) b.EntryPoints
    ∧ b'.Engines = replUpd (targetEnginesOf a) b.Engines := by
  cases a <;>
    first
      | (simp only [applyAction, hb, Except.ok.injEq] at h
         subst h
         simp only [hb, OptState.build.injEq] at hb'
         subst hb'
         exact ⟨rfl, rfl, rfl, rfl, rfl, rfl, rfl, rfl, rfl, rfl⟩)
      | (simp only [applyAction, hb, Except.ok.injEq] at h
         subst h
         simp only [OptState.build.injEq] at hb'
         subst hb'
         exact ⟨rfl, rfl, rfl, rfl, rfl, rfl, rfl, rfl, rfl, rfl⟩)
      | (simp [applyAction] at h)

theorem foldlM_c5_fields {kind : ParseOptionsKind} :
    ∀ {args : List GoStr} {s s' : ParseState} {b b' : api.BuildOptions},
    args.foldlM (bindArg kind) s = .ok s' → s.opts = .build b → s'.opts = .build b' →
    b'.Define = args.foldl (fun m arg => mapUpd (defineEventOf (classify kind true arg)) m) b.Define
    ∧ b'.Loader =
        args.foldl (fun m arg => mapUpd (loaderEventOf (classify kind true arg)) m) b.Loader
    ∧ b'.Banner =
        args.foldl (fun m arg => mapUpd (bannerEventOf (classify kind true arg)) m) b.Banner
    ∧ b'.Footer =
        args.foldl (fun m arg => mapUpd (footerEventOf (classify kind true arg)) m) b.Footer
    ∧ b'.OutExtensions =
        args.foldl (fun m arg => mapUpd (outExtEventOf (classify kind true arg)) m) b.OutExtensions
    ∧ b'.External =
        args.foldl (fun l arg => listUpd (externalEventOf (classify kind true arg)) l) b.External
    ∧ b'.Inject =
        args.foldl (fun l arg => listUpd (injectEventOf (classify kind true arg)) l) b.Inject
    ∧ b'.Pure = args.foldl (fun l arg => listUpd (pureEventOf (classify kind true arg)) l) b.Pure
    ∧ b'.EntryPoints =
        args.foldl (fun l arg => listUpd (entryEventOf (classify kind true arg)) l) b.EntryPoints
    ∧ b'.Engines =
        args.foldl (fun x arg => replUpd (targetEnginesOf (classify kind true arg)) x) b.Engines := by
  intro args
  induction args with
  | nil =>
    intro s s' b b' h hb hb'
    simp only [List.foldlM_nil] at h
    cases h
    rw [hb] at hb'
    injection hb' with hbb
    subst hbb
    exact ⟨rfl, rfl, rfl, rfl, rfl, rfl, rfl, rfl, rfl, rfl⟩
  | cons a rest ih =>
    intro s s' b b' h hb hb'
    rw [List.foldlM_cons] at h
    cases hba : bindArg kind s a with
    | error e => rw [hba, except_bind_error] at h; cases h
    | ok s1 =>
      rw [hba, except_bind_ok] at h
      rw [bindArg_def] at hba
      have hib1 : s1.opts.isBuild = true := by
        rw [applyAction_isBuild hba, hb]
        rfl
      obtain ⟨b1, hb1⟩ : ∃ b1, s1.opts = .build b1 := by
        cases hso : s1.opts with
        | build x => exact ⟨_, rfl⟩
        | transform x => rw [hso] at hib1; cases hib1
      have hcl : classify kind s.opts.isBuild a = classify kind true a := by
        rw [hb]
        rfl
      have happ : applyAction (classify kind true a) s = .ok s1 := by
        rw [← hcl]
        exact hba
      have hframe := applyAction_c5_fields happ hb hb1
      have hrest := ih h hb1 hb'
      refine ⟨?_, ?_, ?_, ?_, ?_, ?_, ?_, ?_, ?_, ?_⟩
      · simp only [List.foldl_cons]; rw [← hframe.1]; exact hrest.1
      · simp only [List.foldl_cons]; rw [← hframe.2.1]; exact hrest.2.1
      · simp only [List.foldl_cons]; rw [← hframe.2.2.1]; exact hrest.2.2.1
      · simp only [List.foldl_cons]; rw [← hframe.2.2.2.1]; exact hrest.2.2.2.1
      · simp only [List.foldl_cons]; rw [← hframe.2.2.2.2.1]; exact hrest.2.2.2.2.1
      · simp only [List.foldl_cons]; rw [← hframe.2.2.2.2.2.1]; exact hrest.2.2.2.2.2.1
      · simp only [List.foldl_cons]
        rw [← hframe.2.2.2.2.2.2.1]
        exact hrest.2.2.2.2.2.2.1
      · simp only [List.foldl_cons]; rw [← hframe.2.2.2.2.2.2.2.1]
        exact hrest.2.2.2.2.2.2.2.1
      · simp only [List.foldl_cons]; rw [← hframe.2.2.2.2.2.2.2.2.1]
        exact hrest.2.2.2.2.2.2.2.2.1
      · simp only [List.foldl_cons]; rw [← hframe.2.2.2.2.2.2.2.2.2]
        exact hrest.2.2.2.2.2.2.2.2.2

theorem foldl_mapUpd_filterMap {α β : Type} (ev : β → Option (GoStr × α)) :
    ∀ (args : List β) (m0 : List (GoStr × α)),
    args.foldl (fun m arg => mapUpd (ev arg) m) m0
      = (args.filterMap ev).foldl (fun m kv => mapSet m kv.1 kv.2) m0 := by
  intro args
  induction args with
  | nil => intro m0; rfl
  | cons a rest ih =>
    intro m0
    simp only [List.foldl_cons]
    cases hv : ev a with
    | none =>
      simp only [List.filterMap_cons, hv]
      rw [ih]
      rfl
    | some kv =>
      simp only [List.filterMap_cons, hv]
      rw [ih]
      rfl

theorem foldl_listUpd_filterMap {α β : Type} (ev : β → Option α) :
    ∀ (args : List β) (init : List α),
    args.foldl (fun l arg => listUpd (ev arg) l) init = init ++ args.filterMap ev := by
  intro args
  induction args with
  | nil => intro init; simp
  | cons a rest ih =>
    intro init
    simp only [List.foldl_cons]
    cases hv : ev a with
    | none =>
      simp only [List.filterMap_cons, hv]
      rw [ih]
      rfl
    | some v =>
      simp only [List.filterMap_cons, hv]
      rw [ih]
      show (init ++ [v]) ++ List.filterMap ev rest = init ++ (v :: List.filterMap ev rest)
      rw [List.append_assoc]
      rfl

theorem getLast_cons_getD {α : Type} : ∀ (l : List α) (x init : α),
    ((x :: l).getLast?).getD init = (l.getLast?).getD x := by
  intro l
  induction l with
  | nil => intro x init; rfl
  | cons y ys ih =>
    intro x init
    rw [List.getLast?_cons_cons, ih y init, ih y x]

theorem foldl_replUpd_getLast {α β : Type} (ev : β → Option α) :
    ∀ (args : List β) (init : α),
    args.foldl (fun x arg => replUpd (ev arg) x) init
      = ((args.filterMap ev).getLast?).getD init := by
  intro args
  induction args with
  | nil => intro init; rfl
  | cons a rest ih =>
    intro init
    simp only [List.foldl_cons]
    cases hv : ev a with
    | none =>
      simp only [List.filterMap_cons, hv]
      rw [ih]
      rfl
    | some es =>
      simp only [List.filterMap_cons, hv]
      rw [ih]
      show (List.filterMap ev rest).getLast?.getD es
        = ((es :: List.filterMap ev rest).getLast?).getD init
      rw [getLast_cons_getD]

/-- Counterexample for C5 as stated: the engine-constraint list is not
append-only over the argument sequence — a later "--target=" flag replaces the
whole list instead of appending to it, so two --target flags leave only the
second flag's constraint rather than both. -/
theorem engines_not_appended_counterexample :
    (parseOptionsForRun [x_a_js, x_target_chrome80, x_target_firefox90]).1.map
        (fun b => b.Engines)
      = some [{ Name := api.EngineName.engineFirefox, Version := x_90 }]
    ∧ [{ Name := api.EngineName.engineChrome, Version := x_80 },
       { Name := api.EngineName.engineFirefox, Version := x_90 }]
      ≠ [({ Name := api.EngineName.engineFirefox, Version := x_90 } : api.Engine)] := by
  decide

/-- C5 amended: over a full Build-mode pass, every map-typed field (define,
loader, banner, footer, out-extension) is the fold of Go map assignments over
that field's per-argument events in order, so a repeated key keeps exactly one
entry holding the last assignment's value (the lookup and entry-count laws are
stated for arbitrary event sequences over a map with at most one entry per
key); every list-typed field among external, inject, pure and entry points is
the initial list with that field's event values appended in first-seen order
with duplicates kept; the engine-constraint list, however, is replaced
wholesale by each "--target=" flag, so it equals the last target flag's list
rather than an append of all of them. -/
theorem map_list_field_semantics :
    (∀ (kind : ParseOptionsKind) (args : List GoStr) (s s' : ParseState)
        (b b' : api.BuildOptions),
      args.foldlM (bindArg kind) s = .ok s' → s.opts = .build b → s'.opts = .build b' →
        b'.Define = (args.filterMap (fun arg => defineEventOf (classify kind true arg))).foldl
            (fun m kv => mapSet m kv.1 kv.2) b.Define
        ∧ b'.Loader = (args.filterMap (fun arg => loaderEventOf (classify kind true arg))).foldl
            (fun m kv => mapSet m kv.1 kv.2) b.Loader
        ∧ b'.Banner = (args.filterMap (fun arg => bannerEventOf (classify kind true arg))).foldl
            (fun m kv => mapSet m kv.1 kv.2) b.Banner
        ∧ b'.Footer = (args.filterMap (fun arg => footerEventOf (classify kind true arg))).foldl
            (fun m kv => mapSet m kv.1 kv.2) b.Footer
        ∧ b'.OutExtensions =
            (args.filterMap (fun arg => outExtEventOf (classify kind true arg))).foldl
              (fun m kv => mapSet m kv.1 kv.2) b.OutExtensions
        ∧ b'.External =
            b.External ++ args.filterMap (fun arg => externalEventOf (classify kind true arg))
        ∧ b'.Inject =
            b.Inject ++ args.filterMap (fun arg => injectEventOf (classify kind true arg))
        ∧ b'.Pure = b.Pure ++ args.filterMap (fun arg => pureEventOf (classify kind true arg))
        ∧ b'.EntryPoints =
            b.EntryPoints ++ args.filterMap (fun arg => entryEventOf (classify kind true arg))
        ∧ b'.Engines =
            ((args.filterMap (fun arg => targetEnginesOf (classify kind true arg))).getLast?).getD
              b.Engines)
    ∧ (∀ (α : Type) (events : List (GoStr × α)) (m0 : List (GoStr × α)) (k : GoStr),
        mapGet (events.foldl (fun m kv => mapSet m kv.1 kv.2) m0) k =
          (match lastValue k events with
           | some v => some v
           | none => mapGet m0 k))
    ∧ (∀ (α : Type) (events : List (GoStr × α)) (m0 : List (GoStr × α)) (k : GoStr),
        countKey m0 k ≤ 1 →
        countKey (events.foldl (fun m kv => mapSet m kv.1 kv.2) m0) k =
          (match lastValue k events with
           | some _ => 1
           | none => countKey m0 k))
    ∧ (parseOptionsForRun [x_a_js, x_loader_txt_text, x_loader_txt_json]).1.map
          (fun b => (mapGet b.Loader x_dot_txt, countKey b.Loader x_dot_txt))
        = some (some api.Loader.loaderJSON, 1) := by
  refine ⟨?_, ?_, ?_, by decide⟩
  · intro kind args s s' b b' h hb hb'
    obtain ⟨h1, h2, h3, h4, h5, h6, h7, h8, h9, h10⟩ := foldlM_c5_fields h hb hb'
    exact ⟨h1.trans (foldl_mapUpd_filterMap _ args b.Define),
      h2.trans (foldl_mapUpd_filterMap _ args b.Loader),
      h3.trans (foldl_mapUpd_filterMap _ args b.Banner),
      h4.trans (foldl_mapUpd_filterMap _ args b.Footer),
      h5.trans (foldl_mapUpd_filterMap _ args b.OutExtensions),
      h6.trans (foldl_listUpd_filterMap _ args b.External),
      h7.trans (foldl_listUpd_filterMap _ args b.Inject),
      h8.trans (foldl_listUpd_filterMap _ args b.Pure),
      h9.trans (foldl_listUpd_filterMap _ args b.EntryPoints),
      h10.trans (foldl_replUpd_getLast _ args b.Engines)⟩
  · intro α events m0 k
    exact foldl_mapSet_lookup events m0 k
  · intro α events m0 k h
    exact foldl_mapSet_count events m0 k h

/-- Witness for C5: the two assignments "--loader:.txt=text --loader:.txt=json"
drive the Loader map of the final Build config through the event fold; the
resulting map is the single entry (.txt, json). -/
theorem map_list_field_semantics_witness :
    ({ newBuildOptions with Loader := [(x_dot_txt, api.Loader.loaderJSON)] } :
        api.BuildOptions).Loader
      = ([x_loader_txt_text, x_loader_txt_json].filterMap
          (fun arg => loaderEventOf (classify .kindInternal true arg))).foldl
          (fun m kv => mapSet m kv.1 kv.2) newBuildOptions.Loader :=
  ((map_list_field_semantics.1 .kindInternal [x_loader_txt_text, x_loader_txt_json]
      ⟨.build newBuildOptions, false, none⟩
      ⟨.build { newBuildOptions with Loader := [(x_dot_txt, api.Loader.loaderJSON)] }, false,
        none⟩
      newBuildOptions { newBuildOptions with Loader := [(x_dot_txt, api.Loader.loaderJSON)] }
      (by decide) rfl rfl).2.1)
